import Mathlib

/-!
LR1121 Modem-E application examples: session logic

Shallow embedding of the four example applications
(`main_certification.c`, `main_class_b.c`, `main_fuota.c`, `main_multicast.c`).

* Static variables of a translation unit become the fields of a per-variant `State`.
* Every call into the modem driver is appended to a command trace (`World.trace`).
* What the modem answers (return codes, values written through out-pointers) is read
  from a `Modem` record, indexed by the number of commands issued before the call.
* `uint32_t` counters are natural numbers reduced modulo `2^32` at every update.
* Trace/log output (`HAL_DBG_TRACE_*`, `print_*`) has no effect on the session and is
  left out.
-/

namespace ModemE

/-- Return codes of the modem driver (`lr1121_modem_response_code_t`), as tested by
`ASSERT_SMTC_MODEM_RC`. -/
inductive ResponseCode
  | LR1121_MODEM_RESPONSE_CODE_OK
  | LR1121_MODEM_RESPONSE_CODE_NOT_INITIALIZED
  | LR1121_MODEM_RESPONSE_CODE_INVALID
  | LR1121_MODEM_RESPONSE_CODE_BUSY
  | LR1121_MODEM_RESPONSE_CODE_FAIL
  | LR1121_MODEM_RESPONSE_CODE_NO_TIME
  | LR1121_MODEM_RESPONSE_CODE_NO_EVENT
  deriving DecidableEq, Repr

/-- Certification mode (`lr1121_modem_certification_mode_t`). -/
inductive CertificationMode
  | LR1121_MODEM_CERTIFICATION_MODE_DISABLE
  | LR1121_MODEM_CERTIFICATION_MODE_ENABLE
  deriving DecidableEq, Repr

/-- Event tags switched on by `event_process`; `other` is any tag that none of the
applications names. -/
inductive EventType
  | LR1121_MODEM_LORAWAN_EVENT_RESET
  | LR1121_MODEM_LORAWAN_EVENT_ALARM
  | LR1121_MODEM_LORAWAN_EVENT_JOINED
  | LR1121_MODEM_LORAWAN_EVENT_TX_DONE
  | LR1121_MODEM_LORAWAN_EVENT_DOWN_DATA
  | LR1121_MODEM_LORAWAN_EVENT_JOIN_FAIL
  | LR1121_MODEM_LORAWAN_EVENT_LINK_CHECK
  | LR1121_MODEM_LORAWAN_EVENT_CLASS_B_PING_SLOT_INFO
  | LR1121_MODEM_LORAWAN_EVENT_CLASS_B_STATUS
  | LR1121_MODEM_LORAWAN_EVENT_LORAWAN_MAC_TIME
  | LR1121_MODEM_LORAWAN_EVENT_NEW_MULTICAST_SESSION_CLASS_C
  | LR1121_MODEM_LORAWAN_EVENT_NEW_MULTICAST_SESSION_CLASS_B
  | LR1121_MODEM_LORAWAN_EVENT_NO_MORE_MULTICAST_SESSION_CLASS_C
  | LR1121_MODEM_LORAWAN_EVENT_NO_MORE_MULTICAST_SESSION_CLASS_B
  | LR1121_MODEM_LORAWAN_EVENT_ALC_SYNC_TIME
  | LR1121_MODEM_LORAWAN_EVENT_FUOTA_DONE
  | LR1121_MODEM_LORAWAN_EVENT_REGIONAL_DUTY_CYCLE
  | other (tag : Nat)
  deriving DecidableEq, Repr

/-- One modem event (`lr1121_modem_event_fields_t`). -/
structure lr1121_modem_event_fields_t where
  event_type : EventType
  missed_events_count : Nat
  data : Nat
  deriving DecidableEq, Repr

/-- Enumeration constants of the modem driver headers. The headers are not part of the
application sources, so the numeric values are parameters. -/
structure DriverConsts where
  LR1121_MODEM_TX_NOT_SENT : Nat
  LR1121_MODEM_UNCONFIRMED_TX : Nat
  LR1121_MODEM_CONFIRMED_TX : Nat
  LR1121_MODEM_UPLINK_UNCONFIRMED : Nat
  LR1121_LORAWAN_CLASS_A : Nat
  LR1121_LORAWAN_CLASS_B : Nat
  LR1121_LORAWAN_CLASS_C : Nat
  LR1121_LORAWAN_JOINED : Nat
  LR1121_MODEM_CLASS_B_PING_SLOT_8_S : Nat
  LR1121_MODEM_CLASS_B_PING_SLOT_16_S : Nat
  deriving Repr

/-- Region opcode `LR1121_LORAWAN_REGION_EU868`; the multicast tables are indexed by
`LORAWAN_REGION_USED - 1` and hold the EU868 entry at index 0. -/
def LR1121_LORAWAN_REGION_EU868 : Nat := 1

/-- Region compiled into every application. -/
def LORAWAN_REGION_USED : Nat := LR1121_LORAWAN_REGION_EU868

/-- User application data buffer size. -/
def LORAWAN_APP_DATA_MAX_SIZE : Nat := 242

/-- Commands sent to the modem, with the arguments that the applications choose. -/
inductive Cmd
  | get_event
  | system_cfg_lfclk
  | set_crystal_error (ppm : Nat)
  | get_and_print_crashlog
  | get_certification_mode
  | set_certification_mode (mode : CertificationMode)
  | set_dev_eui
  | set_join_eui
  | set_app_key
  | set_nwk_key
  | system_read_uid
  | system_read_pin
  | get_join_eui
  | set_region (region : Nat)
  | get_and_print_lorawan_region_from_modem
  | join
  | leave_network
  | set_alarm_timer (seconds : Nat)
  | clear_alarm_timer
  | set_adr_profile
  | get_duty_cycle_status
  | get_next_tx_max_payload
  | request_tx (port : Nat) (tx_confirmed : Nat) (payload : Option (List Nat)) (size : Nat)
  | request_empty_tx (flush_mac : Bool) (port : Nat) (tx_confirmed : Nat)
  | get_downlink_data_size
  | get_downlink_data (size : Nat)
  | get_downlink_metadata
  | alc_sync_start_service
  | set_class (cls : Nat)
  | set_multicast_group_config (group : Nat) (grp_addr : Nat) (nwk_skey app_skey : List Nat)
  | get_multicast_class_b_session_status (group : Nat)
  | get_multicast_class_c_session_status (group : Nat)
  | get_status
  | set_class_b_ping_slot_periodicity (periodicity : Nat)
  | start_session_multicast_class_b (group : Nat) (freq : Nat) (dr : Nat) (periodicity : Nat)
  | start_session_multicast_class_c (group : Nat) (freq : Nat) (dr : Nat)
  | stop_all_session_multicast_class_b
  | stop_all_session_multicast_class_c
  deriving DecidableEq, Repr

/-- Answers of the modem. Each field gives what the command issued at position `k` of the
trace returns or leaves in its out-parameter. -/
structure Modem where
  rc : Nat → ResponseCode
  duty_cycle : Nat → Int
  tx_max_payload : Nat → Nat
  certification_mode : Nat → CertificationMode
  region : Nat → Nat
  downlink_size : Nat → Nat
  downlink_remaining : Nat → Nat
  downlink_data : Nat → List Nat
  downlink_fport : Nat → Nat
  status : Nat → Nat
  is_session_started : Nat → Nat
  is_session_waiting_for_beacon : Nat → Nat

/-- Static variables of one application together with the commands issued so far. -/
structure World (σ : Type) where
  app : σ
  trace : List Cmd

/-- Issue one command: it is appended to the trace. -/
def issue {σ : Type} (c : Cmd) (w : World σ) : World σ :=
  { w with trace := w.trace ++ [c] }

/-- Position of the next command, the index at which the modem's answer is read. -/
def World.now {σ : Type} (w : World σ) : Nat := w.trace.length

/-- A transmit command: `request_tx` or `request_empty_tx`. -/
def Cmd.isTx : Cmd → Bool
  | Cmd.request_tx _ _ _ _ => true
  | Cmd.request_empty_tx _ _ _ => true
  | _ => false

/-- The do-while loop shared by the four `event_process` functions: poll `get_event`,
run the switch on an OK answer, leave on NO_EVENT. `answers` lists what successive
`get_event` calls return; the result is `none` when the answers run out before a
NO_EVENT answer. -/
def event_loop {σ : Type} (on_event : lr1121_modem_event_fields_t → World σ → World σ) :
    List (ResponseCode × lr1121_modem_event_fields_t) → World σ → Option (World σ)
  | [], _ => none
  | (rc_event, current_event) :: rest, w =>
    let w1 := issue Cmd.get_event w
    let w2 := if rc_event = ResponseCode.LR1121_MODEM_RESPONSE_CODE_OK
      then on_event current_event w1 else w1
    if rc_event ≠ ResponseCode.LR1121_MODEM_RESPONSE_CODE_NO_EVENT
    then event_loop on_event rest w2 else some w2

/-- `send_frame` (the same text in `main_certification.c` and `main_multicast.c`):
duty-cycle gate, max-payload clamp, one `request_tx`. -/
def send_frame {σ : Type} (m : Modem) (tx_frame_buffer : List Nat) (tx_frame_buffer_size : Nat)
    (port : Nat) (tx_confirmed : Nat) (w : World σ) : ResponseCode × World σ :=
  let modem_response_code := ResponseCode.LR1121_MODEM_RESPONSE_CODE_OK
  let duty_cycle := m.duty_cycle w.now
  let w1 := issue Cmd.get_duty_cycle_status w
  if duty_cycle < 0 then (modem_response_code, w1)
  else
    let tx_max_payload := m.tx_max_payload w1.now
    let w2 := issue Cmd.get_next_tx_max_payload w1
    if tx_frame_buffer_size > tx_max_payload then
      (m.rc w2.now, issue (Cmd.request_tx port tx_confirmed none 0) w2)
    else
      (m.rc w2.now,
        issue (Cmd.request_tx port tx_confirmed (some tx_frame_buffer) tx_frame_buffer_size) w2)

/-- Credentials block of the RESET case: `USE_LR11XX_CREDENTIALS` selects at compile time
between setting the user credentials and reading the chip credentials. -/
def reset_credentials {σ : Type} ( use_lr11xx_credentials : Bool) (w : World σ) : World σ :=
  if use_lr11xx_credentials then
    issue Cmd.get_join_eui (issue Cmd.system_read_pin (issue Cmd.system_read_uid w))
  else
    issue Cmd.set_nwk_key (issue Cmd.set_app_key (issue Cmd.set_join_eui (issue Cmd.set_dev_eui w)))

/-- Credentials block of the certification RESET case when certification mode is already
enabled: the user credentials are only printed, the chip credentials are read. -/
def reset_credentials_print_only {σ : Type} ( use_lr11xx_credentials : Bool) (w : World σ) :
    World σ :=
  if use_lr11xx_credentials then
    issue Cmd.get_join_eui (issue Cmd.system_read_pin (issue Cmd.system_read_uid w))
  else w

/-- DOWN_DATA case of the applications that keep the receive buffer in locals:
`get_downlink_data_size`, `get_downlink_data( rx_payload, rx_payload_size )`,
`get_downlink_metadata`. -/
def read_downlink {σ : Type} (m : Modem) (w : World σ) : World σ :=
  let rx_payload_size := m.downlink_size w.now
  let w1 := issue Cmd.get_downlink_data_size w
  let w2 := issue (Cmd.get_downlink_data rx_payload_size) w1
  issue Cmd.get_downlink_metadata w2

/-! ## Certification application (`main_certification.c`) -/

namespace Certification

/-- Periodical uplink alarm delay in seconds. -/
def PERIODICAL_UPLINK_DELAY_S : Nat := 30

/-- Static variables of `main_certification.c`. -/
structure State where
  rx_payload : List Nat
  rx_payload_size : Nat
  rx_fport : Nat
  rx_remaining : Nat
  user_button_is_press : Bool
  certif_running : CertificationMode
  uplink_counter : Nat
  confirmed_counter : Nat
  last_press_timestamp_ms : Nat
  deriving DecidableEq, Repr

/-- Values of the statics at program start. -/
def State.init : State :=
  { rx_payload := List.replicate LORAWAN_APP_DATA_MAX_SIZE 0
    rx_payload_size := 0
    rx_fport := 0
    rx_remaining := 0
    user_button_is_press := false
    certif_running := CertificationMode.LR1121_MODEM_CERTIFICATION_MODE_DISABLE
    uplink_counter := 0
    confirmed_counter := 0
    last_press_timestamp_ms := 0 }

/-- The 8-byte buffer filled by `send_uplinks_counter_on_port`: four stores from
`uplink_counter`, then four stores from `confirmed_counter`, at the indices written in
the source. -/
def uplinks_counter_buff (uplink_counter confirmed_counter : Nat) : List Nat :=
  let buff := List.replicate 8 0
  let buff := buff.set 0 ((uplink_counter >>> 24) &&& 0xFF)
  let buff := buff.set 1 ((uplink_counter >>> 16) &&& 0xFF)
  let buff := buff.set 2 ((uplink_counter >>> 8) &&& 0xFF)
  let buff := buff.set 3 (uplink_counter &&& 0xFF)
  let buff := buff.set 0 ((confirmed_counter >>> 24) &&& 0xFF)
  let buff := buff.set 1 ((confirmed_counter >>> 16) &&& 0xFF)
  let buff := buff.set 2 ((confirmed_counter >>> 8) &&& 0xFF)
  let buff := buff.set 3 (confirmed_counter &&& 0xFF)
  buff

/-- `send_uplinks_counter_on_port`: build the buffer, call `send_frame( buff, 8, port, true )`,
then `uplink_counter++`. -/
def send_uplinks_counter_on_port (m : Modem) (port : Nat) (w : World State) : World State :=
  let buff := uplinks_counter_buff w.app.uplink_counter w.app.confirmed_counter
  let w1 := (send_frame m buff 8 port 1 w).2
  { w1 with app := { w1.app with uplink_counter := (w1.app.uplink_counter + 1) % 2 ^ 32 } }

/-- Case `LR1121_MODEM_LORAWAN_EVENT_RESET`. -/
def on_reset ( use_lr11xx_credentials : Bool) (m : Modem) (w : World State) : World State :=
  let w1 := issue Cmd.system_cfg_lfclk w
  let w2 := issue (Cmd.set_crystal_error 50) w1
  let w3 := issue Cmd.get_and_print_crashlog w2
  let mode := m.certification_mode w3.now
  let w4 := issue Cmd.get_certification_mode w3
  let w5 : World State := { w4 with app := { w4.app with certif_running := mode } }
  if w5.app.certif_running = CertificationMode.LR1121_MODEM_CERTIFICATION_MODE_DISABLE then
    let w6 := reset_credentials use_lr11xx_credentials w5
    let w7 := issue (Cmd.set_region LORAWAN_REGION_USED) w6
    issue Cmd.join w7
  else
    let w6 := reset_credentials_print_only use_lr11xx_credentials w5
    let modem_region := m.region w6.now
    let w7 := issue Cmd.get_and_print_lorawan_region_from_modem w6
    if modem_region ≠ LORAWAN_REGION_USED then issue Cmd.leave_network w7 else w7

/-- Case `LR1121_MODEM_LORAWAN_EVENT_ALARM`. -/
def on_alarm (m : Modem) (w : World State) : World State :=
  if w.app.certif_running = CertificationMode.LR1121_MODEM_CERTIFICATION_MODE_ENABLE then
    issue Cmd.clear_alarm_timer w
  else
    issue (Cmd.set_alarm_timer PERIODICAL_UPLINK_DELAY_S) (send_uplinks_counter_on_port m 101 w)

/-- Case `LR1121_MODEM_LORAWAN_EVENT_JOINED`. -/
def on_joined (m : Modem) (w : World State) : World State :=
  let w1 := issue Cmd.set_adr_profile w
  if w1.app.certif_running = CertificationMode.LR1121_MODEM_CERTIFICATION_MODE_DISABLE then
    issue (Cmd.set_alarm_timer PERIODICAL_UPLINK_DELAY_S) (send_uplinks_counter_on_port m 101 w1)
  else w1

/-- Case `LR1121_MODEM_LORAWAN_EVENT_TX_DONE`: the status is `data >> 8`. The unsigned
`uplink_counter--` adds `2^32 - 1` modulo `2^32`. -/
def on_tx_done (k : DriverConsts) (data : Nat) (w : World State) : World State :=
  let tx_done_event_data := data >>> 8
  if tx_done_event_data = k.LR1121_MODEM_TX_NOT_SENT then
    { w with app := { w.app with uplink_counter := (2 ^ 32 - 1 + w.app.uplink_counter) % 2 ^ 32 } }
  else if tx_done_event_data = k.LR1121_MODEM_CONFIRMED_TX then
    { w with app := { w.app with confirmed_counter := (w.app.confirmed_counter + 1) % 2 ^ 32 } }
  else if tx_done_event_data = k.LR1121_MODEM_UNCONFIRMED_TX then w
  else w

/-- Case `LR1121_MODEM_LORAWAN_EVENT_DOWN_DATA`. -/
def on_down_data (m : Modem) (w : World State) : World State :=
  let size := m.downlink_size w.now
  let remaining := m.downlink_remaining w.now
  let w1 := issue Cmd.get_downlink_data_size w
  let w2 : World State :=
    { w1 with app := { w1.app with rx_payload_size := size, rx_remaining := remaining } }
  let data := m.downlink_data w2.now
  let w3 := issue (Cmd.get_downlink_data w2.app.rx_payload_size) w2
  let w4 : World State := { w3 with app := { w3.app with rx_payload := data } }
  let fport := m.downlink_fport w4.now
  let w5 := issue Cmd.get_downlink_metadata w4
  { w5 with app := { w5.app with rx_fport := fport } }

/-- The switch of `event_process`. -/
def on_event ( use_lr11xx_credentials : Bool) (k : DriverConsts) (m : Modem)
    (current_event : lr1121_modem_event_fields_t) (w : World State) : World State :=
  match current_event.event_type with
  | EventType.LR1121_MODEM_LORAWAN_EVENT_RESET => on_reset use_lr11xx_credentials m w
  | EventType.LR1121_MODEM_LORAWAN_EVENT_ALARM => on_alarm m w
  | EventType.LR1121_MODEM_LORAWAN_EVENT_JOINED => on_joined m w
  | EventType.LR1121_MODEM_LORAWAN_EVENT_TX_DONE => on_tx_done k current_event.data w
  | EventType.LR1121_MODEM_LORAWAN_EVENT_DOWN_DATA => on_down_data m w
  | EventType.LR1121_MODEM_LORAWAN_EVENT_JOIN_FAIL => w
  | EventType.LR1121_MODEM_LORAWAN_EVENT_LINK_CHECK => w
  | EventType.LR1121_MODEM_LORAWAN_EVENT_CLASS_B_PING_SLOT_INFO => w
  | EventType.LR1121_MODEM_LORAWAN_EVENT_CLASS_B_STATUS => w
  | EventType.LR1121_MODEM_LORAWAN_EVENT_LORAWAN_MAC_TIME => w
  | EventType.LR1121_MODEM_LORAWAN_EVENT_NEW_MULTICAST_SESSION_CLASS_C => w
  | EventType.LR1121_MODEM_LORAWAN_EVENT_NEW_MULTICAST_SESSION_CLASS_B => w
  | EventType.LR1121_MODEM_LORAWAN_EVENT_NO_MORE_MULTICAST_SESSION_CLASS_C => w
  | EventType.LR1121_MODEM_LORAWAN_EVENT_NO_MORE_MULTICAST_SESSION_CLASS_B => w
  | EventType.LR1121_MODEM_LORAWAN_EVENT_REGIONAL_DUTY_CYCLE => w
  | _ => w

/-- `event_process` of the certification application. -/
def event_process ( use_lr11xx_credentials : Bool) (k : DriverConsts) (m : Modem)
    (answers : List (ResponseCode × lr1121_modem_event_fields_t)) (w : World State) :
    Option (World State) :=
  event_loop (on_event use_lr11xx_credentials k m) answers w

/-- `main_handle_button_pushed` of the certification application: toggle certification
mode. -/
def main_handle_button_pushed (w : World State) : World State :=
  if w.app.certif_running = CertificationMode.LR1121_MODEM_CERTIFICATION_MODE_ENABLE then
    let w1 := issue
      (Cmd.set_certification_mode CertificationMode.LR1121_MODEM_CERTIFICATION_MODE_DISABLE) w
    let w2 := issue Cmd.leave_network w1
    let w3 := issue Cmd.join w2
    { w3 with app := { w3.app with
        certif_running := CertificationMode.LR1121_MODEM_CERTIFICATION_MODE_DISABLE } }
  else
    let w1 := issue
      (Cmd.set_certification_mode CertificationMode.LR1121_MODEM_CERTIFICATION_MODE_ENABLE) w
    { w1 with app := { w1.app with
        certif_running := CertificationMode.LR1121_MODEM_CERTIFICATION_MODE_ENABLE } }

/-- What can happen to the certification application: the switch runs on an event, or the
main loop handles a user-action trigger. -/
inductive Step
  | event (e : lr1121_modem_event_fields_t)
  | user_action

/-- One step of the certification application. -/
def step ( use_lr11xx_credentials : Bool) (k : DriverConsts) (m : Modem) :
    Step → World State → World State
  | Step.event e, w => on_event use_lr11xx_credentials k m e w
  | Step.user_action, w => main_handle_button_pushed w

end Certification

/-! ## Class B application (`main_class_b.c`) -/

namespace ClassB

/-- Static variables of `main_class_b.c`. -/
structure State where
  user_button_is_press : Bool
  class_b_set : Bool
  class_b_ready : Bool
  last_press_timestamp_ms : Nat
  deriving DecidableEq, Repr

/-- Values of the statics at program start. -/
def State.init : State :=
  { user_button_is_press := false
    class_b_set := false
    class_b_ready := false
    last_press_timestamp_ms := 0 }

/-- `send_empty_uplink( port, tx_confirmed )`: duty-cycle gate, then one
`request_empty_tx( &lr1121, true, port, tx_confirmed )`. -/
def send_empty_uplink (m : Modem) (port : Nat) (tx_confirmed : Nat) (w : World State) :
    ResponseCode × World State :=
  let modem_response_code := ResponseCode.LR1121_MODEM_RESPONSE_CODE_OK
  let duty_cycle := m.duty_cycle w.now
  let w1 := issue Cmd.get_duty_cycle_status w
  if duty_cycle < 0 then (modem_response_code, w1)
  else (m.rc w1.now, issue (Cmd.request_empty_tx true port tx_confirmed) w1)

/-- Case `LR1121_MODEM_LORAWAN_EVENT_RESET`. -/
def on_reset ( use_lr11xx_credentials : Bool) (w : World State) : World State :=
  let w1 := issue Cmd.system_cfg_lfclk w
  let w2 := issue (Cmd.set_crystal_error 50) w1
  let w3 := issue Cmd.get_and_print_crashlog w2
  let w4 : World State := { w3 with app := { w3.app with class_b_set := false } }
  let w5 : World State := { w4 with app := { w4.app with class_b_ready := false } }
  let w6 := reset_credentials use_lr11xx_credentials w5
  let w7 := issue (Cmd.set_region LORAWAN_REGION_USED) w6
  issue Cmd.join w7

/-- Case `LR1121_MODEM_LORAWAN_EVENT_TX_DONE`: the status switch only prints. -/
def on_tx_done (w : World State) : World State :=
  if w.app.class_b_set && !w.app.class_b_ready then
    { w with app := { w.app with class_b_ready := true } }
  else w

/-- Case `LR1121_MODEM_LORAWAN_EVENT_CLASS_B_STATUS`. -/
def on_class_b_status (k : DriverConsts) (m : Modem) (data : Nat) (w : World State) :
    World State :=
  if data ≠ 0 then (send_empty_uplink m 10 k.LR1121_MODEM_UNCONFIRMED_TX w).2 else w

/-- The switch of `event_process`. -/
def on_event ( use_lr11xx_credentials : Bool) (k : DriverConsts) (m : Modem)
    (current_event : lr1121_modem_event_fields_t) (w : World State) : World State :=
  match current_event.event_type with
  | EventType.LR1121_MODEM_LORAWAN_EVENT_RESET => on_reset use_lr11xx_credentials w
  | EventType.LR1121_MODEM_LORAWAN_EVENT_ALARM => w
  | EventType.LR1121_MODEM_LORAWAN_EVENT_JOINED => issue Cmd.set_adr_profile w
  | EventType.LR1121_MODEM_LORAWAN_EVENT_TX_DONE => on_tx_done w
  | EventType.LR1121_MODEM_LORAWAN_EVENT_DOWN_DATA => read_downlink m w
  | EventType.LR1121_MODEM_LORAWAN_EVENT_JOIN_FAIL => w
  | EventType.LR1121_MODEM_LORAWAN_EVENT_LINK_CHECK => w
  | EventType.LR1121_MODEM_LORAWAN_EVENT_CLASS_B_PING_SLOT_INFO => w
  | EventType.LR1121_MODEM_LORAWAN_EVENT_CLASS_B_STATUS =>
    on_class_b_status k m current_event.data w
  | EventType.LR1121_MODEM_LORAWAN_EVENT_LORAWAN_MAC_TIME => w
  | EventType.LR1121_MODEM_LORAWAN_EVENT_NEW_MULTICAST_SESSION_CLASS_C => w
  | EventType.LR1121_MODEM_LORAWAN_EVENT_NEW_MULTICAST_SESSION_CLASS_B => w
  | EventType.LR1121_MODEM_LORAWAN_EVENT_NO_MORE_MULTICAST_SESSION_CLASS_C => w
  | EventType.LR1121_MODEM_LORAWAN_EVENT_NO_MORE_MULTICAST_SESSION_CLASS_B => w
  | _ => w

/-- `event_process` of the Class B application. -/
def event_process ( use_lr11xx_credentials : Bool) (k : DriverConsts) (m : Modem)
    (answers : List (ResponseCode × lr1121_modem_event_fields_t)) (w : World State) :
    Option (World State) :=
  event_loop (on_event use_lr11xx_credentials k m) answers w

/-- Ping slot periodicity compiled into the application. -/
def PING_SLOT_PERIODICITY (k : DriverConsts) : Nat := k.LR1121_MODEM_CLASS_B_PING_SLOT_8_S

/-- `main_handle_button_pushed` of the Class B application: read the modem status; when
the JOINED bit is set, arm Class B or go back to Class A. -/
def main_handle_button_pushed (k : DriverConsts) (m : Modem) (w : World State) : World State :=
  let status := m.status w.now
  let w1 := issue Cmd.get_status w
  if status &&& k.LR1121_LORAWAN_JOINED = k.LR1121_LORAWAN_JOINED then
    if !w1.app.class_b_set then
      let w2 := issue (Cmd.set_class_b_ping_slot_periodicity (PING_SLOT_PERIODICITY k)) w1
      let w3 := issue (Cmd.set_class k.LR1121_LORAWAN_CLASS_B) w2
      { w3 with app := { w3.app with class_b_set := true } }
    else
      let w2 := issue (Cmd.set_class k.LR1121_LORAWAN_CLASS_A) w1
      let w3 : World State := { w2 with app := { w2.app with class_b_ready := false } }
      { w3 with app := { w3.app with class_b_set := false } }
  else w1

/-- What can happen to the Class B application: the switch runs on an event, or the
main loop handles a user-action trigger. -/
inductive Step
  | event (e : lr1121_modem_event_fields_t)
  | user_action

/-- One step of the Class B application. -/
def step ( use_lr11xx_credentials : Bool) (k : DriverConsts) (m : Modem) :
    Step → World State → World State
  | Step.event e, w => on_event use_lr11xx_credentials k m e w
  | Step.user_action, w => main_handle_button_pushed k m w

end ClassB

/-! ## FUOTA application (`main_fuota.c`) -/

namespace Fuota

/-- Periodical uplink alarm delay in seconds. -/
def PERIODICAL_UPLINK_DELAY_S : Nat := 50

/-- Static variables of `main_fuota.c`. -/
structure State where
  user_button_is_press : Bool
  last_press_timestamp_ms : Nat
  deriving DecidableEq, Repr

/-- Values of the statics at program start. -/
def State.init : State :=
  { user_button_is_press := false
    last_press_timestamp_ms := 0 }

/-- `send_empty_uplink( tx_confirmed )`: duty-cycle gate, then one
`request_empty_tx( &lr1121, false, 1, tx_confirmed )`. -/
def send_empty_uplink (m : Modem) (tx_confirmed : Nat) (w : World State) :
    ResponseCode × World State :=
  let modem_response_code := ResponseCode.LR1121_MODEM_RESPONSE_CODE_OK
  let duty_cycle := m.duty_cycle w.now
  let w1 := issue Cmd.get_duty_cycle_status w
  if duty_cycle < 0 then (modem_response_code, w1)
  else (m.rc w1.now, issue (Cmd.request_empty_tx false 1 tx_confirmed) w1)

/-- Case `LR1121_MODEM_LORAWAN_EVENT_RESET`. -/
def on_reset ( use_lr11xx_credentials : Bool) (m : Modem) (w : World State) : World State :=
  let w1 := issue Cmd.system_cfg_lfclk w
  let w2 := issue (Cmd.set_crystal_error 50) w1
  let w3 := issue Cmd.get_and_print_crashlog w2
  let w4 := reset_credentials use_lr11xx_credentials w3
  let w5 := issue (Cmd.set_region LORAWAN_REGION_USED) w4
  let actual_cerification_mode := m.certification_mode w5.now
  let w6 := issue Cmd.get_certification_mode w5
  let w7 :=
    if actual_cerification_mode ≠ CertificationMode.LR1121_MODEM_CERTIFICATION_MODE_ENABLE then
      issue (Cmd.set_certification_mode CertificationMode.LR1121_MODEM_CERTIFICATION_MODE_ENABLE) w6
    else w6
  issue Cmd.join w7

/-- Case `LR1121_MODEM_LORAWAN_EVENT_ALARM`. -/
def on_alarm (k : DriverConsts) (m : Modem) (w : World State) : World State :=
  issue (Cmd.set_alarm_timer PERIODICAL_UPLINK_DELAY_S)
    (send_empty_uplink m k.LR1121_MODEM_UPLINK_UNCONFIRMED w).2

/-- Case `LR1121_MODEM_LORAWAN_EVENT_JOINED`. -/
def on_joined (k : DriverConsts) (m : Modem) (w : World State) : World State :=
  let w1 := issue Cmd.set_adr_profile w
  let w2 := (send_empty_uplink m k.LR1121_MODEM_UPLINK_UNCONFIRMED w1).2
  let w3 := issue Cmd.alc_sync_start_service w2
  issue (Cmd.set_alarm_timer PERIODICAL_UPLINK_DELAY_S) w3

/-- The switch of `event_process`; the multicast group id is `( uint8_t )( data >> 1 )`. -/
def on_event ( use_lr11xx_credentials : Bool) (k : DriverConsts) (m : Modem)
    (current_event : lr1121_modem_event_fields_t) (w : World State) : World State :=
  match current_event.event_type with
  | EventType.LR1121_MODEM_LORAWAN_EVENT_RESET => on_reset use_lr11xx_credentials m w
  | EventType.LR1121_MODEM_LORAWAN_EVENT_ALARM => on_alarm k m w
  | EventType.LR1121_MODEM_LORAWAN_EVENT_JOINED => on_joined k m w
  | EventType.LR1121_MODEM_LORAWAN_EVENT_TX_DONE => w
  | EventType.LR1121_MODEM_LORAWAN_EVENT_DOWN_DATA => read_downlink m w
  | EventType.LR1121_MODEM_LORAWAN_EVENT_JOIN_FAIL => w
  | EventType.LR1121_MODEM_LORAWAN_EVENT_LINK_CHECK => w
  | EventType.LR1121_MODEM_LORAWAN_EVENT_CLASS_B_PING_SLOT_INFO => w
  | EventType.LR1121_MODEM_LORAWAN_EVENT_CLASS_B_STATUS => w
  | EventType.LR1121_MODEM_LORAWAN_EVENT_LORAWAN_MAC_TIME => w
  | EventType.LR1121_MODEM_LORAWAN_EVENT_NEW_MULTICAST_SESSION_CLASS_C =>
    issue (Cmd.get_multicast_class_c_session_status ((current_event.data >>> 1) % 256)) w
  | EventType.LR1121_MODEM_LORAWAN_EVENT_NEW_MULTICAST_SESSION_CLASS_B =>
    issue (Cmd.get_multicast_class_b_session_status ((current_event.data >>> 1) % 256)) w
  | EventType.LR1121_MODEM_LORAWAN_EVENT_NO_MORE_MULTICAST_SESSION_CLASS_C => w
  | EventType.LR1121_MODEM_LORAWAN_EVENT_NO_MORE_MULTICAST_SESSION_CLASS_B => w
  | EventType.LR1121_MODEM_LORAWAN_EVENT_ALC_SYNC_TIME => w
  | EventType.LR1121_MODEM_LORAWAN_EVENT_FUOTA_DONE => w
  | EventType.LR1121_MODEM_LORAWAN_EVENT_REGIONAL_DUTY_CYCLE => w
  | _ => w

/-- `event_process` of the FUOTA application. -/
def event_process ( use_lr11xx_credentials : Bool) (k : DriverConsts) (m : Modem)
    (answers : List (ResponseCode × lr1121_modem_event_fields_t)) (w : World State) :
    Option (World State) :=
  event_loop (on_event use_lr11xx_credentials k m) answers w

/-- The button block of the main loop of the FUOTA application (the body of
`if( user_button_is_press == true )` after the flag is cleared): read the modem status and
send an empty uplink when the JOINED bit is set. -/
def main_button_pushed (k : DriverConsts) (m : Modem) (w : World State) : World State :=
  let modem_status := m.status w.now
  let w1 := issue Cmd.get_status w
  if modem_status &&& k.LR1121_LORAWAN_JOINED = k.LR1121_LORAWAN_JOINED then
    (send_empty_uplink m k.LR1121_MODEM_UPLINK_UNCONFIRMED w1).2
  else w1

/-- What can happen to the FUOTA application: the switch runs on an event, or the main
loop handles a user-action trigger. -/
inductive Step
  | event (e : lr1121_modem_event_fields_t)
  | user_action

/-- One step of the FUOTA application. -/
def step ( use_lr11xx_credentials : Bool) (k : DriverConsts) (m : Modem) :
    Step → World State → World State
  | Step.event e, w => on_event use_lr11xx_credentials k m e w
  | Step.user_action, w => main_button_pushed k m w

end Fuota

/-! ## Multicast application (`main_multicast.c`) -/

namespace Multicast

/-- Multicast session class definitions of the application. -/
def LORAWAN_CLASS_B : Nat := 0x01

/-- Second multicast session class definition of the application. -/
def LORAWAN_CLASS_C : Nat := 0x02

/-- Multicast class compiled into the application. -/
def MULTICAST_SESSION_CLASS : Nat := LORAWAN_CLASS_B

/-- Number of multicast sessions. -/
def NUMBER_MULTICAST_SESSION : Nat := 2

/-- Multicast session keys `MULTICAST_KEYS[NUMBER_MULTICAST_SESSION][3][16]`: group address
(4 bytes, the rest of the row is zero), network session key, application session key. -/
def MULTICAST_KEYS : List (List (List Nat)) :=
  [ [ [0x01, 0x02, 0x03, 0x04, 0, 0, 0, 0, 0, 0, 0, 0, 0, 0, 0, 0],
      [0x05, 0x06, 0x07, 0x08, 0x09, 0x0A, 0x0B, 0x0C, 0x0D, 0x0E, 0x0F, 0x10, 0x11, 0x12, 0x13,
        0x14],
      [0x15, 0x16, 0x17, 0x18, 0x19, 0x1A, 0x1B, 0x1C, 0x1D, 0x1E, 0x1F, 0x20, 0x21, 0x22, 0x23,
        0x24] ],
    [ [0x25, 0x26, 0x27, 0x28, 0, 0, 0, 0, 0, 0, 0, 0, 0, 0, 0, 0],
      [0x29, 0x2A, 0x2B, 0x2C, 0x2D, 0x2E, 0x2F, 0x30, 0x31, 0x32, 0x33, 0x34, 0x35, 0x36, 0x37,
        0x38],
      [0x3A, 0x3B, 0x3C, 0x3D, 0x3E, 0x3F, 0x40, 0x41, 0x42, 0x43, 0x44, 0x45, 0x46, 0x47, 0x48,
        0x49] ] ]

/-- Table lookup `MULTICAST_KEYS[i][j]`. -/
def multicast_key (i j : Nat) : List Nat := (MULTICAST_KEYS.getD i []).getD j []

/-- Group address of session `i`, assembled big-endian from `MULTICAST_KEYS[i][0][0..3]`. -/
def grp_addr (i : Nat) : Nat :=
  (((multicast_key i 0).getD 0 0) <<< 24) ||| (((multicast_key i 0).getD 1 0) <<< 16) |||
    (((multicast_key i 0).getD 2 0) <<< 8) ||| ((multicast_key i 0).getD 3 0)

/-- Static variables of `main_multicast.c`. -/
structure State where
  user_button_is_press : Bool
  unicast_ready : Bool
  multicast_started : Bool
  last_press_timestamp_ms : Nat
  deriving DecidableEq, Repr

/-- Values of the statics at program start. -/
def State.init : State :=
  { user_button_is_press := false
    unicast_ready := false
    multicast_started := false
    last_press_timestamp_ms := 0 }

/-- Case `LR1121_MODEM_LORAWAN_EVENT_RESET`. -/
def on_reset ( use_lr11xx_credentials : Bool) (w : World State) : World State :=
  let w1 := issue Cmd.system_cfg_lfclk w
  let w2 := issue (Cmd.set_crystal_error 50) w1
  let w3 := issue Cmd.get_and_print_crashlog w2
  let w4 : World State := { w3 with app := { w3.app with unicast_ready := false } }
  let w5 : World State := { w4 with app := { w4.app with multicast_started := false } }
  let w6 := reset_credentials use_lr11xx_credentials w5
  let w7 := issue (Cmd.set_region LORAWAN_REGION_USED) w6
  issue Cmd.join w7

/-- The `for` loop of the JOINED case: one `set_multicast_group_config` per session. -/
def configure_groups (w : World State) : World State :=
  (List.range NUMBER_MULTICAST_SESSION).foldl
    (fun acc i =>
      issue (Cmd.set_multicast_group_config i (grp_addr i) (multicast_key i 1) (multicast_key i 2))
        acc) w

/-- The block shared by the JOINED and CLASS_B_STATUS cases: `unicast_ready = true`, then
`send_frame( buff, 8, 10, LR1121_MODEM_UNCONFIRMED_TX )` with a zeroed buffer. -/
def enable_unicast (k : DriverConsts) (m : Modem) (w : World State) : World State :=
  let w1 : World State := { w with app := { w.app with unicast_ready := true } }
  (send_frame m (List.replicate 8 0) 8 10 k.LR1121_MODEM_UNCONFIRMED_TX w1).2

/-- Case `LR1121_MODEM_LORAWAN_EVENT_JOINED`. -/
def on_joined (k : DriverConsts) (m : Modem) (w : World State) : World State :=
  let w1 := issue Cmd.set_adr_profile w
  let w2 := issue (Cmd.set_class MULTICAST_SESSION_CLASS) w1
  let w3 := configure_groups w2
  if MULTICAST_SESSION_CLASS = k.LR1121_LORAWAN_CLASS_C then enable_unicast k m w3 else w3

/-- Case `LR1121_MODEM_LORAWAN_EVENT_CLASS_B_STATUS`. -/
def on_class_b_status (k : DriverConsts) (m : Modem) (data : Nat) (w : World State) :
    World State :=
  if data ≠ 0 ∧ MULTICAST_SESSION_CLASS = k.LR1121_LORAWAN_CLASS_B then enable_unicast k m w
  else w

/-- The switch of `event_process`. -/
def on_event ( use_lr11xx_credentials : Bool) (k : DriverConsts) (m : Modem)
    (current_event : lr1121_modem_event_fields_t) (w : World State) : World State :=
  match current_event.event_type with
  | EventType.LR1121_MODEM_LORAWAN_EVENT_RESET => on_reset use_lr11xx_credentials w
  | EventType.LR1121_MODEM_LORAWAN_EVENT_ALARM => w
  | EventType.LR1121_MODEM_LORAWAN_EVENT_JOINED => on_joined k m w
  | EventType.LR1121_MODEM_LORAWAN_EVENT_TX_DONE => w
  | EventType.LR1121_MODEM_LORAWAN_EVENT_DOWN_DATA => read_downlink m w
  | EventType.LR1121_MODEM_LORAWAN_EVENT_JOIN_FAIL => w
  | EventType.LR1121_MODEM_LORAWAN_EVENT_LINK_CHECK => w
  | EventType.LR1121_MODEM_LORAWAN_EVENT_CLASS_B_PING_SLOT_INFO => w
  | EventType.LR1121_MODEM_LORAWAN_EVENT_CLASS_B_STATUS =>
    on_class_b_status k m current_event.data w
  | EventType.LR1121_MODEM_LORAWAN_EVENT_LORAWAN_MAC_TIME => w
  | EventType.LR1121_MODEM_LORAWAN_EVENT_NEW_MULTICAST_SESSION_CLASS_C => w
  | EventType.LR1121_MODEM_LORAWAN_EVENT_NEW_MULTICAST_SESSION_CLASS_B => w
  | EventType.LR1121_MODEM_LORAWAN_EVENT_NO_MORE_MULTICAST_SESSION_CLASS_C => w
  | EventType.LR1121_MODEM_LORAWAN_EVENT_NO_MORE_MULTICAST_SESSION_CLASS_B => w
  | _ => w

/-- `event_process` of the multicast application. -/
def event_process ( use_lr11xx_credentials : Bool) (k : DriverConsts) (m : Modem)
    (answers : List (ResponseCode × lr1121_modem_event_fields_t)) (w : World State) :
    Option (World State) :=
  event_loop (on_event use_lr11xx_credentials k m) answers w

/-- Default multicast class B frequency per region opcode (the table compiled for
`MULTICAST_SESSION_CLASS == LORAWAN_CLASS_B`); `-1` is stored in a `uint32_t`. -/
def DEFAULT_MULTICAST_FREQ : List Nat :=
  [869525000, 923400000, 0, 0, 494900000, 4294967295, 921600000, 916800000, 866550000,
    923100000, 868900000, 4294967295, 917500000]

/-- Default multicast class B datarate per region opcode; `-1` is stored in a `uint8_t`. -/
def DEFAULT_MULTICAST_DR : List Nat := [3, 3, 8, 8, 2, 255, 3, 3, 4, 3, 3, 255, 3]

/-- Frequency of the multicast sessions. -/
def MULTICAST_FREQUENCY : Nat := DEFAULT_MULTICAST_FREQ.getD (LORAWAN_REGION_USED - 1) 0

/-- Datarate of the multicast sessions. -/
def MULTICAST_DATARATE : Nat := DEFAULT_MULTICAST_DR.getD (LORAWAN_REGION_USED - 1) 0

/-- Ping slot periodicity of each multicast class B session. -/
def MULTICAST_PING_SLOT_PERIODICITY (k : DriverConsts) : List Nat :=
  [k.LR1121_MODEM_CLASS_B_PING_SLOT_8_S, k.LR1121_MODEM_CLASS_B_PING_SLOT_16_S]

/-- The start command of session `i`, class B or class C as selected by
`MULTICAST_SESSION_CLASS == LR1121_LORAWAN_CLASS_B`. -/
def start_cmd (k : DriverConsts) (i : Nat) : Cmd :=
  if MULTICAST_SESSION_CLASS = k.LR1121_LORAWAN_CLASS_B then
    Cmd.start_session_multicast_class_b i MULTICAST_FREQUENCY MULTICAST_DATARATE
      ((MULTICAST_PING_SLOT_PERIODICITY k).getD i 0)
  else Cmd.start_session_multicast_class_c i MULTICAST_FREQUENCY MULTICAST_DATARATE

/-- The `for` loop of the start branch: one start command per session. -/
def start_sessions (k : DriverConsts) (w : World State) : World State :=
  (List.range NUMBER_MULTICAST_SESSION).foldl (fun acc i => issue (start_cmd k i) acc) w

/-- The stop command, class B or class C as selected by
`MULTICAST_SESSION_CLASS == LR1121_LORAWAN_CLASS_B`. -/
def stop_cmd (k : DriverConsts) : Cmd :=
  if MULTICAST_SESSION_CLASS = k.LR1121_LORAWAN_CLASS_B then
    Cmd.stop_all_session_multicast_class_b
  else Cmd.stop_all_session_multicast_class_c

/-- `main_handle_button_pushed` of the multicast application. -/
def main_handle_button_pushed (k : DriverConsts) (w : World State) : World State :=
  if w.app.unicast_ready then
    if w.app.multicast_started then
      let w1 := issue (stop_cmd k) w
      { w1 with app := { w1.app with multicast_started := false } }
    else
      let w1 := start_sessions k w
      { w1 with app := { w1.app with multicast_started := true } }
  else
    { w with app := { w.app with multicast_started := false } }

/-- The multicast status poll of the main loop: query session 0 and set
`multicast_started` when it is started and not waiting for a beacon. -/
def main_status_poll (k : DriverConsts) (m : Modem) (w : World State) : World State :=
  if MULTICAST_SESSION_CLASS = k.LR1121_LORAWAN_CLASS_B then
    let is_session_waiting_for_beacon := m.is_session_waiting_for_beacon w.now
    let is_session_started := m.is_session_started w.now
    let w1 := issue (Cmd.get_multicast_class_b_session_status 0) w
    if is_session_waiting_for_beacon = 0 ∧ is_session_started = 1 then
      { w1 with app := { w1.app with multicast_started := true } }
    else w1
  else w

/-- One pass of the `while( 1 )` loop of `main`: the button check, then the status poll
(watchdog reload and sleep have no effect on the session). -/
def main_loop_pass (k : DriverConsts) (m : Modem) (w : World State) : World State :=
  let w1 :=
    if w.app.user_button_is_press = true then
      main_handle_button_pushed k { w with app := { w.app with user_button_is_press := false } }
    else w
  main_status_poll k m w1

/-- What can happen to the multicast application: the switch runs on an event, the main
loop handles a user-action trigger, or the main loop polls the multicast status. -/
inductive Step
  | event (e : lr1121_modem_event_fields_t)
  | user_action
  | status_poll

/-- One step of the multicast application. -/
def step ( use_lr11xx_credentials : Bool) (k : DriverConsts) (m : Modem) :
    Step → World State → World State
  | Step.event e, w => on_event use_lr11xx_credentials k m e w
  | Step.user_action, w => main_handle_button_pushed k w
  | Step.status_poll, w => main_status_poll k m w

end Multicast

/-! ## Sample inputs -/

/-- Driver constants with the values `0, 1, 2, ...` used for the sample runs. -/
def sample_consts : DriverConsts :=
  { LR1121_MODEM_TX_NOT_SENT := 0
    LR1121_MODEM_UNCONFIRMED_TX := 1
    LR1121_MODEM_CONFIRMED_TX := 2
    LR1121_MODEM_UPLINK_UNCONFIRMED := 0
    LR1121_LORAWAN_CLASS_A := 0
    LR1121_LORAWAN_CLASS_B := 1
    LR1121_LORAWAN_CLASS_C := 2
    LR1121_LORAWAN_JOINED := 8
    LR1121_MODEM_CLASS_B_PING_SLOT_8_S := 3
    LR1121_MODEM_CLASS_B_PING_SLOT_16_S := 4 }

/-- A modem that answers every command with OK, reports the duty-cycle value `dc`, the
certification mode `mode` and the region `region`, allows 242 payload bytes and has a
3-byte downlink pending; its status word is 8 (the JOINED bit of `sample_consts`) and it
reports no multicast session. -/
def sample_modem (dc : Int) (mode : CertificationMode) (region : Nat) : Modem :=
  { rc := fun _ => ResponseCode.LR1121_MODEM_RESPONSE_CODE_OK
    duty_cycle := fun _ => dc
    tx_max_payload := fun _ => 242
    certification_mode := fun _ => mode
    region := fun _ => region
    downlink_size := fun _ => 3
    downlink_remaining := fun _ => 0
    downlink_data := fun _ => [1, 2, 3]
    downlink_fport := fun _ => 10
    status := fun _ => 8
    is_session_started := fun _ => 0
    is_session_waiting_for_beacon := fun _ => 0 }

/-- An event of the given type with payload `data` and no missed events. -/
def sample_event (t : EventType) (data : Nat) : lr1121_modem_event_fields_t :=
  { event_type := t, missed_events_count := 0, data := data }

/-- One pass of the loop body for an OK answer: poll, then run the switch. -/
def poll_and_dispatch {σ : Type} (on_event : lr1121_modem_event_fields_t → World σ → World σ)
    (w : World σ) (e : lr1121_modem_event_fields_t) : World σ :=
  on_event e (issue Cmd.get_event w)

/-- The answers of `get_event` for a queue holding `evs`: OK with each event, then NO_EVENT. -/
def queue_answers (evs : List lr1121_modem_event_fields_t) (last : lr1121_modem_event_fields_t)
    (rest : List (ResponseCode × lr1121_modem_event_fields_t)) :
    List (ResponseCode × lr1121_modem_event_fields_t) :=
  evs.map (fun e => (ResponseCode.LR1121_MODEM_RESPONSE_CODE_OK, e)) ++
    (ResponseCode.LR1121_MODEM_RESPONSE_CODE_NO_EVENT, last) :: rest

/-- What draining a queue means for an `event_process` function with switch `on_event`:
for every queue content `evs` (answered OK, in order) followed by a NO_EVENT answer, the
function returns; the resulting world is the one obtained by polling and running the switch
on each event once, in queue order, followed by the final poll; and `get_event` has been
called `evs.length + 1` times. -/
def DrainsQueue {σ : Type}
    (process : List (ResponseCode × lr1121_modem_event_fields_t) → World σ → Option (World σ))
    (on_event : lr1121_modem_event_fields_t → World σ → World σ) : Prop :=
  ∀ (evs : List lr1121_modem_event_fields_t) (last : lr1121_modem_event_fields_t)
    (rest : List (ResponseCode × lr1121_modem_event_fields_t)) (w : World σ),
    ∃ w' : World σ,
      process (queue_answers evs last rest) w = some w' ∧
      w' = issue Cmd.get_event (evs.foldl (poll_and_dispatch on_event) w) ∧
      w'.trace.count Cmd.get_event = w.trace.count Cmd.get_event + (evs.length + 1)

/-- Commands of the credentials block of the RESET case, as issued by `reset_credentials`. -/
def credentials_cmds ( use_lr11xx_credentials : Bool) : List Cmd :=
  if use_lr11xx_credentials then [Cmd.system_read_uid, Cmd.system_read_pin, Cmd.get_join_eui]
  else [Cmd.set_dev_eui, Cmd.set_join_eui, Cmd.set_app_key, Cmd.set_nwk_key]

/-- Commands of the credentials block when the user credentials are only printed. -/
def credentials_print_cmds ( use_lr11xx_credentials : Bool) : List Cmd :=
  if use_lr11xx_credentials then [Cmd.system_read_uid, Cmd.system_read_pin, Cmd.get_join_eui]
  else []

/-- The three commands that open every RESET case. -/
def reset_preamble : List Cmd :=
  [Cmd.system_cfg_lfclk, Cmd.set_crystal_error 50, Cmd.get_and_print_crashlog]

/-- The transmit request that `send_frame` issues for a frame `buf` of `size` bytes when the
modem reports `tx_max_payload`: empty when the frame is too large. -/
def clamped_request (port conf : Nat) (buf : List Nat) (size tx_max_payload : Nat) : Cmd :=
  if size > tx_max_payload then Cmd.request_tx port conf none 0
  else Cmd.request_tx port conf (some buf) size

/-- The macro `ASSERT_SMTC_MODEM_RC`: each branch of the `if`/`else if` chain only prints
a message for the return code. -/
def ASSERT_SMTC_MODEM_RC {σ : Type} (rc : ResponseCode) (w : World σ) : World σ :=
  if rc = ResponseCode.LR1121_MODEM_RESPONSE_CODE_NOT_INITIALIZED then w
  else if rc = ResponseCode.LR1121_MODEM_RESPONSE_CODE_INVALID then w
  else if rc = ResponseCode.LR1121_MODEM_RESPONSE_CODE_BUSY then w
  else if rc = ResponseCode.LR1121_MODEM_RESPONSE_CODE_FAIL then w
  else if rc = ResponseCode.LR1121_MODEM_RESPONSE_CODE_NO_TIME then w
  else if rc = ResponseCode.LR1121_MODEM_RESPONSE_CODE_NO_EVENT then w
  else w

/-- A multicast start command for session `i`, class B or class C. -/
def Cmd.isStartOf (i : Nat) : Cmd → Bool
  | Cmd.start_session_multicast_class_b g _ _ _ => g = i
  | Cmd.start_session_multicast_class_c g _ _ => g = i
  | _ => false

/-- A stop-all command, class B or class C. -/
def Cmd.isStopAll : Cmd → Bool
  | Cmd.stop_all_session_multicast_class_b => true
  | Cmd.stop_all_session_multicast_class_c => true
  | _ => false

/-- A class switch command. -/
def Cmd.isSetClass : Cmd → Bool
  | Cmd.set_class _ => true
  | _ => false

/-- A `set_multicast_group_config` command. -/
def Cmd.isGroupConfig : Cmd → Bool
  | Cmd.set_multicast_group_config _ _ _ _ => true
  | _ => false

/-- The commands issued between world `w` and a later world `w'`. -/
def issued {σ : Type} (w w' : World σ) : List Cmd := w'.trace.drop w.trace.length

/-- The event types whose case only prints in every application, or that no application
names (`other`). -/
def observability_only : EventType → Bool
  | EventType.LR1121_MODEM_LORAWAN_EVENT_JOIN_FAIL => true
  | EventType.LR1121_MODEM_LORAWAN_EVENT_LINK_CHECK => true
  | EventType.LR1121_MODEM_LORAWAN_EVENT_CLASS_B_PING_SLOT_INFO => true
  | EventType.LR1121_MODEM_LORAWAN_EVENT_LORAWAN_MAC_TIME => true
  | EventType.LR1121_MODEM_LORAWAN_EVENT_NO_MORE_MULTICAST_SESSION_CLASS_C => true
  | EventType.LR1121_MODEM_LORAWAN_EVENT_NO_MORE_MULTICAST_SESSION_CLASS_B => true
  | EventType.LR1121_MODEM_LORAWAN_EVENT_ALC_SYNC_TIME => true
  | EventType.LR1121_MODEM_LORAWAN_EVENT_FUOTA_DONE => true
  | EventType.LR1121_MODEM_LORAWAN_EVENT_REGIONAL_DUTY_CYCLE => true
  | EventType.other _ => true
  | _ => false

/-- The trace prefix of the multicast JOINED case: ADR profile, class switch, then one
group configuration per session. -/
def joined_head_cmds : List Cmd :=
  [Cmd.set_adr_profile, Cmd.set_class Multicast.MULTICAST_SESSION_CLASS,
    Cmd.set_multicast_group_config 0 (Multicast.grp_addr 0) (Multicast.multicast_key 0 1)
      (Multicast.multicast_key 0 2),
    Cmd.set_multicast_group_config 1 (Multicast.grp_addr 1) (Multicast.multicast_key 1 1)
      (Multicast.multicast_key 1 2)]

/-- Unsigned 32-bit subtraction `a - b`, as computed on `uint32_t` operands. -/
def uint32_sub (a b : Nat) : Nat := (2 ^ 32 - b % 2 ^ 32 + a) % 2 ^ 32

/-- The cast `( int32_t ) x` of a 32-bit unsigned value (two's complement). -/
def int32_of_uint32 (x : Nat) : Int := if x < 2 ^ 31 then (x : Int) else (x : Int) - 2 ^ 32

/-- The debounce test of `user_button_callback`:
`( int32_t )( hal_rtc_get_time_ms( ) - last_press_timestamp_ms ) > 500`. -/
abbrev debounce_elapsed (now last_press_timestamp_ms : Nat) : Prop :=
  int32_of_uint32 (uint32_sub now last_press_timestamp_ms) > 500

/-- `user_button_callback` of the certification application. `now_check` is the RTC time
read in the test, `now_store` the RTC time read again for the assignment. -/
def Certification.user_button_callback (now_check now_store : Nat) (s : Certification.State) :
    Certification.State :=
  if debounce_elapsed now_check s.last_press_timestamp_ms then
    { s with last_press_timestamp_ms := now_store, user_button_is_press := true }
  else s

/-- `user_button_callback` of the Class B application. -/
def ClassB.user_button_callback (now_check now_store : Nat) (s : ClassB.State) : ClassB.State :=
  if debounce_elapsed now_check s.last_press_timestamp_ms then
    { s with last_press_timestamp_ms := now_store, user_button_is_press := true }
  else s

/-- `user_button_callback` of the FUOTA application. -/
def Fuota.user_button_callback (now_check now_store : Nat) (s : Fuota.State) : Fuota.State :=
  if debounce_elapsed now_check s.last_press_timestamp_ms then
    { s with last_press_timestamp_ms := now_store, user_button_is_press := true }
  else s

/-- `user_button_callback` of the multicast application. -/
def Multicast.user_button_callback (now_check now_store : Nat) (s : Multicast.State) :
    Multicast.State :=
  if debounce_elapsed now_check s.last_press_timestamp_ms then
    { s with last_press_timestamp_ms := now_store, user_button_is_press := true }
  else s

/-- A `get_downlink_data` command, the read into `rx_payload`. -/
def Cmd.isDownlinkDataRead : Cmd → Bool
  | Cmd.get_downlink_data _ => true
  | _ => false

/-- A multicast session command: a start of some session or a stop-all. -/
def Cmd.isMulticastSession : Cmd → Bool
  | Cmd.start_session_multicast_class_b _ _ _ _ => true
  | Cmd.start_session_multicast_class_c _ _ _ => true
  | Cmd.stop_all_session_multicast_class_b => true
  | Cmd.stop_all_session_multicast_class_c => true
  | _ => false

/-- A command that needs a joined device: a transmit request, a class switch or a
multicast session start or stop. -/
def Cmd.needsJoined (c : Cmd) : Bool := c.isTx || c.isSetClass || c.isMulticastSession

/-- A run of the Class B application: the steps are taken one after the other. -/
def ClassB.run ( use_lr11xx_credentials : Bool) (k : DriverConsts) (m : Modem)
    (steps : List ClassB.Step) (w : World ClassB.State) : World ClassB.State :=
  steps.foldl (fun acc s => ClassB.step use_lr11xx_credentials k m s acc) w

/-- One pass of the `event_process` loop body for an arbitrary answer of `get_event`: poll,
and run the switch only on an OK answer. -/
def poll_once {σ : Type} (on_event : lr1121_modem_event_fields_t → World σ → World σ)
    (w : World σ) (answer : ResponseCode × lr1121_modem_event_fields_t) : World σ :=
  if answer.1 = ResponseCode.LR1121_MODEM_RESPONSE_CODE_OK
  then on_event answer.2 (issue Cmd.get_event w) else issue Cmd.get_event w

/-- What ending the drain at the first NO_EVENT answer means for an `event_process`
function with switch `on_event`: for all answers `pre` that are not NO_EVENT, followed by a
NO_EVENT answer, the function returns; the resulting world is obtained by one poll per
answer of `pre` (with the switch run only on the OK answers) and the final poll; and
`get_event` has been called `pre.length + 1` times, the position of the first NO_EVENT
answer. -/
def EndsAtFirstNoEvent {σ : Type}
    (process : List (ResponseCode × lr1121_modem_event_fields_t) → World σ → Option (World σ))
    (on_event : lr1121_modem_event_fields_t → World σ → World σ) : Prop :=
  ∀ (pre : List (ResponseCode × lr1121_modem_event_fields_t))
    (last : lr1121_modem_event_fields_t)
    (rest : List (ResponseCode × lr1121_modem_event_fields_t)) (w : World σ),
    (∀ a ∈ pre, a.1 ≠ ResponseCode.LR1121_MODEM_RESPONSE_CODE_NO_EVENT) →
    ∃ w' : World σ,
      process (pre ++ (ResponseCode.LR1121_MODEM_RESPONSE_CODE_NO_EVENT, last) :: rest) w
        = some w' ∧
      w' = issue Cmd.get_event (pre.foldl (poll_once on_event) w) ∧
      w'.trace.count Cmd.get_event = w.trace.count Cmd.get_event + (pre.length + 1)

/-! ## Basic facts about the command trace -/

@[simp] theorem issue_trace {σ : Type} (c : Cmd) (w : World σ) :
    (issue c w).trace = w.trace ++ [c] := rfl

@[simp] theorem issue_app {σ : Type} (c : Cmd) (w : World σ) : (issue c w).app = w.app := rfl

@[simp] theorem now_eq {σ : Type} (w : World σ) : w.now = w.trace.length := rfl

/-! ## Uplink scheduler: duty-cycle gate and payload clamp -/

/-- C1, as stated, fails: with the duty-cycle query reporting `5` (a value `> 0`),
`send_frame` and both `send_empty_uplink` routines do issue a transmit command. -/
theorem duty_cycle_positive_transmits :
    0 < (sample_modem 5 CertificationMode.LR1121_MODEM_CERTIFICATION_MODE_DISABLE 1).duty_cycle 0 ∧
    (send_frame (sample_modem 5 CertificationMode.LR1121_MODEM_CERTIFICATION_MODE_DISABLE 1)
        [1, 2, 3, 4, 5, 6, 7, 8] 8 101 1
        (World.mk Certification.State.init [])).2.trace
      = [Cmd.get_duty_cycle_status, Cmd.get_next_tx_max_payload,
          Cmd.request_tx 101 1 (some [1, 2, 3, 4, 5, 6, 7, 8]) 8] ∧
    (send_frame (sample_modem 5 CertificationMode.LR1121_MODEM_CERTIFICATION_MODE_DISABLE 1)
        [0, 0, 0, 0, 0, 0, 0, 0] 8 10 1
        (World.mk Multicast.State.init [])).2.trace
      = [Cmd.get_duty_cycle_status, Cmd.get_next_tx_max_payload,
          Cmd.request_tx 10 1 (some [0, 0, 0, 0, 0, 0, 0, 0]) 8] ∧
    (ClassB.send_empty_uplink
        (sample_modem 5 CertificationMode.LR1121_MODEM_CERTIFICATION_MODE_DISABLE 1) 10 1
        (World.mk ClassB.State.init [])).2.trace
      = [Cmd.get_duty_cycle_status, Cmd.request_empty_tx true 10 1] ∧
    (Fuota.send_empty_uplink
        (sample_modem 5 CertificationMode.LR1121_MODEM_CERTIFICATION_MODE_DISABLE 1) 0
        (World.mk Fuota.State.init [])).2.trace
      = [Cmd.get_duty_cycle_status, Cmd.request_empty_tx false 1 0] := by
  refine ⟨by decide, ?_, ?_, ?_, ?_⟩ <;> rfl

/-- C1, amended: the gate of the send routines is `duty_cycle < 0`. Whenever the duty-cycle
query reports a negative value, `send_frame` (certification, multicast) and
`send_empty_uplink` (class_b, fuota) issue the duty-cycle query and nothing else, so no
transmit command, leave the statics untouched and return the OK response code. -/
theorem duty_cycle_negative_blocks (m : Modem) :
    (∀ (σ : Type) (w : World σ) (buf : List Nat) (size port conf : Nat),
      m.duty_cycle w.now < 0 →
        (send_frame m buf size port conf w).1 = ResponseCode.LR1121_MODEM_RESPONSE_CODE_OK ∧
        (send_frame m buf size port conf w).2.trace = w.trace ++ [Cmd.get_duty_cycle_status] ∧
        (send_frame m buf size port conf w).2.app = w.app) ∧
    (∀ (w : World ClassB.State) (port conf : Nat),
      m.duty_cycle w.now < 0 →
        (ClassB.send_empty_uplink m port conf w).1
          = ResponseCode.LR1121_MODEM_RESPONSE_CODE_OK ∧
        (ClassB.send_empty_uplink m port conf w).2.trace
          = w.trace ++ [Cmd.get_duty_cycle_status] ∧
        (ClassB.send_empty_uplink m port conf w).2.app = w.app) ∧
    (∀ (w : World Fuota.State) (conf : Nat),
      m.duty_cycle w.now < 0 →
        (Fuota.send_empty_uplink m conf w).1 = ResponseCode.LR1121_MODEM_RESPONSE_CODE_OK ∧
        (Fuota.send_empty_uplink m conf w).2.trace = w.trace ++ [Cmd.get_duty_cycle_status] ∧
        (Fuota.send_empty_uplink m conf w).2.app = w.app) := by
  refine ⟨?_, ?_, ?_⟩
  · intro σ w buf size port conf h
    simp only [now_eq] at h
    simp [send_frame, h]
  · intro w port conf h
    simp only [now_eq] at h
    simp [ClassB.send_empty_uplink, h]
  · intro w conf h
    simp only [now_eq] at h
    simp [Fuota.send_empty_uplink, h]

/-- Sample run for `duty_cycle_negative_blocks`: the modem reports `-1`. -/
theorem duty_cycle_negative_blocks_witness :
    (send_frame (sample_modem (-1) CertificationMode.LR1121_MODEM_CERTIFICATION_MODE_DISABLE 1)
        [1, 2, 3, 4, 5, 6, 7, 8] 8 101 1 (World.mk Certification.State.init [])).2.trace
      = [] ++ [Cmd.get_duty_cycle_status] ∧
    (ClassB.send_empty_uplink
        (sample_modem (-1) CertificationMode.LR1121_MODEM_CERTIFICATION_MODE_DISABLE 1) 10 1
        (World.mk ClassB.State.init [])).2.trace = [] ++ [Cmd.get_duty_cycle_status] ∧
    (Fuota.send_empty_uplink
        (sample_modem (-1) CertificationMode.LR1121_MODEM_CERTIFICATION_MODE_DISABLE 1) 0
        (World.mk Fuota.State.init [])).2.trace = [] ++ [Cmd.get_duty_cycle_status] :=
  ⟨((duty_cycle_negative_blocks _).1 Certification.State (World.mk Certification.State.init [])
      [1, 2, 3, 4, 5, 6, 7, 8] 8 101 1 (by decide)).2.1,
   ((duty_cycle_negative_blocks _).2.1 (World.mk ClassB.State.init []) 10 1 (by decide)).2.1,
   ((duty_cycle_negative_blocks _).2.2 (World.mk Fuota.State.init []) 0 (by decide)).2.1⟩

/-- C2: a `send_frame` call that passes the duty-cycle gate issues exactly one transmit
request, after the duty-cycle and max-payload queries. It carries the caller's port and
confirmation flag; the payload is empty (no buffer, length 0) when the size exceeds the
reported maximum, and the original buffer and size otherwise. The statics are untouched
and the return code is the one of the transmit request. -/
theorem send_frame_clamps_payload (σ : Type) (m : Modem) (w : World σ) (buf : List Nat)
    (size port conf : Nat) (hclear : 0 ≤ m.duty_cycle w.now) :
    (size > m.tx_max_payload (w.now + 1) →
      (send_frame m buf size port conf w).2.trace
        = w.trace ++ [Cmd.get_duty_cycle_status, Cmd.get_next_tx_max_payload,
            Cmd.request_tx port conf none 0]) ∧
    (size ≤ m.tx_max_payload (w.now + 1) →
      (send_frame m buf size port conf w).2.trace
        = w.trace ++ [Cmd.get_duty_cycle_status, Cmd.get_next_tx_max_payload,
            Cmd.request_tx port conf (some buf) size]) ∧
    (((send_frame m buf size port conf w).2.trace.drop w.trace.length).filter Cmd.isTx).length
      = 1 ∧
    (send_frame m buf size port conf w).2.app = w.app ∧
    (send_frame m buf size port conf w).1 = m.rc (w.now + 2) := by
  simp only [now_eq] at hclear
  have hnot : ¬ m.duty_cycle w.trace.length < 0 := not_lt.mpr hclear
  by_cases hsize : size > m.tx_max_payload (w.trace.length + 1)
  · have hle : ¬ size ≤ m.tx_max_payload (w.trace.length + 1) := not_le.mpr hsize
    simp [send_frame, hnot, hsize, hle, Cmd.isTx]
  · have hle : size ≤ m.tx_max_payload (w.trace.length + 1) := not_lt.mp hsize
    simp [send_frame, hnot, hsize, hle, Cmd.isTx]

/-- Sample runs for `send_frame_clamps_payload` against a reported maximum of 242 bytes:
an 8-byte frame of the certification application is sent as it is, a 250-byte frame of the
multicast application is replaced by an empty one on the same port and flag. -/
theorem send_frame_clamps_payload_witness :
    (send_frame (sample_modem 0 CertificationMode.LR1121_MODEM_CERTIFICATION_MODE_DISABLE 1)
        [1, 2, 3, 4, 5, 6, 7, 8] 8 101 1 (World.mk Certification.State.init [])).2.trace
      = [] ++ [Cmd.get_duty_cycle_status, Cmd.get_next_tx_max_payload,
          Cmd.request_tx 101 1 (some [1, 2, 3, 4, 5, 6, 7, 8]) 8] ∧
    (send_frame (sample_modem 7 CertificationMode.LR1121_MODEM_CERTIFICATION_MODE_DISABLE 1)
        (List.replicate 250 9) 250 10 0 (World.mk Multicast.State.init [])).2.trace
      = [] ++ [Cmd.get_duty_cycle_status, Cmd.get_next_tx_max_payload,
          Cmd.request_tx 10 0 none 0] :=
  ⟨(send_frame_clamps_payload Certification.State
      (sample_modem 0 CertificationMode.LR1121_MODEM_CERTIFICATION_MODE_DISABLE 1)
      (World.mk Certification.State.init []) [1, 2, 3, 4, 5, 6, 7, 8] 8 101 1
      (by decide)).2.1 (by decide),
   (send_frame_clamps_payload Multicast.State
      (sample_modem 7 CertificationMode.LR1121_MODEM_CERTIFICATION_MODE_DISABLE 1)
      (World.mk Multicast.State.init []) (List.replicate 250 9) 250 10 0
      (by decide)).1 (by decide)⟩

/-! ## Event dispatcher -/

theorem event_loop_drains {σ : Type}
    (on_event : lr1121_modem_event_fields_t → World σ → World σ)
    (evs : List lr1121_modem_event_fields_t) (last : lr1121_modem_event_fields_t)
    (rest : List (ResponseCode × lr1121_modem_event_fields_t)) (w : World σ) :
    event_loop on_event (queue_answers evs last rest) w
      = some (issue Cmd.get_event (evs.foldl (poll_and_dispatch on_event) w)) := by
  induction evs generalizing w with
  | nil => simp [queue_answers, event_loop]
  | cons e es ih =>
    have h := ih (poll_and_dispatch on_event w e)
    simpa [queue_answers, event_loop, poll_and_dispatch] using h

theorem fold_get_event_count {σ : Type}
    (on_event : lr1121_modem_event_fields_t → World σ → World σ)
    (hquiet : ∀ e w, (on_event e w).trace.count Cmd.get_event = w.trace.count Cmd.get_event)
    (evs : List lr1121_modem_event_fields_t) (w : World σ) :
    (evs.foldl (poll_and_dispatch on_event) w).trace.count Cmd.get_event
      = w.trace.count Cmd.get_event + evs.length := by
  induction evs generalizing w with
  | nil => simp
  | cons e es ih =>
    simp only [List.foldl_cons, List.length_cons]
    rw [ih, poll_and_dispatch, hquiet]
    simp
    omega

theorem send_frame_get_event_count {σ : Type} (m : Modem) (buf : List Nat)
    (size port conf : Nat) (w : World σ) :
    (send_frame m buf size port conf w).2.trace.count Cmd.get_event
      = w.trace.count Cmd.get_event := by
  unfold send_frame
  simp only []
  split_ifs <;> simp

theorem reset_credentials_get_event_count {σ : Type} (b : Bool) (w : World σ) :
    (reset_credentials b w).trace.count Cmd.get_event = w.trace.count Cmd.get_event := by
  cases b <;> simp [reset_credentials]

theorem certification_switch_keeps_get_event_count (b : Bool) (k : DriverConsts) (m : Modem)
    (e : lr1121_modem_event_fields_t) (w : World Certification.State) :
    (Certification.on_event b k m e w).trace.count Cmd.get_event
      = w.trace.count Cmd.get_event := by
  unfold Certification.on_event
  split
  · unfold Certification.on_reset
    simp only []
    split_ifs <;> cases b <;>
      simp [reset_credentials, reset_credentials_print_only]
  · unfold Certification.on_alarm Certification.send_uplinks_counter_on_port
    split_ifs <;> simp [send_frame_get_event_count]
  · unfold Certification.on_joined Certification.send_uplinks_counter_on_port
    simp only []
    split_ifs <;> simp [send_frame_get_event_count]
  · unfold Certification.on_tx_done
    simp only []
    split_ifs <;> rfl
  · simp [Certification.on_down_data]
  all_goals rfl

theorem class_b_switch_keeps_get_event_count (b : Bool) (k : DriverConsts) (m : Modem)
    (e : lr1121_modem_event_fields_t) (w : World ClassB.State) :
    (ClassB.on_event b k m e w).trace.count Cmd.get_event = w.trace.count Cmd.get_event := by
  unfold ClassB.on_event
  split
  · cases b <;> simp [ClassB.on_reset, reset_credentials]
  · rfl
  · simp
  · unfold ClassB.on_tx_done
    split_ifs <;> rfl
  · simp [read_downlink]
  · rfl
  · rfl
  · rfl
  · unfold ClassB.on_class_b_status ClassB.send_empty_uplink
    simp only []
    split_ifs <;> simp
  all_goals rfl

theorem Fuota.send_empty_uplink_get_event_count (m : Modem) (conf : Nat)
    (w : World Fuota.State) :
    (Fuota.send_empty_uplink m conf w).2.trace.count Cmd.get_event
      = w.trace.count Cmd.get_event := by
  unfold Fuota.send_empty_uplink
  simp only []
  split_ifs <;> simp

theorem fuota_switch_keeps_get_event_count (b : Bool) (k : DriverConsts) (m : Modem)
    (e : lr1121_modem_event_fields_t) (w : World Fuota.State) :
    (Fuota.on_event b k m e w).trace.count Cmd.get_event = w.trace.count Cmd.get_event := by
  unfold Fuota.on_event
  split
  · unfold Fuota.on_reset
    simp only []
    split_ifs <;> cases b <;> simp [reset_credentials]
  · simp [Fuota.on_alarm, Fuota.send_empty_uplink_get_event_count]
  · simp [Fuota.on_joined, Fuota.send_empty_uplink_get_event_count]
  · rfl
  · simp [read_downlink]
  · rfl
  · rfl
  · rfl
  · rfl
  · rfl
  · simp
  · simp
  all_goals rfl

theorem Multicast.enable_unicast_get_event_count (k : DriverConsts) (m : Modem)
    (w : World Multicast.State) :
    (Multicast.enable_unicast k m w).trace.count Cmd.get_event
      = w.trace.count Cmd.get_event := by
  simp [Multicast.enable_unicast, send_frame_get_event_count]

theorem multicast_switch_keeps_get_event_count (b : Bool) (k : DriverConsts) (m : Modem)
    (e : lr1121_modem_event_fields_t) (w : World Multicast.State) :
    (Multicast.on_event b k m e w).trace.count Cmd.get_event = w.trace.count Cmd.get_event := by
  unfold Multicast.on_event
  split
  · cases b <;> simp [Multicast.on_reset, reset_credentials]
  · rfl
  · unfold Multicast.on_joined
    simp only []
    split_ifs <;>
      simp [Multicast.enable_unicast_get_event_count, Multicast.configure_groups,
        Multicast.NUMBER_MULTICAST_SESSION, List.range_succ]
  · rfl
  · simp [read_downlink]
  · rfl
  · rfl
  · rfl
  · unfold Multicast.on_class_b_status
    split_ifs <;> simp [Multicast.enable_unicast_get_event_count]
  all_goals rfl

theorem event_loop_drains_queue {σ : Type}
    (on_event : lr1121_modem_event_fields_t → World σ → World σ)
    (hquiet : ∀ e w, (on_event e w).trace.count Cmd.get_event = w.trace.count Cmd.get_event) :
    DrainsQueue (event_loop on_event) on_event := by
  intro evs last rest w
  refine ⟨_, event_loop_drains on_event evs last rest w, rfl, ?_⟩
  rw [issue_trace, List.count_append, fold_get_event_count on_event hquiet]
  simp
  omega

/-- C3: in each of the four applications, for every queue of `n` events that `get_event`
returns with OK followed by a NO_EVENT answer, `event_process` returns, has run the switch
on each of the `n` events exactly once in the order returned (the final world is the fold
of poll-then-switch over the queue), and has called `get_event` exactly `n + 1` times. -/
theorem event_process_drains_queue (b : Bool) (k : DriverConsts) (m : Modem) :
    DrainsQueue (Certification.event_process b k m) (Certification.on_event b k m) ∧
    DrainsQueue (ClassB.event_process b k m) (ClassB.on_event b k m) ∧
    DrainsQueue (Fuota.event_process b k m) (Fuota.on_event b k m) ∧
    DrainsQueue (Multicast.event_process b k m) (Multicast.on_event b k m) :=
  ⟨event_loop_drains_queue _ (certification_switch_keeps_get_event_count b k m),
   event_loop_drains_queue _ (class_b_switch_keeps_get_event_count b k m),
   event_loop_drains_queue _ (fuota_switch_keeps_get_event_count b k m),
   event_loop_drains_queue _ (multicast_switch_keeps_get_event_count b k m)⟩

/-! ## Certification application: periodic uplink -/

theorem reset_credentials_trace {σ : Type} (b : Bool) (w : World σ) :
    (reset_credentials b w).trace = w.trace ++ credentials_cmds b ∧
    (reset_credentials b w).app = w.app := by
  cases b <;> simp [reset_credentials, credentials_cmds]

theorem reset_credentials_print_only_trace {σ : Type} (b : Bool) (w : World σ) :
    (reset_credentials_print_only b w).trace = w.trace ++ credentials_print_cmds b ∧
    (reset_credentials_print_only b w).app = w.app := by
  cases b <;> simp [reset_credentials_print_only, credentials_print_cmds]

theorem send_frame_app {σ : Type} (m : Modem) (buf : List Nat) (size port conf : Nat)
    (w : World σ) : (send_frame m buf size port conf w).2.app = w.app := by
  unfold send_frame
  simp only []
  split_ifs <;> rfl

theorem send_frame_trace_clear {σ : Type} (m : Modem) (buf : List Nat) (size port conf : Nat)
    (w : World σ) (h : 0 ≤ m.duty_cycle w.trace.length) :
    (send_frame m buf size port conf w).2.trace
      = w.trace ++ [Cmd.get_duty_cycle_status, Cmd.get_next_tx_max_payload,
          clamped_request port conf buf size (m.tx_max_payload (w.trace.length + 1))] := by
  have hnot : ¬ m.duty_cycle w.trace.length < 0 := not_lt.mpr h
  unfold send_frame clamped_request
  simp only [now_eq, hnot, if_false, issue_trace, List.length_append, List.length_singleton]
  split_ifs <;> simp

theorem send_frame_trace_blocked {σ : Type} (m : Modem) (buf : List Nat)
    (size port conf : Nat) (w : World σ) (h : m.duty_cycle w.trace.length < 0) :
    (send_frame m buf size port conf w).2.trace = w.trace ++ [Cmd.get_duty_cycle_status] := by
  simp [send_frame, h]

theorem Certification.send_uplinks_app (m : Modem) (port : Nat)
    (w : World Certification.State) :
    (Certification.send_uplinks_counter_on_port m port w).app
      = { w.app with uplink_counter := (w.app.uplink_counter + 1) % 2 ^ 32 } := by
  simp [Certification.send_uplinks_counter_on_port, send_frame_app]

theorem Certification.send_uplinks_trace (m : Modem) (port : Nat)
    (w : World Certification.State) :
    (Certification.send_uplinks_counter_on_port m port w).trace
      = (send_frame m
          (Certification.uplinks_counter_buff w.app.uplink_counter w.app.confirmed_counter)
          8 port 1 w).2.trace := by
  simp [Certification.send_uplinks_counter_on_port]

/-- C4, as stated, fails: with certification mode disabled and the duty-cycle query
reporting `-1`, an Alarm event issues no transmit request at all (the counter still goes
from 0 to 1 and the alarm is re-armed for 30 s). -/
theorem alarm_minus_one_sends_nothing :
    (Certification.on_event false sample_consts
        (sample_modem (-1) CertificationMode.LR1121_MODEM_CERTIFICATION_MODE_DISABLE 1)
        (sample_event EventType.LR1121_MODEM_LORAWAN_EVENT_ALARM 0)
        (World.mk Certification.State.init [])).trace
      = [Cmd.get_duty_cycle_status, Cmd.set_alarm_timer 30] ∧
    ((Certification.on_event false sample_consts
        (sample_modem (-1) CertificationMode.LR1121_MODEM_CERTIFICATION_MODE_DISABLE 1)
        (sample_event EventType.LR1121_MODEM_LORAWAN_EVENT_ALARM 0)
        (World.mk Certification.State.init [])).trace.filter Cmd.isTx).length = 0 ∧
    (Certification.on_event false sample_consts
        (sample_modem (-1) CertificationMode.LR1121_MODEM_CERTIFICATION_MODE_DISABLE 1)
        (sample_event EventType.LR1121_MODEM_LORAWAN_EVENT_ALARM 0)
        (World.mk Certification.State.init [])).app.uplink_counter = 1 := by
  refine ⟨?_, ?_, ?_⟩ <;> rfl

/-- C4, amended: in the certification application with certification mode disabled and the
duty-cycle query reporting a value `>= 0` (clear to send), processing one Alarm event
issues exactly one transmit request (on port 101, confirmed, carrying the counters buffer
or empty when 8 bytes exceed the reported maximum), increases `uplink_counter` by exactly 1
modulo `2^32`, and then issues exactly one `set_alarm_timer` with the 30 s period. -/
theorem alarm_clear_sends_once (b : Bool) (k : DriverConsts) (m : Modem)
    (e : lr1121_modem_event_fields_t) (w : World Certification.State)
    (halarm : e.event_type = EventType.LR1121_MODEM_LORAWAN_EVENT_ALARM)
    (hmode : w.app.certif_running = CertificationMode.LR1121_MODEM_CERTIFICATION_MODE_DISABLE)
    (hclear : 0 ≤ m.duty_cycle w.now) :
    (Certification.on_event b k m e w).trace
      = w.trace ++ [Cmd.get_duty_cycle_status, Cmd.get_next_tx_max_payload,
          clamped_request 101 1
            (Certification.uplinks_counter_buff w.app.uplink_counter w.app.confirmed_counter) 8
            (m.tx_max_payload (w.now + 1)),
          Cmd.set_alarm_timer 30] ∧
    (((Certification.on_event b k m e w).trace.drop w.trace.length).filter Cmd.isTx).length
      = 1 ∧
    ((Certification.on_event b k m e w).trace.drop w.trace.length).count (Cmd.set_alarm_timer 30)
      = 1 ∧
    (Certification.on_event b k m e w).app.uplink_counter
      = (w.app.uplink_counter + 1) % 2 ^ 32 := by
  simp only [now_eq] at hclear
  have htrace : (Certification.on_event b k m e w).trace
      = w.trace ++ [Cmd.get_duty_cycle_status, Cmd.get_next_tx_max_payload,
          clamped_request 101 1
            (Certification.uplinks_counter_buff w.app.uplink_counter w.app.confirmed_counter) 8
            (m.tx_max_payload (w.now + 1)),
          Cmd.set_alarm_timer 30] := by
    simp [Certification.on_event, halarm, Certification.on_alarm, hmode,
      Certification.send_uplinks_trace, send_frame_trace_clear _ _ _ _ _ _ hclear,
      Certification.PERIODICAL_UPLINK_DELAY_S]
  refine ⟨htrace, ?_, ?_, ?_⟩
  · rw [htrace, List.drop_left]
    unfold clamped_request
    split_ifs <;> simp [Cmd.isTx]
  · rw [htrace, List.drop_left]
    unfold clamped_request
    split_ifs <;> simp
  · simp [Certification.on_event, halarm, Certification.on_alarm, hmode,
      Certification.send_uplinks_app]

/-- Sample run for `alarm_clear_sends_once`: the duty-cycle query reports `0`. -/
theorem alarm_clear_sends_once_witness :
    (Certification.on_event false sample_consts
        (sample_modem 0 CertificationMode.LR1121_MODEM_CERTIFICATION_MODE_DISABLE 1)
        (sample_event EventType.LR1121_MODEM_LORAWAN_EVENT_ALARM 0)
        (World.mk Certification.State.init [])).app.uplink_counter = (0 + 1) % 2 ^ 32 :=
  (alarm_clear_sends_once false sample_consts
    (sample_modem 0 CertificationMode.LR1121_MODEM_CERTIFICATION_MODE_DISABLE 1)
    (sample_event EventType.LR1121_MODEM_LORAWAN_EVENT_ALARM 0)
    (World.mk Certification.State.init []) rfl rfl (by decide)).2.2.2

/-! ## Joined event -/

theorem send_frame_count_adr {σ : Type} (m : Modem) (buf : List Nat) (size port conf : Nat)
    (w : World σ) :
    (send_frame m buf size port conf w).2.trace.count Cmd.set_adr_profile
      = w.trace.count Cmd.set_adr_profile := by
  unfold send_frame
  simp only []
  split_ifs <;> simp

/-- C5, as stated, fails: in the certification application with certification mode
disabled, a Joined event sends the first periodic uplink and `uplink_counter` goes from
0 to 1. -/
theorem joined_increments_uplink_counter :
    Certification.State.init.uplink_counter = 0 ∧
    (Certification.on_event false sample_consts
        (sample_modem 0 CertificationMode.LR1121_MODEM_CERTIFICATION_MODE_DISABLE 1)
        (sample_event EventType.LR1121_MODEM_LORAWAN_EVENT_JOINED 0)
        (World.mk Certification.State.init [])).app.uplink_counter = 1 := by
  constructor <;> rfl

/-- C5, amended: in every application and for every prior state, processing a Joined event
issues exactly one `set_adr_profile` command (the number of `set_adr_profile` entries of
the trace grows by one). In the certification application `uplink_counter` keeps its value
when `certif_running` is ENABLE and increases by exactly 1 modulo `2^32` when it is
DISABLE; `confirmed_counter` is unchanged in both cases. -/
theorem joined_sets_adr_profile (b : Bool) (k : DriverConsts) (m : Modem)
    (e : lr1121_modem_event_fields_t)
    (hjoined : e.event_type = EventType.LR1121_MODEM_LORAWAN_EVENT_JOINED) :
    (∀ w : World Certification.State,
      (Certification.on_event b k m e w).trace.count Cmd.set_adr_profile
        = w.trace.count Cmd.set_adr_profile + 1 ∧
      (Certification.on_event b k m e w).app.confirmed_counter = w.app.confirmed_counter ∧
      (w.app.certif_running = CertificationMode.LR1121_MODEM_CERTIFICATION_MODE_ENABLE →
        (Certification.on_event b k m e w).app.uplink_counter = w.app.uplink_counter) ∧
      (w.app.certif_running = CertificationMode.LR1121_MODEM_CERTIFICATION_MODE_DISABLE →
        (Certification.on_event b k m e w).app.uplink_counter
          = (w.app.uplink_counter + 1) % 2 ^ 32)) ∧
    (∀ w : World ClassB.State,
      (ClassB.on_event b k m e w).trace.count Cmd.set_adr_profile
        = w.trace.count Cmd.set_adr_profile + 1) ∧
    (∀ w : World Fuota.State,
      (Fuota.on_event b k m e w).trace.count Cmd.set_adr_profile
        = w.trace.count Cmd.set_adr_profile + 1) ∧
    (∀ w : World Multicast.State,
      (Multicast.on_event b k m e w).trace.count Cmd.set_adr_profile
        = w.trace.count Cmd.set_adr_profile + 1) := by
  refine ⟨?_, ?_, ?_, ?_⟩
  · intro w
    cases hmode : w.app.certif_running <;>
      simp [Certification.on_event, hjoined, Certification.on_joined, hmode,
        Certification.send_uplinks_trace, Certification.send_uplinks_app,
        send_frame_count_adr]
  · intro w
    simp [ClassB.on_event, hjoined]
  · intro w
    unfold Fuota.on_event Fuota.on_joined Fuota.send_empty_uplink
    simp only [hjoined]
    split_ifs <;> simp
  · intro w
    unfold Multicast.on_event Multicast.on_joined Multicast.enable_unicast
    simp only [hjoined]
    split_ifs <;>
      simp [send_frame_count_adr, Multicast.configure_groups,
        Multicast.NUMBER_MULTICAST_SESSION, List.range_succ]

/-- Sample run for `joined_sets_adr_profile`: certification application, mode enabled. -/
theorem joined_sets_adr_profile_witness :
    (Certification.on_event false sample_consts
        (sample_modem 0 CertificationMode.LR1121_MODEM_CERTIFICATION_MODE_ENABLE 1)
        (sample_event EventType.LR1121_MODEM_LORAWAN_EVENT_JOINED 0)
        (World.mk { Certification.State.init with
          certif_running := CertificationMode.LR1121_MODEM_CERTIFICATION_MODE_ENABLE
          uplink_counter := 7 } [])).app.uplink_counter = 7 :=
  ((joined_sets_adr_profile false sample_consts
    (sample_modem 0 CertificationMode.LR1121_MODEM_CERTIFICATION_MODE_ENABLE 1)
    (sample_event EventType.LR1121_MODEM_LORAWAN_EVENT_JOINED 0) rfl).1
    (World.mk { Certification.State.init with
      certif_running := CertificationMode.LR1121_MODEM_CERTIFICATION_MODE_ENABLE
      uplink_counter := 7 } [])).2.2.1 rfl

/-! ## Reset event -/

theorem Certification.on_reset_trace_disabled (b : Bool) (m : Modem)
    (w : World Certification.State)
    (hmode : m.certification_mode (w.trace.length + 3)
      = CertificationMode.LR1121_MODEM_CERTIFICATION_MODE_DISABLE) :
    (Certification.on_reset b m w).trace
      = w.trace ++ reset_preamble ++ [Cmd.get_certification_mode] ++ credentials_cmds b ++
          [Cmd.set_region LORAWAN_REGION_USED, Cmd.join] := by
  cases b <;>
    simp [Certification.on_reset, hmode, reset_credentials, credentials_cmds, reset_preamble]

theorem Certification.on_reset_trace_enabled (b : Bool) (m : Modem)
    (w : World Certification.State)
    (hmode : m.certification_mode (w.trace.length + 3)
      = CertificationMode.LR1121_MODEM_CERTIFICATION_MODE_ENABLE) :
    (Certification.on_reset b m w).trace
      = w.trace ++ reset_preamble ++ [Cmd.get_certification_mode] ++ credentials_print_cmds b ++
          [Cmd.get_and_print_lorawan_region_from_modem] ++
          (if m.region (w.trace.length + 4 + (credentials_print_cmds b).length)
              ≠ LORAWAN_REGION_USED
            then [Cmd.leave_network] else []) := by
  cases b <;>
    simp [Certification.on_reset, hmode, reset_credentials_print_only, credentials_print_cmds,
      reset_preamble] <;>
    split_ifs <;> simp

/-- C6, as stated, fails: in the certification application, a Reset event for which the
modem reports certification mode enabled and the configured region (EU868, no mismatch)
issues neither `set_region` nor `join`. -/
theorem reset_enabled_same_region_no_join :
    (sample_modem 0 CertificationMode.LR1121_MODEM_CERTIFICATION_MODE_ENABLE
        LORAWAN_REGION_USED).region 4 = LORAWAN_REGION_USED ∧
    (Certification.on_event false sample_consts
        (sample_modem 0 CertificationMode.LR1121_MODEM_CERTIFICATION_MODE_ENABLE
          LORAWAN_REGION_USED)
        (sample_event EventType.LR1121_MODEM_LORAWAN_EVENT_RESET 0)
        (World.mk Certification.State.init [])).trace
      = [Cmd.system_cfg_lfclk, Cmd.set_crystal_error 50, Cmd.get_and_print_crashlog,
          Cmd.get_certification_mode, Cmd.get_and_print_lorawan_region_from_modem] ∧
    (Certification.on_event false sample_consts
        (sample_modem 0 CertificationMode.LR1121_MODEM_CERTIFICATION_MODE_ENABLE
          LORAWAN_REGION_USED)
        (sample_event EventType.LR1121_MODEM_LORAWAN_EVENT_RESET 0)
        (World.mk Certification.State.init [])).trace.count Cmd.join = 0 := by
  refine ⟨?_, ?_, ?_⟩ <;> rfl

/-- C6, amended: processing a Reset event issues exactly one `join`, as the last command and
right after `set_region` (class_b, multicast) or after `set_region` and the certification
mode update (fuota, for every certification mode the modem reports). In the certification
application this holds when the modem reports certification mode disabled; when it reports
certification mode enabled, neither `set_region` nor `join` is issued, whether or not the
modem region equals the configured one: the chip credentials are read when they are in
use, the modem region is queried, and `leave_network` follows on a mismatch. -/
theorem reset_join_after_set_region (b : Bool) (k : DriverConsts) (m : Modem)
    (e : lr1121_modem_event_fields_t)
    (hreset : e.event_type = EventType.LR1121_MODEM_LORAWAN_EVENT_RESET) :
    (∀ w : World ClassB.State,
      (ClassB.on_event b k m e w).trace
        = w.trace ++ reset_preamble ++ credentials_cmds b ++
            [Cmd.set_region LORAWAN_REGION_USED, Cmd.join]) ∧
    (∀ w : World Multicast.State,
      (Multicast.on_event b k m e w).trace
        = w.trace ++ reset_preamble ++ credentials_cmds b ++
            [Cmd.set_region LORAWAN_REGION_USED, Cmd.join]) ∧
    (∀ w : World Fuota.State,
      (Fuota.on_event b k m e w).trace
        = w.trace ++ reset_preamble ++ credentials_cmds b ++
            [Cmd.set_region LORAWAN_REGION_USED, Cmd.get_certification_mode] ++
            (if m.certification_mode (w.now + 4 + (credentials_cmds b).length)
                = CertificationMode.LR1121_MODEM_CERTIFICATION_MODE_ENABLE
              then []
              else [Cmd.set_certification_mode
                CertificationMode.LR1121_MODEM_CERTIFICATION_MODE_ENABLE]) ++
            [Cmd.join]) ∧
    (∀ w : World Certification.State,
      m.certification_mode (w.now + 3)
          = CertificationMode.LR1121_MODEM_CERTIFICATION_MODE_DISABLE →
        (Certification.on_event b k m e w).trace
          = w.trace ++ reset_preamble ++ [Cmd.get_certification_mode] ++ credentials_cmds b ++
              [Cmd.set_region LORAWAN_REGION_USED, Cmd.join]) ∧
    (∀ w : World Certification.State,
      m.certification_mode (w.now + 3)
          = CertificationMode.LR1121_MODEM_CERTIFICATION_MODE_ENABLE →
        (Certification.on_event b k m e w).trace
          = w.trace ++ reset_preamble ++ [Cmd.get_certification_mode] ++
              credentials_print_cmds b ++ [Cmd.get_and_print_lorawan_region_from_modem] ++
              (if m.region (w.now + 4 + (credentials_print_cmds b).length) ≠ LORAWAN_REGION_USED
                then [Cmd.leave_network] else [])) := by
  refine ⟨?_, ?_, ?_, ?_, ?_⟩
  · intro w
    cases b <;>
      simp [ClassB.on_event, hreset, ClassB.on_reset, reset_credentials, credentials_cmds,
        reset_preamble]
  · intro w
    cases b <;>
      simp [Multicast.on_event, hreset, Multicast.on_reset, reset_credentials,
        credentials_cmds, reset_preamble]
  · intro w
    cases b <;>
      simp [Fuota.on_event, hreset, Fuota.on_reset, reset_credentials, credentials_cmds,
        reset_preamble] <;>
      split_ifs <;> simp
  · intro w hmode
    simp only [now_eq] at hmode
    simp only [Certification.on_event, hreset]
    exact Certification.on_reset_trace_disabled b m w hmode
  · intro w hmode
    simp only [now_eq] at hmode
    simp only [Certification.on_event, hreset, now_eq]
    exact Certification.on_reset_trace_enabled b m w hmode

/-- Sample run for `reset_join_after_set_region`: certification application, the modem
reports certification mode disabled. -/
theorem reset_join_after_set_region_witness :
    (Certification.on_event false sample_consts
        (sample_modem 0 CertificationMode.LR1121_MODEM_CERTIFICATION_MODE_DISABLE 1)
        (sample_event EventType.LR1121_MODEM_LORAWAN_EVENT_RESET 0)
        (World.mk Certification.State.init [])).trace
      = [] ++ reset_preamble ++ [Cmd.get_certification_mode] ++ credentials_cmds false ++
          [Cmd.set_region LORAWAN_REGION_USED, Cmd.join] :=
  (reset_join_after_set_region false sample_consts
    (sample_modem 0 CertificationMode.LR1121_MODEM_CERTIFICATION_MODE_DISABLE 1)
    (sample_event EventType.LR1121_MODEM_LORAWAN_EVENT_RESET 0) rfl).2.2.2.1
    (World.mk Certification.State.init []) rfl

/-- C7: in the certification application, a Reset event for which the modem reports
certification mode enabled and a region different from the configured one issues
`leave_network` exactly once, as the last command, and issues no `join` and no
`set_region` command. -/
theorem reset_region_mismatch_leaves (b : Bool) (k : DriverConsts) (m : Modem)
    (e : lr1121_modem_event_fields_t) (w : World Certification.State)
    (hreset : e.event_type = EventType.LR1121_MODEM_LORAWAN_EVENT_RESET)
    (hmode : m.certification_mode (w.now + 3)
      = CertificationMode.LR1121_MODEM_CERTIFICATION_MODE_ENABLE)
    (hregion : m.region (w.now + 4 + (credentials_print_cmds b).length)
      ≠ LORAWAN_REGION_USED) :
    (Certification.on_event b k m e w).trace
      = w.trace ++ reset_preamble ++ [Cmd.get_certification_mode] ++ credentials_print_cmds b ++
          [Cmd.get_and_print_lorawan_region_from_modem, Cmd.leave_network] ∧
    ((Certification.on_event b k m e w).trace.drop w.trace.length).count Cmd.leave_network
      = 1 ∧
    ((Certification.on_event b k m e w).trace.drop w.trace.length).count Cmd.join = 0 ∧
    ∀ r : Nat,
      ((Certification.on_event b k m e w).trace.drop w.trace.length).count (Cmd.set_region r)
        = 0 := by
  simp only [now_eq] at hmode hregion
  have htrace : (Certification.on_event b k m e w).trace
      = w.trace ++ (reset_preamble ++ [Cmd.get_certification_mode] ++ credentials_print_cmds b ++
          [Cmd.get_and_print_lorawan_region_from_modem, Cmd.leave_network]) := by
    simp only [Certification.on_event, hreset]
    rw [Certification.on_reset_trace_enabled b m w hmode, if_pos hregion]
    simp
  refine ⟨by rw [htrace]; simp, ?_, ?_, ?_⟩
  · rw [htrace, List.drop_left]
    cases b <;> simp [credentials_print_cmds, reset_preamble]
  · rw [htrace, List.drop_left]
    cases b <;> simp [credentials_print_cmds, reset_preamble]
  · intro r
    rw [htrace, List.drop_left]
    cases b <;> simp [credentials_print_cmds, reset_preamble]

/-- Sample run for `reset_region_mismatch_leaves`: the modem reports certification mode
enabled and region 2 while the application is built for region 1 (EU868). -/
theorem reset_region_mismatch_leaves_witness :
    (Certification.on_event false sample_consts
        (sample_modem 0 CertificationMode.LR1121_MODEM_CERTIFICATION_MODE_ENABLE 2)
        (sample_event EventType.LR1121_MODEM_LORAWAN_EVENT_RESET 0)
        (World.mk Certification.State.init [])).trace
      = [] ++ reset_preamble ++ [Cmd.get_certification_mode] ++ credentials_print_cmds false ++
          [Cmd.get_and_print_lorawan_region_from_modem, Cmd.leave_network] :=
  (reset_region_mismatch_leaves false sample_consts
    (sample_modem 0 CertificationMode.LR1121_MODEM_CERTIFICATION_MODE_ENABLE 2)
    (sample_event EventType.LR1121_MODEM_LORAWAN_EVENT_RESET 0)
    (World.mk Certification.State.init []) rfl rfl (by decide)).1

/-! ## Alarm event of the certification application -/

/-- C8: in the certification application, processing an Alarm event while `certif_running`
is ENABLE issues exactly one `clear_alarm_timer` and nothing else (no transmit request, no
`set_alarm_timer`) and leaves all statics, both counters included, unchanged. While it is
DISABLE the handler performs one `send_uplinks_counter_on_port( 101 )` attempt (duty-cycle
query, then, unless blocked, the max-payload query and one transmit request on port 101)
followed by exactly one `set_alarm_timer( 30 )`; the commands and the resulting statics
do not depend on any return code of the modem. -/
theorem alarm_certification (b : Bool) (k : DriverConsts) (m : Modem)
    (e : lr1121_modem_event_fields_t) (w : World Certification.State)
    (halarm : e.event_type = EventType.LR1121_MODEM_LORAWAN_EVENT_ALARM) :
    (w.app.certif_running = CertificationMode.LR1121_MODEM_CERTIFICATION_MODE_ENABLE →
      (Certification.on_event b k m e w).trace = w.trace ++ [Cmd.clear_alarm_timer] ∧
      (Certification.on_event b k m e w).app = w.app) ∧
    (w.app.certif_running = CertificationMode.LR1121_MODEM_CERTIFICATION_MODE_DISABLE →
      Certification.on_event b k m e w
        = issue (Cmd.set_alarm_timer 30) (Certification.send_uplinks_counter_on_port m 101 w) ∧
      (m.duty_cycle w.now < 0 →
        (Certification.on_event b k m e w).trace
          = w.trace ++ [Cmd.get_duty_cycle_status, Cmd.set_alarm_timer 30]) ∧
      (0 ≤ m.duty_cycle w.now →
        (Certification.on_event b k m e w).trace
          = w.trace ++ [Cmd.get_duty_cycle_status, Cmd.get_next_tx_max_payload,
              clamped_request 101 1
                (Certification.uplinks_counter_buff w.app.uplink_counter
                  w.app.confirmed_counter) 8 (m.tx_max_payload (w.now + 1)),
              Cmd.set_alarm_timer 30]) ∧
      ∀ rc' : Nat → ResponseCode,
        Certification.on_event b k { m with rc := rc' } e w
          = Certification.on_event b k m e w) := by
  constructor
  · intro hmode
    simp [Certification.on_event, halarm, Certification.on_alarm, hmode]
  · intro hmode
    refine ⟨?_, ?_, ?_, ?_⟩
    · simp [Certification.on_event, halarm, Certification.on_alarm, hmode,
        Certification.PERIODICAL_UPLINK_DELAY_S]
    · intro hblocked
      simp only [now_eq] at hblocked
      simp [Certification.on_event, halarm, Certification.on_alarm, hmode,
        Certification.send_uplinks_trace, send_frame_trace_blocked _ _ _ _ _ _ hblocked,
        Certification.PERIODICAL_UPLINK_DELAY_S]
    · intro hclear
      simp only [now_eq] at hclear
      simp [Certification.on_event, halarm, Certification.on_alarm, hmode,
        Certification.send_uplinks_trace, send_frame_trace_clear _ _ _ _ _ _ hclear,
        Certification.PERIODICAL_UPLINK_DELAY_S]
    · intro rc'
      simp only [Certification.on_event, halarm, Certification.on_alarm, hmode,
        Certification.send_uplinks_counter_on_port, send_frame]
      split_ifs <;> rfl

/-- Sample run for `alarm_certification`: certification mode enabled. -/
theorem alarm_certification_witness :
    (Certification.on_event false sample_consts
        (sample_modem 0 CertificationMode.LR1121_MODEM_CERTIFICATION_MODE_ENABLE 1)
        (sample_event EventType.LR1121_MODEM_LORAWAN_EVENT_ALARM 0)
        (World.mk { Certification.State.init with
          certif_running := CertificationMode.LR1121_MODEM_CERTIFICATION_MODE_ENABLE }
          [])).trace = [] ++ [Cmd.clear_alarm_timer] :=
  ((alarm_certification false sample_consts
    (sample_modem 0 CertificationMode.LR1121_MODEM_CERTIFICATION_MODE_ENABLE 1)
    (sample_event EventType.LR1121_MODEM_LORAWAN_EVENT_ALARM 0)
    (World.mk { Certification.State.init with
      certif_running := CertificationMode.LR1121_MODEM_CERTIFICATION_MODE_ENABLE } [])
    rfl).1 rfl).1

/-! ## TxDone event and the uplink counters of the certification application -/

theorem Certification.on_tx_done_not_sent (k : DriverConsts) (data : Nat)
    (w : World Certification.State) (hs : data >>> 8 = k.LR1121_MODEM_TX_NOT_SENT) :
    Certification.on_tx_done k data w
      = { w with app := { w.app with
            uplink_counter := (2 ^ 32 - 1 + w.app.uplink_counter) % 2 ^ 32 } } := by
  unfold Certification.on_tx_done
  simp only [hs, if_true]

theorem Certification.on_tx_done_confirmed (k : DriverConsts) (data : Nat)
    (w : World Certification.State) (hs : data >>> 8 = k.LR1121_MODEM_CONFIRMED_TX)
    (hcodes : k.LR1121_MODEM_TX_NOT_SENT ≠ k.LR1121_MODEM_CONFIRMED_TX) :
    Certification.on_tx_done k data w
      = { w with app := { w.app with
            confirmed_counter := (w.app.confirmed_counter + 1) % 2 ^ 32 } } := by
  unfold Certification.on_tx_done
  simp only [hs, if_true, if_neg hcodes.symm]

theorem Certification.on_tx_done_other (k : DriverConsts) (data : Nat)
    (w : World Certification.State) (h1 : data >>> 8 ≠ k.LR1121_MODEM_TX_NOT_SENT)
    (h2 : data >>> 8 ≠ k.LR1121_MODEM_CONFIRMED_TX) :
    Certification.on_tx_done k data w = w := by
  unfold Certification.on_tx_done
  simp only [if_neg h1, if_neg h2, ite_self]

theorem Certification.on_event_tx_done (b : Bool) (k : DriverConsts) (m : Modem)
    (e : lr1121_modem_event_fields_t) (w : World Certification.State)
    (htx : e.event_type = EventType.LR1121_MODEM_LORAWAN_EVENT_TX_DONE) :
    Certification.on_event b k m e w = Certification.on_tx_done k e.data w := by
  simp only [Certification.on_event, htx]

/-- C9: in the certification application a TxDone event is decoded as
`status = data >> 8` and changes nothing but the counters (no command is issued).
Status not-sent decreases `uplink_counter` by exactly 1 modulo `2^32` and leaves
`confirmed_counter` unchanged, so one `send_uplinks_counter_on_port` call followed by a
not-sent TxDone restores `uplink_counter`, for every initial 32-bit value. Status confirmed
increases `confirmed_counter` by exactly 1 modulo `2^32` and leaves `uplink_counter`
unchanged. Every other status leaves both counters unchanged. -/
theorem tx_done_counters (b : Bool) (k : DriverConsts) (m : Modem)
    (e : lr1121_modem_event_fields_t)
    (htx : e.event_type = EventType.LR1121_MODEM_LORAWAN_EVENT_TX_DONE)
    (hcodes : k.LR1121_MODEM_TX_NOT_SENT ≠ k.LR1121_MODEM_CONFIRMED_TX) :
    (∀ w : World Certification.State, (Certification.on_event b k m e w).trace = w.trace) ∧
    (e.data >>> 8 = k.LR1121_MODEM_TX_NOT_SENT →
      ∀ w : World Certification.State,
        (Certification.on_event b k m e w).app.uplink_counter
          = (2 ^ 32 - 1 + w.app.uplink_counter) % 2 ^ 32 ∧
        (0 < w.app.uplink_counter → w.app.uplink_counter < 2 ^ 32 →
          (Certification.on_event b k m e w).app.uplink_counter = w.app.uplink_counter - 1) ∧
        (w.app.uplink_counter = 0 →
          (Certification.on_event b k m e w).app.uplink_counter = 2 ^ 32 - 1) ∧
        (Certification.on_event b k m e w).app.confirmed_counter = w.app.confirmed_counter ∧
        ∀ port : Nat, w.app.uplink_counter < 2 ^ 32 →
          (Certification.on_event b k m e
            (Certification.send_uplinks_counter_on_port m port w)).app.uplink_counter
            = w.app.uplink_counter) ∧
    (e.data >>> 8 = k.LR1121_MODEM_CONFIRMED_TX →
      ∀ w : World Certification.State,
        (Certification.on_event b k m e w).app.confirmed_counter
          = (w.app.confirmed_counter + 1) % 2 ^ 32 ∧
        (Certification.on_event b k m e w).app.uplink_counter = w.app.uplink_counter) ∧
    (e.data >>> 8 ≠ k.LR1121_MODEM_TX_NOT_SENT → e.data >>> 8 ≠ k.LR1121_MODEM_CONFIRMED_TX →
      ∀ w : World Certification.State,
        (Certification.on_event b k m e w).app = w.app) := by
  refine ⟨?_, ?_, ?_, ?_⟩
  · intro w
    simp only [Certification.on_event, htx, Certification.on_tx_done]
    split_ifs <;> rfl
  · intro hs w
    have hstep : (Certification.on_event b k m e w).app.uplink_counter
        = (2 ^ 32 - 1 + w.app.uplink_counter) % 2 ^ 32 := by
      rw [Certification.on_event_tx_done b k m e w htx,
        Certification.on_tx_done_not_sent k _ w hs]
    refine ⟨hstep, ?_, ?_, ?_, ?_⟩
    · intro hpos hlt
      rw [hstep]
      omega
    · intro hzero
      rw [hstep, hzero]
      norm_num
    · rw [Certification.on_event_tx_done b k m e w htx,
        Certification.on_tx_done_not_sent k _ w hs]
    · intro port hlt
      have hsend : (Certification.on_event b k m e
            (Certification.send_uplinks_counter_on_port m port w)).app.uplink_counter
          = (2 ^ 32 - 1 + (w.app.uplink_counter + 1) % 2 ^ 32) % 2 ^ 32 := by
        rw [Certification.on_event_tx_done b k m e _ htx,
          Certification.on_tx_done_not_sent k _ _ hs, Certification.send_uplinks_app]
      rw [hsend]
      omega
  · intro hs w
    rw [Certification.on_event_tx_done b k m e w htx,
      Certification.on_tx_done_confirmed k _ w hs hcodes]
    exact ⟨rfl, rfl⟩
  · intro h1 h2 w
    rw [Certification.on_event_tx_done b k m e w htx,
      Certification.on_tx_done_other k _ w h1 h2]

/-- Sample run for `tx_done_counters`: one uplink attempt from `uplink_counter = 41`, then
a TxDone event with `data = 0x0000` (status 0, not sent). -/
theorem tx_done_counters_witness :
    (Certification.on_event false sample_consts
        (sample_modem 0 CertificationMode.LR1121_MODEM_CERTIFICATION_MODE_DISABLE 1)
        (sample_event EventType.LR1121_MODEM_LORAWAN_EVENT_TX_DONE 0)
        (Certification.send_uplinks_counter_on_port
          (sample_modem 0 CertificationMode.LR1121_MODEM_CERTIFICATION_MODE_DISABLE 1) 101
          (World.mk { Certification.State.init with uplink_counter := 41 }
            []))).app.uplink_counter = 41 :=
  ((tx_done_counters false sample_consts
    (sample_modem 0 CertificationMode.LR1121_MODEM_CERTIFICATION_MODE_DISABLE 1)
    (sample_event EventType.LR1121_MODEM_LORAWAN_EVENT_TX_DONE 0) rfl (by decide)).2.1 rfl
    (World.mk { Certification.State.init with uplink_counter := 41 } [])).2.2.2.2 101
    (by decide)

/-- C10, evaluated on the code: the buffer that `send_uplinks_counter_on_port` hands to
`send_frame` does not depend on `uplink_counter`. The four confirmed-counter bytes are
stored at indices 0..3, over the uplink-counter bytes, and bytes 4..7 stay zero; with
`uplink_counter = 0x01020304` and `confirmed_counter = 0x0A0B0C0D` the payload is
`0A 0B 0C 0D 00 00 00 00`. -/
theorem counters_payload_drops_uplink_counter :
    (∀ u u' c : Nat,
      Certification.uplinks_counter_buff u c = Certification.uplinks_counter_buff u' c) ∧
    (∀ u c : Nat,
      Certification.uplinks_counter_buff u c
        = [(c >>> 24) &&& 0xFF, (c >>> 16) &&& 0xFF, (c >>> 8) &&& 0xFF, c &&& 0xFF,
            0, 0, 0, 0]) ∧
    Certification.uplinks_counter_buff 0x01020304 0x0A0B0C0D
      = [0x0A, 0x0B, 0x0C, 0x0D, 0, 0, 0, 0] ∧
    (Certification.on_event false sample_consts
        (sample_modem 0 CertificationMode.LR1121_MODEM_CERTIFICATION_MODE_DISABLE 1)
        (sample_event EventType.LR1121_MODEM_LORAWAN_EVENT_ALARM 0)
        (World.mk { Certification.State.init with
          uplink_counter := 0x01020304, confirmed_counter := 0x0A0B0C0D } [])).trace
      = [Cmd.get_duty_cycle_status, Cmd.get_next_tx_max_payload,
          Cmd.request_tx 101 1 (some [0x0A, 0x0B, 0x0C, 0x0D, 0, 0, 0, 0]) 8,
          Cmd.set_alarm_timer 30] := by
  refine ⟨?_, ?_, ?_, ?_⟩
  · intro u u' c
    simp [Certification.uplinks_counter_buff, List.replicate]
  · intro u c
    simp [Certification.uplinks_counter_buff, List.replicate]
  · decide
  · decide

/-! ## Class B application: beacon status and user action -/

theorem ClassB.send_empty_uplink_app (m : Modem) (port conf : Nat) (w : World ClassB.State) :
    (ClassB.send_empty_uplink m port conf w).2.app = w.app := by
  unfold ClassB.send_empty_uplink
  simp only []
  split_ifs <;> rfl

theorem ClassB.send_empty_uplink_trace (m : Modem) (port conf : Nat) (w : World ClassB.State) :
    (ClassB.send_empty_uplink m port conf w).2.trace
      = w.trace ++ (if m.duty_cycle w.trace.length < 0 then [Cmd.get_duty_cycle_status]
          else [Cmd.get_duty_cycle_status, Cmd.request_empty_tx true port conf]) := by
  unfold ClassB.send_empty_uplink
  simp only [now_eq]
  split_ifs <;> simp

/-- C11, as stated, fails: with a Class-B session pending (`class_b_set` true,
`class_b_ready` false) a ClassBStatus event with `data = 1` sends the enabling uplink but
leaves `class_b_ready` false; and when the duty-cycle query reports `-1` the same event
issues no uplink request at all. -/
theorem class_b_status_keeps_ready_false :
    (ClassB.on_event false sample_consts
        (sample_modem 0 CertificationMode.LR1121_MODEM_CERTIFICATION_MODE_DISABLE 1)
        (sample_event EventType.LR1121_MODEM_LORAWAN_EVENT_CLASS_B_STATUS 1)
        (World.mk { ClassB.State.init with class_b_set := true } [])).app.class_b_ready
      = false ∧
    (ClassB.on_event false sample_consts
        (sample_modem 0 CertificationMode.LR1121_MODEM_CERTIFICATION_MODE_DISABLE 1)
        (sample_event EventType.LR1121_MODEM_LORAWAN_EVENT_CLASS_B_STATUS 1)
        (World.mk { ClassB.State.init with class_b_set := true } [])).trace
      = [Cmd.get_duty_cycle_status, Cmd.request_empty_tx true 10 1] ∧
    (ClassB.on_event false sample_consts
        (sample_modem (-1) CertificationMode.LR1121_MODEM_CERTIFICATION_MODE_DISABLE 1)
        (sample_event EventType.LR1121_MODEM_LORAWAN_EVENT_CLASS_B_STATUS 1)
        (World.mk { ClassB.State.init with class_b_set := true } [])).trace
      = [Cmd.get_duty_cycle_status] := by
  refine ⟨?_, ?_, ?_⟩ <;> rfl

/-- C11, amended: in the class_b application a ClassBStatus event with `data == 0` issues
no command and changes no static, so `class_b_ready` stays false. A ClassBStatus event
with `data != 0` leaves `class_b_set` and `class_b_ready` unchanged as well (readiness is
marked by the TxDone case, not here) and makes one `send_empty_uplink( 10, ... )` attempt:
the duty-cycle query followed by exactly one `request_empty_tx` on port 10 when the
reported duty cycle is `>= 0`, and the duty-cycle query alone when it is negative. -/
theorem class_b_status_sends_enabling_uplink (b : Bool) (k : DriverConsts) (m : Modem)
    (e : lr1121_modem_event_fields_t) (w : World ClassB.State)
    (hstatus : e.event_type = EventType.LR1121_MODEM_LORAWAN_EVENT_CLASS_B_STATUS) :
    (e.data = 0 → ClassB.on_event b k m e w = w) ∧
    (e.data ≠ 0 →
      (ClassB.on_event b k m e w).app = w.app ∧
      (0 ≤ m.duty_cycle w.now →
        (ClassB.on_event b k m e w).trace
          = w.trace ++ [Cmd.get_duty_cycle_status,
              Cmd.request_empty_tx true 10 k.LR1121_MODEM_UNCONFIRMED_TX]) ∧
      (m.duty_cycle w.now < 0 →
        (ClassB.on_event b k m e w).trace = w.trace ++ [Cmd.get_duty_cycle_status])) := by
  constructor
  · intro hzero
    simp [ClassB.on_event, hstatus, ClassB.on_class_b_status, hzero]
  · intro hdata
    refine ⟨?_, ?_, ?_⟩
    · simp [ClassB.on_event, hstatus, ClassB.on_class_b_status, hdata,
        ClassB.send_empty_uplink_app]
    · intro hclear
      have hnot : ¬ m.duty_cycle w.trace.length < 0 := not_lt.mpr hclear
      simp [ClassB.on_event, hstatus, ClassB.on_class_b_status, hdata,
        ClassB.send_empty_uplink_trace, hnot]
    · intro hblocked
      simp only [now_eq] at hblocked
      simp [ClassB.on_event, hstatus, ClassB.on_class_b_status, hdata,
        ClassB.send_empty_uplink_trace, hblocked]

/-- Sample run for `class_b_status_sends_enabling_uplink`: no beacon (`data = 0`). -/
theorem class_b_status_sends_enabling_uplink_witness :
    ClassB.on_event false sample_consts
        (sample_modem 0 CertificationMode.LR1121_MODEM_CERTIFICATION_MODE_DISABLE 1)
        (sample_event EventType.LR1121_MODEM_LORAWAN_EVENT_CLASS_B_STATUS 0)
        (World.mk { ClassB.State.init with class_b_set := true } [])
      = World.mk { ClassB.State.init with class_b_set := true } [] :=
  (class_b_status_sends_enabling_uplink false sample_consts
    (sample_modem 0 CertificationMode.LR1121_MODEM_CERTIFICATION_MODE_DISABLE 1)
    (sample_event EventType.LR1121_MODEM_LORAWAN_EVENT_CLASS_B_STATUS 0)
    (World.mk { ClassB.State.init with class_b_set := true } []) rfl).1 rfl

theorem issued_of_trace {σ : Type} (w w' : World σ) (L : List Cmd)
    (h : w'.trace = w.trace ++ L) : issued w w' = L := by
  simp [issued, h]

theorem ClassB.on_event_issues_no_set_class (b : Bool) (k : DriverConsts) (m : Modem)
    (e : lr1121_modem_event_fields_t) (w : World ClassB.State) :
    ∃ L : List Cmd, (ClassB.on_event b k m e w).trace = w.trace ++ L ∧
      ∀ c ∈ L, c.isSetClass = false := by
  unfold ClassB.on_event
  split
  · cases b
    · refine ⟨reset_preamble ++ credentials_cmds false ++
        [Cmd.set_region LORAWAN_REGION_USED, Cmd.join], ?_, ?_⟩
      · simp [ClassB.on_reset, reset_credentials, reset_preamble, credentials_cmds]
      · simp [reset_preamble, credentials_cmds, Cmd.isSetClass]
    · refine ⟨reset_preamble ++ credentials_cmds true ++
        [Cmd.set_region LORAWAN_REGION_USED, Cmd.join], ?_, ?_⟩
      · simp [ClassB.on_reset, reset_credentials, reset_preamble, credentials_cmds]
      · simp [reset_preamble, credentials_cmds, Cmd.isSetClass]
  · exact ⟨[], by simp, by simp⟩
  · exact ⟨[Cmd.set_adr_profile], by simp, by simp [Cmd.isSetClass]⟩
  · refine ⟨[], ?_, by simp⟩
    unfold ClassB.on_tx_done
    split_ifs <;> simp
  · exact ⟨[Cmd.get_downlink_data_size, Cmd.get_downlink_data (m.downlink_size w.now),
      Cmd.get_downlink_metadata], by simp [read_downlink], by simp [Cmd.isSetClass]⟩
  · exact ⟨[], by simp, by simp⟩
  · exact ⟨[], by simp, by simp⟩
  · exact ⟨[], by simp, by simp⟩
  · unfold ClassB.on_class_b_status
    split_ifs
    · rw [ClassB.send_empty_uplink_trace]
      refine ⟨_, rfl, ?_⟩
      split_ifs <;> simp [Cmd.isSetClass]
    · exact ⟨[], by simp, by simp⟩
  all_goals exact ⟨[], by simp, by simp⟩

theorem class_b_button_trace (k : DriverConsts) (m : Modem) (w : World ClassB.State) :
    (ClassB.main_handle_button_pushed k m w).trace
      = w.trace ++
        (if m.status w.trace.length &&& k.LR1121_LORAWAN_JOINED = k.LR1121_LORAWAN_JOINED then
          (if w.app.class_b_set = false then
            [Cmd.get_status,
              Cmd.set_class_b_ping_slot_periodicity k.LR1121_MODEM_CLASS_B_PING_SLOT_8_S,
              Cmd.set_class k.LR1121_LORAWAN_CLASS_B]
           else [Cmd.get_status, Cmd.set_class k.LR1121_LORAWAN_CLASS_A])
         else [Cmd.get_status]) := by
  unfold ClassB.main_handle_button_pushed
  simp only [now_eq]
  split_ifs <;> simp_all [ClassB.PING_SLOT_PERIODICITY]

/-- C12: in the class_b application, for every state, a user-action trigger handled while
the modem status does not have the JOINED bit set issues only the status query (no
`set_class`, no `set_class_b_ping_slot_periodicity`) and leaves every static, `class_b_set`
and `class_b_ready` included, unchanged. Consequently, over all steps of the application
(events and user actions), a `set_class` command, `set_class( B )` in particular, is issued
only by a user action for which the modem status has the JOINED bit set. -/
theorem class_b_user_action_needs_joined (k : DriverConsts) (m : Modem) :
    (∀ w : World ClassB.State,
      m.status w.now &&& k.LR1121_LORAWAN_JOINED ≠ k.LR1121_LORAWAN_JOINED →
        (ClassB.main_handle_button_pushed k m w).trace = w.trace ++ [Cmd.get_status] ∧
        (ClassB.main_handle_button_pushed k m w).app = w.app) ∧
    (∀ (b : Bool) (s : ClassB.Step) (w : World ClassB.State),
      (∃ c ∈ issued w (ClassB.step b k m s w), c.isSetClass = true) →
        s = ClassB.Step.user_action ∧
        m.status w.now &&& k.LR1121_LORAWAN_JOINED = k.LR1121_LORAWAN_JOINED) := by
  constructor
  · intro w hnot
    simp only [now_eq] at hnot
    constructor
    · rw [class_b_button_trace, if_neg hnot]
    · simp [ClassB.main_handle_button_pushed, hnot]
  · intro b s w hex
    obtain ⟨c, hc, hset⟩ := hex
    cases s with
    | event e =>
      exfalso
      obtain ⟨L, hL, hno⟩ := ClassB.on_event_issues_no_set_class b k m e w
      have hiss : issued w (ClassB.step b k m (ClassB.Step.event e) w) = L :=
        issued_of_trace _ _ _ hL
      rw [hiss] at hc
      have := hno c hc
      rw [this] at hset
      exact Bool.false_ne_true hset
    | user_action =>
      refine ⟨rfl, ?_⟩
      by_contra hnot
      simp only [now_eq] at hnot
      have hiss : issued w (ClassB.step b k m ClassB.Step.user_action w) = [Cmd.get_status] := by
        apply issued_of_trace
        show (ClassB.main_handle_button_pushed k m w).trace = _
        rw [class_b_button_trace, if_neg hnot]
      rw [hiss] at hc
      simp at hc
      rw [hc] at hset
      exact Bool.false_ne_true hset

/-- Sample run for `class_b_user_action_needs_joined`: the modem status is 0 (not
joined) while `sample_consts` has the JOINED bit at value 8. -/
theorem class_b_user_action_needs_joined_witness :
    (ClassB.main_handle_button_pushed sample_consts
        { sample_modem 0 CertificationMode.LR1121_MODEM_CERTIFICATION_MODE_DISABLE 1 with
          status := fun _ => 0 }
        (World.mk ClassB.State.init [])).trace = [] ++ [Cmd.get_status] :=
  ((class_b_user_action_needs_joined sample_consts
    { sample_modem 0 CertificationMode.LR1121_MODEM_CERTIFICATION_MODE_DISABLE 1 with
      status := fun _ => 0 }).1 (World.mk ClassB.State.init []) (by decide)).1

/-- C13: in the class_b application, a user-action trigger handled while the modem status
has the JOINED bit set: if `class_b_set` is false, the handler issues, after the status
query, `set_class_b_ping_slot_periodicity` (8 s) and then `set_class( B )`, sets
`class_b_set` to true and leaves `class_b_ready` unchanged; if `class_b_set` is true, it
issues, after the status query, exactly `set_class( A )` and sets both `class_b_set` and
`class_b_ready` to false. -/
theorem class_b_user_action_toggles (k : DriverConsts) (m : Modem) (w : World ClassB.State)
    (hjoined : m.status w.now &&& k.LR1121_LORAWAN_JOINED = k.LR1121_LORAWAN_JOINED) :
    (w.app.class_b_set = false →
      (ClassB.main_handle_button_pushed k m w).trace
        = w.trace ++ [Cmd.get_status,
            Cmd.set_class_b_ping_slot_periodicity k.LR1121_MODEM_CLASS_B_PING_SLOT_8_S,
            Cmd.set_class k.LR1121_LORAWAN_CLASS_B] ∧
      (ClassB.main_handle_button_pushed k m w).app.class_b_set = true ∧
      (ClassB.main_handle_button_pushed k m w).app.class_b_ready = w.app.class_b_ready) ∧
    (w.app.class_b_set = true →
      (ClassB.main_handle_button_pushed k m w).trace
        = w.trace ++ [Cmd.get_status, Cmd.set_class k.LR1121_LORAWAN_CLASS_A] ∧
      (ClassB.main_handle_button_pushed k m w).app.class_b_set = false ∧
      (ClassB.main_handle_button_pushed k m w).app.class_b_ready = false) := by
  simp only [now_eq] at hjoined
  constructor
  · intro hset
    refine ⟨?_, ?_, ?_⟩
    · rw [class_b_button_trace, if_pos hjoined, if_pos hset]
    · simp [ClassB.main_handle_button_pushed, hjoined, hset]
    · simp [ClassB.main_handle_button_pushed, hjoined, hset]
  · intro hset
    refine ⟨?_, ?_, ?_⟩
    · rw [class_b_button_trace, if_pos hjoined, if_neg (by simp [hset])]
    · simp [ClassB.main_handle_button_pushed, hjoined, hset]
    · simp [ClassB.main_handle_button_pushed, hjoined, hset]

/-- Sample run for `class_b_user_action_toggles`: joined, Class B not yet armed. -/
theorem class_b_user_action_toggles_witness :
    (ClassB.main_handle_button_pushed sample_consts
        (sample_modem 0 CertificationMode.LR1121_MODEM_CERTIFICATION_MODE_DISABLE 1)
        (World.mk ClassB.State.init [])).trace
      = [] ++ [Cmd.get_status, Cmd.set_class_b_ping_slot_periodicity 3, Cmd.set_class 1] :=
  ((class_b_user_action_toggles sample_consts
    (sample_modem 0 CertificationMode.LR1121_MODEM_CERTIFICATION_MODE_DISABLE 1)
    (World.mk ClassB.State.init []) (by decide)).1 rfl).1

/-! ## Multicast application: provisioning, start and stop -/

theorem send_frame_trace {σ : Type} (m : Modem) (buf : List Nat) (size port conf : Nat)
    (w : World σ) :
    (send_frame m buf size port conf w).2.trace
      = w.trace ++ (if m.duty_cycle w.trace.length < 0 then [Cmd.get_duty_cycle_status]
          else [Cmd.get_duty_cycle_status, Cmd.get_next_tx_max_payload,
            clamped_request port conf buf size (m.tx_max_payload (w.trace.length + 1))]) := by
  by_cases h : m.duty_cycle w.trace.length < 0
  · rw [if_pos h, send_frame_trace_blocked m buf size port conf w h]
  · rw [if_neg h, send_frame_trace_clear m buf size port conf w (not_lt.mp h)]

theorem clamped_request_isTx (port conf : Nat) (buf : List Nat) (size mx : Nat) :
    ∃ p n, clamped_request port conf buf size mx = Cmd.request_tx port conf p n := by
  unfold clamped_request
  split_ifs
  · exact ⟨none, 0, rfl⟩
  · exact ⟨some buf, size, rfl⟩

theorem Multicast.enable_unicast_trace (k : DriverConsts) (m : Modem)
    (w : World Multicast.State) :
    (Multicast.enable_unicast k m w).trace
      = w.trace ++ (if m.duty_cycle w.trace.length < 0 then [Cmd.get_duty_cycle_status]
          else [Cmd.get_duty_cycle_status, Cmd.get_next_tx_max_payload,
            clamped_request 10 k.LR1121_MODEM_UNCONFIRMED_TX (List.replicate 8 0) 8
              (m.tx_max_payload (w.trace.length + 1))]) := by
  unfold Multicast.enable_unicast
  simp only []
  rw [send_frame_trace]

theorem Multicast.configure_groups_trace (w : World Multicast.State) :
    (Multicast.configure_groups w).trace
      = w.trace ++ [Cmd.set_multicast_group_config 0 (Multicast.grp_addr 0)
            (Multicast.multicast_key 0 1) (Multicast.multicast_key 0 2),
          Cmd.set_multicast_group_config 1 (Multicast.grp_addr 1)
            (Multicast.multicast_key 1 1) (Multicast.multicast_key 1 2)] := by
  simp [Multicast.configure_groups, Multicast.NUMBER_MULTICAST_SESSION, List.range_succ]

theorem Multicast.on_joined_trace (k : DriverConsts) (m : Modem) (w : World Multicast.State) :
    ∃ rest : List Cmd,
      (Multicast.on_joined k m w).trace = w.trace ++ joined_head_cmds ++ rest ∧
      ∀ c ∈ rest, c = Cmd.get_duty_cycle_status ∨ c = Cmd.get_next_tx_max_payload ∨
        ∃ p n, c = Cmd.request_tx 10 k.LR1121_MODEM_UNCONFIRMED_TX p n := by
  unfold Multicast.on_joined
  simp only []
  split_ifs
  · rw [Multicast.enable_unicast_trace, Multicast.configure_groups_trace]
    refine ⟨_, by simp only [issue_trace, joined_head_cmds, List.append_assoc,
      List.singleton_append, List.cons_append, List.nil_append]; rfl, ?_⟩
    intro c hc
    split_ifs at hc
    · simp at hc
      exact Or.inl hc
    · simp at hc
      rcases hc with h | h | h
      · exact Or.inl h
      · exact Or.inr (Or.inl h)
      · exact Or.inr (Or.inr (h ▸ clamped_request_isTx _ _ _ _ _))
  · refine ⟨[], ?_, by simp⟩
    rw [Multicast.configure_groups_trace]
    simp [joined_head_cmds]

/-- C14, as stated, fails: on the Joined event of the multicast application the
`set_class` command is the second command issued, before both
`set_multicast_group_config` commands. -/
theorem joined_sets_class_before_group_config :
    (Multicast.on_event false sample_consts
        (sample_modem 0 CertificationMode.LR1121_MODEM_CERTIFICATION_MODE_DISABLE 1)
        (sample_event EventType.LR1121_MODEM_LORAWAN_EVENT_JOINED 0)
        (World.mk Multicast.State.init [])).trace
      = [Cmd.set_adr_profile, Cmd.set_class 1,
          Cmd.set_multicast_group_config 0 0x01020304
            [0x05, 0x06, 0x07, 0x08, 0x09, 0x0A, 0x0B, 0x0C, 0x0D, 0x0E, 0x0F, 0x10, 0x11, 0x12,
              0x13, 0x14]
            [0x15, 0x16, 0x17, 0x18, 0x19, 0x1A, 0x1B, 0x1C, 0x1D, 0x1E, 0x1F, 0x20, 0x21, 0x22,
              0x23, 0x24],
          Cmd.set_multicast_group_config 1 0x25262728
            [0x29, 0x2A, 0x2B, 0x2C, 0x2D, 0x2E, 0x2F, 0x30, 0x31, 0x32, 0x33, 0x34, 0x35, 0x36,
              0x37, 0x38]
            [0x3A, 0x3B, 0x3C, 0x3D, 0x3E, 0x3F, 0x40, 0x41, 0x42, 0x43, 0x44, 0x45, 0x46, 0x47,
              0x48, 0x49]] ∧
    ((Multicast.on_event false sample_consts
        (sample_modem 0 CertificationMode.LR1121_MODEM_CERTIFICATION_MODE_DISABLE 1)
        (sample_event EventType.LR1121_MODEM_LORAWAN_EVENT_JOINED 0)
        (World.mk Multicast.State.init [])).trace.take 2).filter Cmd.isGroupConfig = [] := by
  constructor <;> decide

/-- C14, amended: on the Joined event of the multicast application the commands are issued
in this order: `set_adr_profile`, then the `set_class` command that switches the device
class, then one `set_multicast_group_config` per configured group (group 0, then group 1,
each with its address and both session keys). Whatever follows (the enabling uplink of the
class C build) is neither a class switch nor a group configuration. -/
theorem joined_class_switch_then_group_config (b : Bool) (k : DriverConsts) (m : Modem)
    (e : lr1121_modem_event_fields_t) (w : World Multicast.State)
    (hjoined : e.event_type = EventType.LR1121_MODEM_LORAWAN_EVENT_JOINED) :
    ∃ rest : List Cmd,
      (Multicast.on_event b k m e w).trace
        = w.trace ++
            [Cmd.set_adr_profile, Cmd.set_class Multicast.MULTICAST_SESSION_CLASS,
              Cmd.set_multicast_group_config 0 (Multicast.grp_addr 0)
                (Multicast.multicast_key 0 1) (Multicast.multicast_key 0 2),
              Cmd.set_multicast_group_config 1 (Multicast.grp_addr 1)
                (Multicast.multicast_key 1 1) (Multicast.multicast_key 1 2)] ++ rest ∧
      ∀ c ∈ rest, c.isSetClass = false ∧ c.isGroupConfig = false := by
  obtain ⟨rest, htrace, hrest⟩ := Multicast.on_joined_trace k m w
  refine ⟨rest, ?_, ?_⟩
  · simp only [Multicast.on_event, hjoined]
    exact htrace
  · intro c hc
    rcases hrest c hc with h | h | ⟨p, n, h⟩ <;> rw [h] <;> exact ⟨rfl, rfl⟩

/-- Sample run for `joined_class_switch_then_group_config`: the first two commands of the
sample Joined run. -/
theorem joined_class_switch_then_group_config_witness :
    ∃ rest : List Cmd,
      (Multicast.on_event false sample_consts
          (sample_modem 0 CertificationMode.LR1121_MODEM_CERTIFICATION_MODE_DISABLE 1)
          (sample_event EventType.LR1121_MODEM_LORAWAN_EVENT_JOINED 0)
          (World.mk Multicast.State.init [])).trace
        = [] ++
            [Cmd.set_adr_profile, Cmd.set_class Multicast.MULTICAST_SESSION_CLASS,
              Cmd.set_multicast_group_config 0 (Multicast.grp_addr 0)
                (Multicast.multicast_key 0 1) (Multicast.multicast_key 0 2),
              Cmd.set_multicast_group_config 1 (Multicast.grp_addr 1)
                (Multicast.multicast_key 1 1) (Multicast.multicast_key 1 2)] ++ rest ∧
      ∀ c ∈ rest, c.isSetClass = false ∧ c.isGroupConfig = false :=
  joined_class_switch_then_group_config false sample_consts
    (sample_modem 0 CertificationMode.LR1121_MODEM_CERTIFICATION_MODE_DISABLE 1)
    (sample_event EventType.LR1121_MODEM_LORAWAN_EVENT_JOINED 0)
    (World.mk Multicast.State.init []) rfl

theorem Multicast.start_sessions_trace (k : DriverConsts) (w : World Multicast.State) :
    (Multicast.start_sessions k w).trace
      = w.trace ++ [Multicast.start_cmd k 0, Multicast.start_cmd k 1] ∧
    (Multicast.start_sessions k w).app = w.app := by
  simp [Multicast.start_sessions, Multicast.NUMBER_MULTICAST_SESSION, List.range_succ]

theorem Multicast.start_cmd_isStartOf (k : DriverConsts) (i : Nat) :
    (Multicast.start_cmd k i).isStartOf i = true := by
  unfold Multicast.start_cmd
  split_ifs <;> simp [Cmd.isStartOf]

theorem Multicast.stop_cmd_isStopAll (k : DriverConsts) :
    (Multicast.stop_cmd k).isStopAll = true := by
  unfold Multicast.stop_cmd
  split_ifs <;> rfl

theorem Multicast.start_cmd_not_stop (k : DriverConsts) (i : Nat) :
    (Multicast.start_cmd k i).isStopAll = false := by
  unfold Multicast.start_cmd
  split_ifs <;> rfl

theorem multicast_button_trace (k : DriverConsts) (w : World Multicast.State) :
    (Multicast.main_handle_button_pushed k w).trace
      = w.trace ++
        (if w.app.unicast_ready = true then
          (if w.app.multicast_started = true then [Multicast.stop_cmd k]
           else [Multicast.start_cmd k 0, Multicast.start_cmd k 1])
         else []) := by
  unfold Multicast.main_handle_button_pushed
  split_ifs <;> simp [(Multicast.start_sessions_trace k w).1]

theorem Multicast.button_started (k : DriverConsts) (w : World Multicast.State) :
    (Multicast.main_handle_button_pushed k w).app.multicast_started
      = (w.app.unicast_ready && !w.app.multicast_started) := by
  unfold Multicast.main_handle_button_pushed
  split_ifs <;> simp_all

theorem Multicast.enable_unicast_started (k : DriverConsts) (m : Modem)
    (w : World Multicast.State) :
    (Multicast.enable_unicast k m w).app.multicast_started = w.app.multicast_started := by
  simp [Multicast.enable_unicast, send_frame_app]

theorem Multicast.configure_groups_app (w : World Multicast.State) :
    (Multicast.configure_groups w).app = w.app := by
  simp [Multicast.configure_groups, Multicast.NUMBER_MULTICAST_SESSION, List.range_succ]

theorem Multicast.on_event_never_raises_started (b : Bool) (k : DriverConsts) (m : Modem)
    (e : lr1121_modem_event_fields_t) (w : World Multicast.State)
    (h : (Multicast.on_event b k m e w).app.multicast_started = true) :
    w.app.multicast_started = true := by
  unfold Multicast.on_event at h
  split at h
  · cases b <;> simp [Multicast.on_reset, reset_credentials] at h
  · exact h
  · unfold Multicast.on_joined at h
    simp only [] at h
    split_ifs at h
    · simpa [Multicast.enable_unicast_started, Multicast.configure_groups_app] using h
    · simpa [Multicast.configure_groups_app] using h
  · exact h
  · simpa [read_downlink] using h
  · exact h
  · exact h
  · exact h
  · unfold Multicast.on_class_b_status at h
    split_ifs at h
    · simpa [Multicast.enable_unicast_started] using h
    · exact h
  all_goals exact h

theorem Multicast.on_event_issues_no_stop (b : Bool) (k : DriverConsts) (m : Modem)
    (e : lr1121_modem_event_fields_t) (w : World Multicast.State) :
    ∃ L : List Cmd, (Multicast.on_event b k m e w).trace = w.trace ++ L ∧
      ∀ c ∈ L, c.isStopAll = false := by
  unfold Multicast.on_event
  split
  · cases b
    · refine ⟨reset_preamble ++ credentials_cmds false ++
        [Cmd.set_region LORAWAN_REGION_USED, Cmd.join], ?_, ?_⟩
      · simp [Multicast.on_reset, reset_credentials, reset_preamble, credentials_cmds]
      · simp [reset_preamble, credentials_cmds, Cmd.isStopAll]
    · refine ⟨reset_preamble ++ credentials_cmds true ++
        [Cmd.set_region LORAWAN_REGION_USED, Cmd.join], ?_, ?_⟩
      · simp [Multicast.on_reset, reset_credentials, reset_preamble, credentials_cmds]
      · simp [reset_preamble, credentials_cmds, Cmd.isStopAll]
  · exact ⟨[], by simp, by simp⟩
  · obtain ⟨rest, htrace, hrest⟩ := Multicast.on_joined_trace k m w
    refine ⟨joined_head_cmds ++ rest, by rw [htrace, List.append_assoc], ?_⟩
    intro c hc
    rcases List.mem_append.mp hc with h | h
    · simp [joined_head_cmds] at h
      rcases h with h | h | h | h <;> rw [h] <;> rfl
    · rcases hrest c h with h | h | ⟨p, n, h⟩ <;> rw [h] <;> rfl
  · exact ⟨[], by simp, by simp⟩
  · exact ⟨[Cmd.get_downlink_data_size, Cmd.get_downlink_data (m.downlink_size w.now),
      Cmd.get_downlink_metadata], by simp [read_downlink], by simp [Cmd.isStopAll]⟩
  · exact ⟨[], by simp, by simp⟩
  · exact ⟨[], by simp, by simp⟩
  · exact ⟨[], by simp, by simp⟩
  · unfold Multicast.on_class_b_status
    split_ifs
    · rw [Multicast.enable_unicast_trace]
      refine ⟨_, rfl, ?_⟩
      intro c hc
      split_ifs at hc
      · simp at hc
        rw [hc]
        rfl
      · simp at hc
        rcases hc with h | h | h
        · rw [h]; rfl
        · rw [h]; rfl
        · obtain ⟨p, n, hp⟩ := clamped_request_isTx 10 k.LR1121_MODEM_UNCONFIRMED_TX
            [0, 0, 0, 0, 0, 0, 0, 0] 8 (m.tx_max_payload (w.trace.length + 1))
          rw [h, hp]
          rfl
    · exact ⟨[], by simp, by simp⟩
  all_goals exact ⟨[], by simp, by simp⟩

theorem Multicast.status_poll_trace (k : DriverConsts) (m : Modem)
    (w : World Multicast.State) :
    (Multicast.main_status_poll k m w).trace
      = w.trace ++ (if Multicast.MULTICAST_SESSION_CLASS = k.LR1121_LORAWAN_CLASS_B
          then [Cmd.get_multicast_class_b_session_status 0] else []) := by
  unfold Multicast.main_status_poll
  simp only []
  split_ifs <;> simp

/-- C15, as stated, fails. First, from the initial state and with no command ever issued,
one status poll of the main loop sets `multicast_started` when the modem reports session 0
started and not waiting for a beacon. Second, a main-loop pass that handles a user action
issuing the stop-all command (here answered with FAIL) and then polls the same report ends
with `multicast_started` true. -/
theorem status_poll_sets_started_without_start :
    (Multicast.step false sample_consts
        { sample_modem 0 CertificationMode.LR1121_MODEM_CERTIFICATION_MODE_DISABLE 1 with
          is_session_started := fun _ => 1 }
        Multicast.Step.status_poll (World.mk Multicast.State.init [])).app.multicast_started
      = true ∧
    (Multicast.step false sample_consts
        { sample_modem 0 CertificationMode.LR1121_MODEM_CERTIFICATION_MODE_DISABLE 1 with
          is_session_started := fun _ => 1 }
        Multicast.Step.status_poll (World.mk Multicast.State.init [])).trace
      = [Cmd.get_multicast_class_b_session_status 0] ∧
    (Multicast.main_loop_pass sample_consts
        { sample_modem 0 CertificationMode.LR1121_MODEM_CERTIFICATION_MODE_DISABLE 1 with
          rc := fun _ => ResponseCode.LR1121_MODEM_RESPONSE_CODE_FAIL
          is_session_started := fun _ => 1 }
        (World.mk { Multicast.State.init with
          user_button_is_press := true, unicast_ready := true, multicast_started := true }
          [])).trace
      = [Cmd.stop_all_session_multicast_class_b, Cmd.get_multicast_class_b_session_status 0] ∧
    (Multicast.main_loop_pass sample_consts
        { sample_modem 0 CertificationMode.LR1121_MODEM_CERTIFICATION_MODE_DISABLE 1 with
          rc := fun _ => ResponseCode.LR1121_MODEM_RESPONSE_CODE_FAIL
          is_session_started := fun _ => 1 }
        (World.mk { Multicast.State.init with
          user_button_is_press := true, unicast_ready := true, multicast_started := true }
          [])).app.multicast_started = true := by
  refine ⟨?_, ?_, ?_, ?_⟩ <;> decide

/-- C15, amended: over the steps of the multicast application (the switch on an event, the
user-action handler, the status poll of the main loop), `multicast_started` changes from
false to true only (a) in the user-action handler, with `unicast_ready` true and after the
handler has issued a start command for every configured group `0..N-1` in that step, or
(b) in the status poll, when the modem reports session 0 started and not waiting for a
beacon, whatever was issued before. Every such step that issues a stop-all command leaves
`multicast_started` false. -/
theorem multicast_started_transitions (b : Bool) (k : DriverConsts) (m : Modem)
    (s : Multicast.Step) (w : World Multicast.State) :
    (w.app.multicast_started = false →
      (Multicast.step b k m s w).app.multicast_started = true →
        (s = Multicast.Step.user_action ∧ w.app.unicast_ready = true ∧
          ∀ i : Nat, i < Multicast.NUMBER_MULTICAST_SESSION →
            ∃ c ∈ issued w (Multicast.step b k m s w), c.isStartOf i = true) ∨
        (s = Multicast.Step.status_poll ∧
          Multicast.MULTICAST_SESSION_CLASS = k.LR1121_LORAWAN_CLASS_B ∧
          m.is_session_waiting_for_beacon w.now = 0 ∧ m.is_session_started w.now = 1)) ∧
    ((∃ c ∈ issued w (Multicast.step b k m s w), c.isStopAll = true) →
      (Multicast.step b k m s w).app.multicast_started = false) := by
  cases s with
  | event e =>
    constructor
    · intro hfalse htrue
      have h := Multicast.on_event_never_raises_started b k m e w htrue
      rw [hfalse] at h
      exact absurd h Bool.false_ne_true
    · intro hex
      exfalso
      obtain ⟨c, hc, hstop⟩ := hex
      obtain ⟨L, hL, hno⟩ := Multicast.on_event_issues_no_stop b k m e w
      have hiss : issued w (Multicast.step b k m (Multicast.Step.event e) w) = L :=
        issued_of_trace _ _ _ hL
      rw [hiss] at hc
      rw [hno c hc] at hstop
      exact Bool.false_ne_true hstop
  | user_action =>
    have hiss : issued w (Multicast.step b k m Multicast.Step.user_action w)
        = (if w.app.unicast_ready = true then
            (if w.app.multicast_started = true then [Multicast.stop_cmd k]
             else [Multicast.start_cmd k 0, Multicast.start_cmd k 1])
           else []) :=
      issued_of_trace _ _ _ (multicast_button_trace k w)
    have hflag : (Multicast.step b k m Multicast.Step.user_action w).app.multicast_started
        = (w.app.unicast_ready && !w.app.multicast_started) := Multicast.button_started k w
    constructor
    · intro hfalse htrue
      left
      rw [hflag, hfalse] at htrue
      have hready : w.app.unicast_ready = true := by simpa using htrue
      refine ⟨rfl, hready, ?_⟩
      intro i hi
      rw [hiss, if_pos hready, if_neg (by simp [hfalse])]
      have hi2 : i = 0 ∨ i = 1 := by
        unfold Multicast.NUMBER_MULTICAST_SESSION at hi
        omega
      rcases hi2 with h0 | h1
      · exact ⟨Multicast.start_cmd k 0, by simp, h0 ▸ Multicast.start_cmd_isStartOf k 0⟩
      · exact ⟨Multicast.start_cmd k 1, by simp, h1 ▸ Multicast.start_cmd_isStartOf k 1⟩
    · intro hex
      obtain ⟨c, hc, hstop⟩ := hex
      rw [hiss] at hc
      rw [hflag]
      by_cases hready : w.app.unicast_ready = true
      · by_cases hstarted : w.app.multicast_started = true
        · simp [hready, hstarted]
        · exfalso
          rw [if_pos hready, if_neg hstarted] at hc
          simp at hc
          rcases hc with h | h <;> rw [h, Multicast.start_cmd_not_stop] at hstop <;>
            exact Bool.false_ne_true hstop
      · rw [if_neg hready] at hc
        simp at hc
  | status_poll =>
    constructor
    · intro hfalse htrue
      right
      refine ⟨rfl, ?_⟩
      simp only [Multicast.step, Multicast.main_status_poll, now_eq] at htrue
      simp only [now_eq]
      split_ifs at htrue with hclass hreport
      · exact ⟨hclass, hreport.1, hreport.2⟩
      · simp [hfalse] at htrue
      · simp [hfalse] at htrue
    · intro hex
      exfalso
      obtain ⟨c, hc, hstop⟩ := hex
      have hiss : issued w (Multicast.step b k m Multicast.Step.status_poll w)
          = (if Multicast.MULTICAST_SESSION_CLASS = k.LR1121_LORAWAN_CLASS_B
              then [Cmd.get_multicast_class_b_session_status 0] else []) :=
        issued_of_trace _ _ _ (Multicast.status_poll_trace k m w)
      rw [hiss] at hc
      split_ifs at hc
      · simp at hc
        rw [hc] at hstop
        exact Bool.false_ne_true hstop
      · simp at hc

/-- Sample run for `multicast_started_transitions`: a user action with `unicast_ready`
true and no session started issues the start command of group 1 (and of group 0). -/
theorem multicast_started_transitions_witness :
    (Multicast.Step.user_action = Multicast.Step.user_action ∧ true = true ∧
      ∀ i : Nat, i < Multicast.NUMBER_MULTICAST_SESSION →
        ∃ c ∈ issued (World.mk { Multicast.State.init with unicast_ready := true } [])
            (Multicast.step false sample_consts
              (sample_modem 0 CertificationMode.LR1121_MODEM_CERTIFICATION_MODE_DISABLE 1)
              Multicast.Step.user_action
              (World.mk { Multicast.State.init with unicast_ready := true } [])),
          c.isStartOf i = true) ∨
    (Multicast.Step.user_action = Multicast.Step.status_poll ∧
      Multicast.MULTICAST_SESSION_CLASS = sample_consts.LR1121_LORAWAN_CLASS_B ∧
      (sample_modem 0 CertificationMode.LR1121_MODEM_CERTIFICATION_MODE_DISABLE
        1).is_session_waiting_for_beacon 0 = 0 ∧
      (sample_modem 0 CertificationMode.LR1121_MODEM_CERTIFICATION_MODE_DISABLE
        1).is_session_started 0 = 1) :=
  (multicast_started_transitions false sample_consts
    (sample_modem 0 CertificationMode.LR1121_MODEM_CERTIFICATION_MODE_DISABLE 1)
    Multicast.Step.user_action
    (World.mk { Multicast.State.init with unicast_ready := true } [])).1 rfl (by decide)

/-- C16, as stated, fails: from a state with `unicast_ready` false and `multicast_started`
true the user-action handler issues no command but clears `multicast_started`. -/
theorem user_action_not_ready_clears_started :
    (Multicast.main_handle_button_pushed sample_consts
        (World.mk { Multicast.State.init with multicast_started := true } [])).trace = [] ∧
    ({ Multicast.State.init with multicast_started := true } : Multicast.State).unicast_ready
      = false ∧
    (Multicast.main_handle_button_pushed sample_consts
        (World.mk { Multicast.State.init with multicast_started := true }
          [])).app.multicast_started = false := by
  refine ⟨?_, ?_, ?_⟩ <;> rfl

/-- C16, amended: in the multicast application, for every state in which `unicast_ready`
is false, handling a user-action trigger issues no modem command, leaves `unicast_ready`
(and the button statics) unchanged and sets `multicast_started` to false; the state is
unchanged as a whole when `multicast_started` was already false. -/
theorem user_action_not_ready (k : DriverConsts) (w : World Multicast.State)
    (hready : w.app.unicast_ready = false) :
    (Multicast.main_handle_button_pushed k w).trace = w.trace ∧
    (Multicast.main_handle_button_pushed k w).app
      = { w.app with multicast_started := false } ∧
    (Multicast.main_handle_button_pushed k w).app.unicast_ready = w.app.unicast_ready ∧
    (Multicast.main_handle_button_pushed k w).app.multicast_started = false ∧
    (w.app.multicast_started = false → Multicast.main_handle_button_pushed k w = w) := by
  have hrun : Multicast.main_handle_button_pushed k w
      = { w with app := { w.app with multicast_started := false } } := by
    simp [Multicast.main_handle_button_pushed, hready]
  rw [hrun]
  refine ⟨rfl, rfl, rfl, rfl, ?_⟩
  intro hstarted
  cases w with
  | mk app trace =>
    cases app
    simp_all

/-- Sample run for `user_action_not_ready`: the initial state. -/
theorem user_action_not_ready_witness :
    Multicast.main_handle_button_pushed sample_consts (World.mk Multicast.State.init [])
      = World.mk Multicast.State.init [] :=
  (user_action_not_ready sample_consts (World.mk Multicast.State.init []) rfl).2.2.2.2 rfl

/-- C17: in the multicast application, a user-action trigger handled with `unicast_ready`
and `multicast_started` both true issues exactly one command, the stop-all command of the
configured class family (class B when `MULTICAST_SESSION_CLASS == LR1121_LORAWAN_CLASS_B`,
class C otherwise), and leaves `multicast_started` false and `unicast_ready` true, for
every modem, hence for every response code the stop command returns. -/
theorem user_action_stops_all (b : Bool) (k : DriverConsts) (m : Modem)
    (w : World Multicast.State) (hready : w.app.unicast_ready = true)
    (hstarted : w.app.multicast_started = true) :
    (Multicast.step b k m Multicast.Step.user_action w).trace
      = w.trace ++ [if Multicast.MULTICAST_SESSION_CLASS = k.LR1121_LORAWAN_CLASS_B
          then Cmd.stop_all_session_multicast_class_b
          else Cmd.stop_all_session_multicast_class_c] ∧
    (issued w (Multicast.step b k m Multicast.Step.user_action w)).length = 1 ∧
    ((issued w (Multicast.step b k m Multicast.Step.user_action w)).filter Cmd.isStopAll).length
      = 1 ∧
    (Multicast.step b k m Multicast.Step.user_action w).app.multicast_started = false ∧
    (Multicast.step b k m Multicast.Step.user_action w).app.unicast_ready = true ∧
    ∀ rc' : Nat → ResponseCode,
      Multicast.step b k { m with rc := rc' } Multicast.Step.user_action w
        = Multicast.step b k m Multicast.Step.user_action w := by
  have htrace : (Multicast.step b k m Multicast.Step.user_action w).trace
      = w.trace ++ [Multicast.stop_cmd k] := by
    show (Multicast.main_handle_button_pushed k w).trace = _
    rw [multicast_button_trace, if_pos hready, if_pos hstarted]
  have hiss : issued w (Multicast.step b k m Multicast.Step.user_action w)
      = [Multicast.stop_cmd k] := issued_of_trace _ _ _ htrace
  refine ⟨?_, ?_, ?_, ?_, ?_, ?_⟩
  · rw [htrace]
    unfold Multicast.stop_cmd
    split_ifs <;> rfl
  · rw [hiss]
    rfl
  · rw [hiss]
    simp [Multicast.stop_cmd_isStopAll]
  · show (Multicast.main_handle_button_pushed k w).app.multicast_started = false
    rw [Multicast.button_started, hready, hstarted]
    rfl
  · simp [Multicast.step, Multicast.main_handle_button_pushed, hready, hstarted]
  · intro rc'
    rfl

/-- Sample run for `user_action_stops_all`: the stop command is answered with FAIL. -/
theorem user_action_stops_all_witness :
    (Multicast.step false sample_consts
        { sample_modem 0 CertificationMode.LR1121_MODEM_CERTIFICATION_MODE_DISABLE 1 with
          rc := fun _ => ResponseCode.LR1121_MODEM_RESPONSE_CODE_FAIL }
        Multicast.Step.user_action
        (World.mk { Multicast.State.init with unicast_ready := true, multicast_started := true }
          [])).app.multicast_started = false :=
  (user_action_stops_all false sample_consts
    { sample_modem 0 CertificationMode.LR1121_MODEM_CERTIFICATION_MODE_DISABLE 1 with
      rc := fun _ => ResponseCode.LR1121_MODEM_RESPONSE_CODE_FAIL }
    (World.mk { Multicast.State.init with unicast_ready := true, multicast_started := true } [])
    rfl rfl).2.2.2.1

/-! ## Response codes, observability-only events and downlink data -/

theorem send_frame_rc_irrelevant {σ : Type} (m : Modem) (rc' : Nat → ResponseCode)
    (buf : List Nat) (size port conf : Nat) (w : World σ) :
    (send_frame { m with rc := rc' } buf size port conf w).2
      = (send_frame m buf size port conf w).2 := by
  unfold send_frame
  simp only []
  split_ifs <;> rfl

theorem class_b_empty_uplink_rc_irrelevant (m : Modem) (rc' : Nat → ResponseCode)
    (port conf : Nat) (w : World ClassB.State) :
    (ClassB.send_empty_uplink { m with rc := rc' } port conf w).2
      = (ClassB.send_empty_uplink m port conf w).2 := by
  unfold ClassB.send_empty_uplink
  simp only []
  split_ifs <;> rfl

theorem fuota_empty_uplink_rc_irrelevant (m : Modem) (rc' : Nat → ResponseCode)
    (conf : Nat) (w : World Fuota.State) :
    (Fuota.send_empty_uplink { m with rc := rc' } conf w).2
      = (Fuota.send_empty_uplink m conf w).2 := by
  unfold Fuota.send_empty_uplink
  simp only []
  split_ifs <;> rfl

theorem certification_switch_rc_irrelevant (b : Bool) (k : DriverConsts) (m : Modem)
    (rc' : Nat → ResponseCode) (e : lr1121_modem_event_fields_t)
    (w : World Certification.State) :
    Certification.on_event b k { m with rc := rc' } e w = Certification.on_event b k m e w := by
  unfold Certification.on_event
  split
  · rfl
  · simp only [Certification.on_alarm, Certification.send_uplinks_counter_on_port,
      send_frame_rc_irrelevant]
  · simp only [Certification.on_joined, Certification.send_uplinks_counter_on_port,
      send_frame_rc_irrelevant]
  all_goals rfl

theorem class_b_switch_rc_irrelevant (b : Bool) (k : DriverConsts) (m : Modem)
    (rc' : Nat → ResponseCode) (e : lr1121_modem_event_fields_t) (w : World ClassB.State) :
    ClassB.on_event b k { m with rc := rc' } e w = ClassB.on_event b k m e w := by
  unfold ClassB.on_event
  split
  case h_9 =>
    simp only [ClassB.on_class_b_status, class_b_empty_uplink_rc_irrelevant]
  all_goals rfl

theorem fuota_switch_rc_irrelevant (b : Bool) (k : DriverConsts) (m : Modem)
    (rc' : Nat → ResponseCode) (e : lr1121_modem_event_fields_t) (w : World Fuota.State) :
    Fuota.on_event b k { m with rc := rc' } e w = Fuota.on_event b k m e w := by
  unfold Fuota.on_event
  split
  · rfl
  · simp only [Fuota.on_alarm, fuota_empty_uplink_rc_irrelevant]
  · simp only [Fuota.on_joined, fuota_empty_uplink_rc_irrelevant]
  all_goals rfl

theorem multicast_switch_rc_irrelevant (b : Bool) (k : DriverConsts) (m : Modem)
    (rc' : Nat → ResponseCode) (e : lr1121_modem_event_fields_t)
    (w : World Multicast.State) :
    Multicast.on_event b k { m with rc := rc' } e w = Multicast.on_event b k m e w := by
  unfold Multicast.on_event
  split
  · rfl
  · rfl
  · simp only [Multicast.on_joined, Multicast.enable_unicast, send_frame_rc_irrelevant]
  case h_9 =>
    simp only [Multicast.on_class_b_status, Multicast.enable_unicast, send_frame_rc_irrelevant]
  all_goals rfl

/-- C18: for every event handler and user-action handler of the four applications (and
the status poll of the multicast main loop), two runs from the same state on the same
input whose modems differ only in the response codes they return (`get_event` answers
apart) produce the same world: the same commands, in the same order, each issued once
with no retry, and the same statics. The macro `ASSERT_SMTC_MODEM_RC`, through which the
codes pass, leaves the world as it is for every code. -/
theorem steps_ignore_response_codes (b : Bool) (k : DriverConsts) (m : Modem)
    (rc' : Nat → ResponseCode) :
    (∀ (σ : Type) (rc : ResponseCode) (w : World σ), ASSERT_SMTC_MODEM_RC rc w = w) ∧
    (∀ (s : Certification.Step) (w : World Certification.State),
      Certification.step b k { m with rc := rc' } s w = Certification.step b k m s w) ∧
    (∀ (s : ClassB.Step) (w : World ClassB.State),
      ClassB.step b k { m with rc := rc' } s w = ClassB.step b k m s w) ∧
    (∀ (s : Fuota.Step) (w : World Fuota.State),
      Fuota.step b k { m with rc := rc' } s w = Fuota.step b k m s w) ∧
    (∀ (s : Multicast.Step) (w : World Multicast.State),
      Multicast.step b k { m with rc := rc' } s w = Multicast.step b k m s w) ∧
    (∀ (answers : List (ResponseCode × lr1121_modem_event_fields_t))
        (w : World Certification.State),
      Certification.event_process b k { m with rc := rc' } answers w
        = Certification.event_process b k m answers w) ∧
    (∀ (answers : List (ResponseCode × lr1121_modem_event_fields_t)) (w : World ClassB.State),
      ClassB.event_process b k { m with rc := rc' } answers w
        = ClassB.event_process b k m answers w) ∧
    (∀ (answers : List (ResponseCode × lr1121_modem_event_fields_t)) (w : World Fuota.State),
      Fuota.event_process b k { m with rc := rc' } answers w
        = Fuota.event_process b k m answers w) ∧
    (∀ (answers : List (ResponseCode × lr1121_modem_event_fields_t))
        (w : World Multicast.State),
      Multicast.event_process b k { m with rc := rc' } answers w
        = Multicast.event_process b k m answers w) := by
  refine ⟨?_, ?_, ?_, ?_, ?_, ?_, ?_, ?_, ?_⟩
  · intro σ rc w
    unfold ASSERT_SMTC_MODEM_RC
    split_ifs <;> rfl
  · intro s w
    cases s with
    | event e => exact certification_switch_rc_irrelevant b k m rc' e w
    | user_action => rfl
  · intro s w
    cases s with
    | event e => exact class_b_switch_rc_irrelevant b k m rc' e w
    | user_action => rfl
  · intro s w
    cases s with
    | event e => exact fuota_switch_rc_irrelevant b k m rc' e w
    | user_action =>
      simp only [Fuota.step, Fuota.main_button_pushed, fuota_empty_uplink_rc_irrelevant]
  · intro s w
    cases s with
    | event e => exact multicast_switch_rc_irrelevant b k m rc' e w
    | user_action => rfl
    | status_poll => rfl
  · intro answers w
    have h : Certification.on_event b k { m with rc := rc' } = Certification.on_event b k m :=
      funext fun e => funext fun w => certification_switch_rc_irrelevant b k m rc' e w
    simp only [Certification.event_process, h]
  · intro answers w
    have h : ClassB.on_event b k { m with rc := rc' } = ClassB.on_event b k m :=
      funext fun e => funext fun w => class_b_switch_rc_irrelevant b k m rc' e w
    simp only [ClassB.event_process, h]
  · intro answers w
    have h : Fuota.on_event b k { m with rc := rc' } = Fuota.on_event b k m :=
      funext fun e => funext fun w => fuota_switch_rc_irrelevant b k m rc' e w
    simp only [Fuota.event_process, h]
  · intro answers w
    have h : Multicast.on_event b k { m with rc := rc' } = Multicast.on_event b k m :=
      funext fun e => funext fun w => multicast_switch_rc_irrelevant b k m rc' e w
    simp only [Multicast.event_process, h]

/-- C19: in each of the four applications, processing a JoinFail, LinkCheck,
ClassBPingSlotInfo, MacTime, NoMoreMulticast (B or C), AlcSyncTime, FuotaDone or
RegionalDutyCycle event, or an event with a tag that no case names, returns the world as
it was: every static is unchanged and no modem command is issued. -/
theorem observability_events_change_nothing (b : Bool) (k : DriverConsts) (m : Modem)
    (e : lr1121_modem_event_fields_t) (hkind : observability_only e.event_type = true) :
    (∀ w : World Certification.State, Certification.on_event b k m e w = w) ∧
    (∀ w : World ClassB.State, ClassB.on_event b k m e w = w) ∧
    (∀ w : World Fuota.State, Fuota.on_event b k m e w = w) ∧
    (∀ w : World Multicast.State, Multicast.on_event b k m e w = w) := by
  obtain ⟨t, missed, data⟩ := e
  cases t <;> simp [observability_only] at hkind <;>
    exact ⟨fun _ => rfl, fun _ => rfl, fun _ => rfl, fun _ => rfl⟩

/-- Sample run for `observability_events_change_nothing`: a JoinFail event and an event with
the unknown tag `0x7F` in the certification application. -/
theorem observability_events_change_nothing_witness :
    Certification.on_event false sample_consts
        (sample_modem 0 CertificationMode.LR1121_MODEM_CERTIFICATION_MODE_DISABLE 1)
        (sample_event EventType.LR1121_MODEM_LORAWAN_EVENT_JOIN_FAIL 0)
        (World.mk Certification.State.init [Cmd.join])
      = World.mk Certification.State.init [Cmd.join] ∧
    Certification.on_event false sample_consts
        (sample_modem 0 CertificationMode.LR1121_MODEM_CERTIFICATION_MODE_DISABLE 1)
        (sample_event (EventType.other 0x7F) 5)
        (World.mk Certification.State.init [Cmd.join])
      = World.mk Certification.State.init [Cmd.join] :=
  ⟨(observability_events_change_nothing false sample_consts
      (sample_modem 0 CertificationMode.LR1121_MODEM_CERTIFICATION_MODE_DISABLE 1)
      (sample_event EventType.LR1121_MODEM_LORAWAN_EVENT_JOIN_FAIL 0) rfl).1
      (World.mk Certification.State.init [Cmd.join]),
   (observability_events_change_nothing false sample_consts
      (sample_modem 0 CertificationMode.LR1121_MODEM_CERTIFICATION_MODE_DISABLE 1)
      (sample_event (EventType.other 0x7F) 5) rfl).1
      (World.mk Certification.State.init [Cmd.join])⟩

/-- C20: in each application, processing a DownlinkData event issues exactly three modem
commands in this order: `get_downlink_data_size`, `get_downlink_data`,
`get_downlink_metadata`; the length passed to `get_downlink_data` is the size that the
size query, issued at the start of the handler, returned. No session flag or counter
changes: the class_b, fuota and multicast statics are untouched, and in the certification
application only the receive statics (`rx_payload`, `rx_payload_size`, `rx_remaining`,
metadata) are written. -/
theorem down_data_reads_in_order (b : Bool) (k : DriverConsts) (m : Modem)
    (e : lr1121_modem_event_fields_t)
    (hdown : e.event_type = EventType.LR1121_MODEM_LORAWAN_EVENT_DOWN_DATA) :
    (∀ w : World Certification.State,
      (Certification.on_event b k m e w).trace
        = w.trace ++ [Cmd.get_downlink_data_size, Cmd.get_downlink_data (m.downlink_size w.now),
            Cmd.get_downlink_metadata] ∧
      (Certification.on_event b k m e w).app.rx_payload_size = m.downlink_size w.now ∧
      (Certification.on_event b k m e w).app.certif_running = w.app.certif_running ∧
      (Certification.on_event b k m e w).app.uplink_counter = w.app.uplink_counter ∧
      (Certification.on_event b k m e w).app.confirmed_counter = w.app.confirmed_counter ∧
      (Certification.on_event b k m e w).app.user_button_is_press
        = w.app.user_button_is_press ∧
      (Certification.on_event b k m e w).app.last_press_timestamp_ms
        = w.app.last_press_timestamp_ms) ∧
    (∀ w : World ClassB.State,
      (ClassB.on_event b k m e w).trace
        = w.trace ++ [Cmd.get_downlink_data_size, Cmd.get_downlink_data (m.downlink_size w.now),
            Cmd.get_downlink_metadata] ∧
      (ClassB.on_event b k m e w).app = w.app) ∧
    (∀ w : World Fuota.State,
      (Fuota.on_event b k m e w).trace
        = w.trace ++ [Cmd.get_downlink_data_size, Cmd.get_downlink_data (m.downlink_size w.now),
            Cmd.get_downlink_metadata] ∧
      (Fuota.on_event b k m e w).app = w.app) ∧
    (∀ w : World Multicast.State,
      (Multicast.on_event b k m e w).trace
        = w.trace ++ [Cmd.get_downlink_data_size, Cmd.get_downlink_data (m.downlink_size w.now),
            Cmd.get_downlink_metadata] ∧
      (Multicast.on_event b k m e w).app = w.app) := by
  refine ⟨?_, ?_, ?_, ?_⟩
  · intro w
    simp [Certification.on_event, hdown, Certification.on_down_data]
  · intro w
    simp [ClassB.on_event, hdown, read_downlink]
  · intro w
    simp [Fuota.on_event, hdown, read_downlink]
  · intro w
    simp [Multicast.on_event, hdown, read_downlink]

/-- Sample run for `down_data_reads_in_order`: a 3-byte downlink in the multicast
application. -/
theorem down_data_reads_in_order_witness :
    (Multicast.on_event false sample_consts
        (sample_modem 0 CertificationMode.LR1121_MODEM_CERTIFICATION_MODE_DISABLE 1)
        (sample_event EventType.LR1121_MODEM_LORAWAN_EVENT_DOWN_DATA 0)
        (World.mk Multicast.State.init [])).trace
      = [] ++ [Cmd.get_downlink_data_size, Cmd.get_downlink_data 3,
          Cmd.get_downlink_metadata] :=
  ((down_data_reads_in_order false sample_consts
    (sample_modem 0 CertificationMode.LR1121_MODEM_CERTIFICATION_MODE_DISABLE 1)
    (sample_event EventType.LR1121_MODEM_LORAWAN_EVENT_DOWN_DATA 0) rfl).2.2.2
    (World.mk Multicast.State.init [])).1

/-! ## Certification toggle and session fields after Reset -/

/-- C21, as stated, fails: in the certification application a user-action trigger handled
with certification mode disabled (the initial state) issues `set_certification_mode`
with ENABLE and nothing else, neither `leave_network` nor `join`. -/
theorem user_action_enable_does_not_rejoin :
    Certification.State.init.certif_running
      = CertificationMode.LR1121_MODEM_CERTIFICATION_MODE_DISABLE ∧
    (Certification.main_handle_button_pushed (World.mk Certification.State.init [])).trace
      = [Cmd.set_certification_mode CertificationMode.LR1121_MODEM_CERTIFICATION_MODE_ENABLE] ∧
    (Certification.main_handle_button_pushed
        (World.mk Certification.State.init [])).app.certif_running
      = CertificationMode.LR1121_MODEM_CERTIFICATION_MODE_ENABLE := by
  refine ⟨?_, ?_, ?_⟩ <;> rfl

/-- C21, amended: in the certification application every user-action trigger toggles
`certif_running` and issues `set_certification_mode` with the new mode. In the direction
enable to disable this command is followed by `leave_network` and then `join`; in the
direction disable to enable it is the only command issued. The counters are untouched. -/
theorem user_action_toggles_certification (w : World Certification.State) :
    (w.app.certif_running = CertificationMode.LR1121_MODEM_CERTIFICATION_MODE_ENABLE →
      (Certification.main_handle_button_pushed w).trace
        = w.trace ++
            [Cmd.set_certification_mode
                CertificationMode.LR1121_MODEM_CERTIFICATION_MODE_DISABLE,
              Cmd.leave_network, Cmd.join] ∧
      (Certification.main_handle_button_pushed w).app.certif_running
        = CertificationMode.LR1121_MODEM_CERTIFICATION_MODE_DISABLE) ∧
    (w.app.certif_running = CertificationMode.LR1121_MODEM_CERTIFICATION_MODE_DISABLE →
      (Certification.main_handle_button_pushed w).trace
        = w.trace ++
            [Cmd.set_certification_mode
                CertificationMode.LR1121_MODEM_CERTIFICATION_MODE_ENABLE] ∧
      (Certification.main_handle_button_pushed w).app.certif_running
        = CertificationMode.LR1121_MODEM_CERTIFICATION_MODE_ENABLE) ∧
    (Certification.main_handle_button_pushed w).app.uplink_counter = w.app.uplink_counter ∧
    (Certification.main_handle_button_pushed w).app.confirmed_counter
      = w.app.confirmed_counter := by
  refine ⟨?_, ?_, ?_, ?_⟩
  · intro h
    simp [Certification.main_handle_button_pushed, h]
  · intro h
    simp [Certification.main_handle_button_pushed, h]
  · unfold Certification.main_handle_button_pushed
    split_ifs <;> rfl
  · unfold Certification.main_handle_button_pushed
    split_ifs <;> rfl

/-- Sample run for `user_action_toggles_certification`: from certification mode enabled. -/
theorem user_action_toggles_certification_witness :
    (Certification.main_handle_button_pushed
        (World.mk { Certification.State.init with
          certif_running := CertificationMode.LR1121_MODEM_CERTIFICATION_MODE_ENABLE }
          [])).trace
      = [] ++
          [Cmd.set_certification_mode CertificationMode.LR1121_MODEM_CERTIFICATION_MODE_DISABLE,
            Cmd.leave_network, Cmd.join] :=
  ((user_action_toggles_certification
    (World.mk { Certification.State.init with
      certif_running := CertificationMode.LR1121_MODEM_CERTIFICATION_MODE_ENABLE } [])).1
    rfl).1

theorem Certification.on_reset_counters ( b : Bool) (m : Modem)
    (w : World Certification.State) :
    (Certification.on_reset b m w).app
      = { w.app with certif_running := m.certification_mode (w.trace.length + 3) } := by
  unfold Certification.on_reset
  simp only [now_eq, issue_trace, issue_app, List.length_append, List.length_singleton]
  split_ifs <;> cases b <;>
    simp [reset_credentials, reset_credentials_print_only]

/-- C22, as stated, fails: in the certification application a Reset event processed with
`uplink_counter = 7` and `confirmed_counter = 3` leaves both counters as they are. -/
theorem reset_keeps_counters :
    (Certification.on_event false sample_consts
        (sample_modem 0 CertificationMode.LR1121_MODEM_CERTIFICATION_MODE_DISABLE 1)
        (sample_event EventType.LR1121_MODEM_LORAWAN_EVENT_RESET 0)
        (World.mk { Certification.State.init with uplink_counter := 7, confirmed_counter := 3 }
          [])).app.uplink_counter = 7 ∧
    (Certification.on_event false sample_consts
        (sample_modem 0 CertificationMode.LR1121_MODEM_CERTIFICATION_MODE_DISABLE 1)
        (sample_event EventType.LR1121_MODEM_LORAWAN_EVENT_RESET 0)
        (World.mk { Certification.State.init with uplink_counter := 7, confirmed_counter := 3 }
          [])).app.confirmed_counter = 3 := by
  constructor <;> rfl

/-- C22, amended: after a Reset event is processed, for every prior state, `class_b_set`
and `class_b_ready` are false (class_b) and `unicast_ready` and `multicast_started` are
false (multicast), the button statics being untouched. In the certification application
`uplink_counter` and `confirmed_counter` keep their prior values (they are zero only at
program start) and `certif_running` holds the mode that the modem reports; the FUOTA
application changes no static. -/
theorem reset_session_fields (b : Bool) (k : DriverConsts) (m : Modem)
    (e : lr1121_modem_event_fields_t)
    (hreset : e.event_type = EventType.LR1121_MODEM_LORAWAN_EVENT_RESET) :
    (∀ w : World ClassB.State,
      (ClassB.on_event b k m e w).app
        = { w.app with class_b_set := false, class_b_ready := false }) ∧
    (∀ w : World Multicast.State,
      (Multicast.on_event b k m e w).app
        = { w.app with unicast_ready := false, multicast_started := false }) ∧
    (∀ w : World Certification.State,
      (Certification.on_event b k m e w).app
        = { w.app with certif_running := m.certification_mode (w.now + 3) } ∧
      (Certification.on_event b k m e w).app.uplink_counter = w.app.uplink_counter ∧
      (Certification.on_event b k m e w).app.confirmed_counter = w.app.confirmed_counter) ∧
    (∀ w : World Fuota.State, (Fuota.on_event b k m e w).app = w.app) ∧
    Certification.State.init.uplink_counter = 0 ∧
    Certification.State.init.confirmed_counter = 0 := by
  refine ⟨?_, ?_, ?_, ?_, rfl, rfl⟩
  · intro w
    cases b <;> simp [ClassB.on_event, hreset, ClassB.on_reset, reset_credentials]
  · intro w
    cases b <;> simp [Multicast.on_event, hreset, Multicast.on_reset, reset_credentials]
  · intro w
    have happ : (Certification.on_event b k m e w).app
        = { w.app with certif_running := m.certification_mode (w.now + 3) } := by
      simp only [Certification.on_event, hreset]
      exact Certification.on_reset_counters b m w
    exact ⟨happ, by rw [happ], by rw [happ]⟩
  · intro w
    unfold Fuota.on_event Fuota.on_reset
    simp only [hreset]
    split_ifs <;> cases b <;> simp [reset_credentials]

/-- Sample run for `reset_session_fields`: a Reset event in the Class B application with
both flags set. -/
theorem reset_session_fields_witness :
    (ClassB.on_event false sample_consts
        (sample_modem 0 CertificationMode.LR1121_MODEM_CERTIFICATION_MODE_DISABLE 1)
        (sample_event EventType.LR1121_MODEM_LORAWAN_EVENT_RESET 0)
        (World.mk { ClassB.State.init with class_b_set := true, class_b_ready := true } [])).app
      = { ({ ClassB.State.init with class_b_set := true, class_b_ready := true } :
            ClassB.State) with class_b_set := false, class_b_ready := false } :=
  (reset_session_fields false sample_consts
    (sample_modem 0 CertificationMode.LR1121_MODEM_CERTIFICATION_MODE_DISABLE 1)
    (sample_event EventType.LR1121_MODEM_LORAWAN_EVENT_RESET 0) rfl).1
    (World.mk { ClassB.State.init with class_b_set := true, class_b_ready := true } [])

/-! ## Button debounce -/

theorem uint32_sub_lt (a b : Nat) : uint32_sub a b < 2 ^ 32 := by
  unfold uint32_sub
  omega

theorem uint32_sub_of_times (t1 t2 : Nat) (hle : t1 ≤ t2) (hlt : t2 - t1 < 2 ^ 32) :
    uint32_sub (t2 % 2 ^ 32) (t1 % 2 ^ 32) = t2 - t1 := by
  unfold uint32_sub
  omega

theorem debounce_elapsed_iff (now last : Nat) :
    debounce_elapsed now last ↔ 500 < uint32_sub now last ∧ uint32_sub now last < 2 ^ 31 := by
  have hlt := uint32_sub_lt now last
  unfold debounce_elapsed int32_of_uint32
  split_ifs with h
  · constructor
    · intro hgt
      exact ⟨by omega, h⟩
    · intro hgt
      omega
  · constructor
    · intro hgt
      omega
    · intro hgt
      omega

theorem not_debounce_elapsed_of_close (t1 t2 : Nat) (hle : t1 ≤ t2) (hclose : t2 - t1 ≤ 500) :
    ¬ debounce_elapsed (t2 % 2 ^ 32) (t1 % 2 ^ 32) := by
  rw [debounce_elapsed_iff, uint32_sub_of_times t1 t2 hle (by omega)]
  omega

theorem certification_callback_accept (now_check now_store : Nat) (s : Certification.State)
    (h : debounce_elapsed now_check s.last_press_timestamp_ms) :
    Certification.user_button_callback now_check now_store s
      = { s with last_press_timestamp_ms := now_store, user_button_is_press := true } := by
  unfold Certification.user_button_callback
  rw [if_pos h]

theorem certification_callback_ignore (now_check now_store : Nat) (s : Certification.State)
    (h : ¬ debounce_elapsed now_check s.last_press_timestamp_ms) :
    Certification.user_button_callback now_check now_store s = s := by
  unfold Certification.user_button_callback
  rw [if_neg h]

theorem class_b_callback_accept (now_check now_store : Nat) (s : ClassB.State)
    (h : debounce_elapsed now_check s.last_press_timestamp_ms) :
    ClassB.user_button_callback now_check now_store s
      = { s with last_press_timestamp_ms := now_store, user_button_is_press := true } := by
  unfold ClassB.user_button_callback
  rw [if_pos h]

theorem class_b_callback_ignore (now_check now_store : Nat) (s : ClassB.State)
    (h : ¬ debounce_elapsed now_check s.last_press_timestamp_ms) :
    ClassB.user_button_callback now_check now_store s = s := by
  unfold ClassB.user_button_callback
  rw [if_neg h]

theorem fuota_callback_accept (now_check now_store : Nat) (s : Fuota.State)
    (h : debounce_elapsed now_check s.last_press_timestamp_ms) :
    Fuota.user_button_callback now_check now_store s
      = { s with last_press_timestamp_ms := now_store, user_button_is_press := true } := by
  unfold Fuota.user_button_callback
  rw [if_pos h]

theorem fuota_callback_ignore (now_check now_store : Nat) (s : Fuota.State)
    (h : ¬ debounce_elapsed now_check s.last_press_timestamp_ms) :
    Fuota.user_button_callback now_check now_store s = s := by
  unfold Fuota.user_button_callback
  rw [if_neg h]

theorem multicast_callback_accept (now_check now_store : Nat) (s : Multicast.State)
    (h : debounce_elapsed now_check s.last_press_timestamp_ms) :
    Multicast.user_button_callback now_check now_store s
      = { s with last_press_timestamp_ms := now_store, user_button_is_press := true } := by
  unfold Multicast.user_button_callback
  rw [if_pos h]

theorem multicast_callback_ignore (now_check now_store : Nat) (s : Multicast.State)
    (h : ¬ debounce_elapsed now_check s.last_press_timestamp_ms) :
    Multicast.user_button_callback now_check now_store s = s := by
  unfold Multicast.user_button_callback
  rw [if_neg h]

theorem certification_tx_done_keeps_button (k : DriverConsts) (data : Nat)
    (w : World Certification.State) :
    (Certification.on_tx_done k data w).app.last_press_timestamp_ms
        = w.app.last_press_timestamp_ms ∧
      (Certification.on_tx_done k data w).app.user_button_is_press
        = w.app.user_button_is_press := by
  unfold Certification.on_tx_done
  simp only []
  split_ifs <;> exact ⟨rfl, rfl⟩

theorem certification_step_keeps_button (b : Bool) (k : DriverConsts) (m : Modem)
    (s : Certification.Step) (w : World Certification.State) :
    (Certification.step b k m s w).app.last_press_timestamp_ms
        = w.app.last_press_timestamp_ms ∧
      (Certification.step b k m s w).app.user_button_is_press
        = w.app.user_button_is_press := by
  cases s with
  | event e =>
    simp only [Certification.step]
    unfold Certification.on_event
    split
    · rw [Certification.on_reset_counters]
      exact ⟨rfl, rfl⟩
    · unfold Certification.on_alarm
      split_ifs
      · exact ⟨rfl, rfl⟩
      · rw [issue_app, Certification.send_uplinks_app]
        exact ⟨rfl, rfl⟩
    · unfold Certification.on_joined
      simp only []
      split_ifs
      · rw [issue_app, Certification.send_uplinks_app]
        exact ⟨rfl, rfl⟩
      · exact ⟨rfl, rfl⟩
    · exact certification_tx_done_keeps_button k e.data w
    · exact ⟨rfl, rfl⟩
    all_goals exact ⟨rfl, rfl⟩
  | user_action =>
    simp only [Certification.step]
    unfold Certification.main_handle_button_pushed
    simp only []
    split_ifs <;> exact ⟨rfl, rfl⟩

theorem class_b_step_keeps_button (b : Bool) (k : DriverConsts) (m : Modem)
    (s : ClassB.Step) (w : World ClassB.State) :
    (ClassB.step b k m s w).app.last_press_timestamp_ms = w.app.last_press_timestamp_ms ∧
      (ClassB.step b k m s w).app.user_button_is_press = w.app.user_button_is_press := by
  cases s with
  | event e =>
    simp only [ClassB.step]
    unfold ClassB.on_event
    split
    · cases b <;> simp [ClassB.on_reset, reset_credentials]
    · exact ⟨rfl, rfl⟩
    · simp
    · unfold ClassB.on_tx_done
      split_ifs <;> exact ⟨rfl, rfl⟩
    · simp [read_downlink]
    · exact ⟨rfl, rfl⟩
    · exact ⟨rfl, rfl⟩
    · exact ⟨rfl, rfl⟩
    · unfold ClassB.on_class_b_status
      split_ifs
      · rw [ClassB.send_empty_uplink_app]
        exact ⟨rfl, rfl⟩
      · exact ⟨rfl, rfl⟩
    all_goals exact ⟨rfl, rfl⟩
  | user_action =>
    simp only [ClassB.step]
    unfold ClassB.main_handle_button_pushed
    simp only []
    split_ifs <;> simp

theorem fuota_empty_uplink_app (m : Modem) (conf : Nat) (w : World Fuota.State) :
    (Fuota.send_empty_uplink m conf w).2.app = w.app := by
  unfold Fuota.send_empty_uplink
  simp only []
  split_ifs <;> rfl

theorem fuota_step_keeps_button (b : Bool) (k : DriverConsts) (m : Modem)
    (s : Fuota.Step) (w : World Fuota.State) :
    (Fuota.step b k m s w).app.last_press_timestamp_ms = w.app.last_press_timestamp_ms ∧
      (Fuota.step b k m s w).app.user_button_is_press = w.app.user_button_is_press := by
  cases s with
  | event e =>
    simp only [Fuota.step]
    unfold Fuota.on_event
    split
    · unfold Fuota.on_reset
      simp only []
      split_ifs <;> cases b <;> simp [reset_credentials]
    · simp [Fuota.on_alarm, fuota_empty_uplink_app]
    · simp [Fuota.on_joined, fuota_empty_uplink_app]
    · exact ⟨rfl, rfl⟩
    · simp [read_downlink]
    all_goals exact ⟨rfl, rfl⟩
  | user_action =>
    simp only [Fuota.step]
    unfold Fuota.main_button_pushed
    simp only []
    split_ifs
    · rw [fuota_empty_uplink_app]
      exact ⟨rfl, rfl⟩
    · exact ⟨rfl, rfl⟩

theorem multicast_enable_unicast_keeps_button (k : DriverConsts) (m : Modem)
    (w : World Multicast.State) :
    (Multicast.enable_unicast k m w).app.last_press_timestamp_ms
        = w.app.last_press_timestamp_ms ∧
      (Multicast.enable_unicast k m w).app.user_button_is_press
        = w.app.user_button_is_press := by
  simp [Multicast.enable_unicast, send_frame_app]

theorem multicast_step_keeps_button (b : Bool) (k : DriverConsts) (m : Modem)
    (s : Multicast.Step) (w : World Multicast.State) :
    (Multicast.step b k m s w).app.last_press_timestamp_ms = w.app.last_press_timestamp_ms ∧
      (Multicast.step b k m s w).app.user_button_is_press = w.app.user_button_is_press := by
  cases s with
  | event e =>
    simp only [Multicast.step]
    unfold Multicast.on_event
    split
    · cases b <;> simp [Multicast.on_reset, reset_credentials]
    · exact ⟨rfl, rfl⟩
    · unfold Multicast.on_joined
      simp only []
      split_ifs
      · rw [(multicast_enable_unicast_keeps_button k m _).1,
          (multicast_enable_unicast_keeps_button k m _).2, Multicast.configure_groups_app]
        exact ⟨rfl, rfl⟩
      · rw [Multicast.configure_groups_app]
        exact ⟨rfl, rfl⟩
    · exact ⟨rfl, rfl⟩
    · simp [read_downlink]
    · exact ⟨rfl, rfl⟩
    · exact ⟨rfl, rfl⟩
    · exact ⟨rfl, rfl⟩
    · unfold Multicast.on_class_b_status
      split_ifs
      · exact multicast_enable_unicast_keeps_button k m w
      · exact ⟨rfl, rfl⟩
    all_goals exact ⟨rfl, rfl⟩
  | user_action =>
    simp only [Multicast.step]
    unfold Multicast.main_handle_button_pushed
    split_ifs
    · exact ⟨rfl, rfl⟩
    · simp [Multicast.start_sessions, Multicast.NUMBER_MULTICAST_SESSION, List.range_succ]
    · exact ⟨rfl, rfl⟩
  | status_poll =>
    simp only [Multicast.step]
    unfold Multicast.main_status_poll
    simp only []
    split_ifs <;> exact ⟨rfl, rfl⟩


/-- C23: in each application, take two consecutive button interrupts at RTC times `T1` then
`T2 >= T1` with `T2 - T1 < 500` ms (the RTC reads are the times modulo `2^32`), the first
of them accepted. The first call of `user_button_callback` sets `user_button_is_press` and
records `t1`, and the second call on the state it leaves changes nothing. More generally
the second call returns the statics exactly as it finds them in every
state that holds `t1` as recorded timestamp, whether `user_button_is_press` is still set
or the main loop has cleared it in between: it does not set the flag (a cleared flag stays
cleared) and does not update the recorded timestamp. No event handler and no user-action
handler writes the flag or the timestamp, so whatever steps run between the two
interrupts, the state met by the second one still holds `t1`. The two triggers yield a
single logical action. -/
theorem second_press_within_500ms_ignored (now_check T1 T2 now_store : Nat) (hle : T1 ≤ T2)
    (hclose : T2 - T1 < 500) :
    (∀ s : Certification.State, debounce_elapsed now_check s.last_press_timestamp_ms →
      (Certification.user_button_callback now_check (T1 % 2 ^ 32) s).user_button_is_press = true ∧
      (Certification.user_button_callback now_check (T1 % 2 ^ 32) s).last_press_timestamp_ms
        = T1 % 2 ^ 32 ∧
      Certification.user_button_callback (T2 % 2 ^ 32) now_store
          (Certification.user_button_callback now_check (T1 % 2 ^ 32) s)
        = Certification.user_button_callback now_check (T1 % 2 ^ 32) s) ∧
    (∀ s : Certification.State, s.last_press_timestamp_ms = T1 % 2 ^ 32 →
      Certification.user_button_callback (T2 % 2 ^ 32) now_store s = s ∧
      (Certification.user_button_callback (T2 % 2 ^ 32) now_store s).user_button_is_press
        = s.user_button_is_press ∧
      (Certification.user_button_callback (T2 % 2 ^ 32) now_store s).last_press_timestamp_ms
        = T1 % 2 ^ 32) ∧
    (∀ (b : Bool) (k : DriverConsts) (m : Modem) (st : Certification.Step) (w : World Certification.State),
      (Certification.step b k m st w).app.last_press_timestamp_ms = w.app.last_press_timestamp_ms ∧
      (Certification.step b k m st w).app.user_button_is_press = w.app.user_button_is_press) ∧
    (∀ s : ClassB.State, debounce_elapsed now_check s.last_press_timestamp_ms →
      (ClassB.user_button_callback now_check (T1 % 2 ^ 32) s).user_button_is_press = true ∧
      (ClassB.user_button_callback now_check (T1 % 2 ^ 32) s).last_press_timestamp_ms
        = T1 % 2 ^ 32 ∧
      ClassB.user_button_callback (T2 % 2 ^ 32) now_store
          (ClassB.user_button_callback now_check (T1 % 2 ^ 32) s)
        = ClassB.user_button_callback now_check (T1 % 2 ^ 32) s) ∧
    (∀ s : ClassB.State, s.last_press_timestamp_ms = T1 % 2 ^ 32 →
      ClassB.user_button_callback (T2 % 2 ^ 32) now_store s = s ∧
      (ClassB.user_button_callback (T2 % 2 ^ 32) now_store s).user_button_is_press
        = s.user_button_is_press ∧
      (ClassB.user_button_callback (T2 % 2 ^ 32) now_store s).last_press_timestamp_ms
        = T1 % 2 ^ 32) ∧
    (∀ (b : Bool) (k : DriverConsts) (m : Modem) (st : ClassB.Step) (w : World ClassB.State),
      (ClassB.step b k m st w).app.last_press_timestamp_ms = w.app.last_press_timestamp_ms ∧
      (ClassB.step b k m st w).app.user_button_is_press = w.app.user_button_is_press) ∧
    (∀ s : Fuota.State, debounce_elapsed now_check s.last_press_timestamp_ms →
      (Fuota.user_button_callback now_check (T1 % 2 ^ 32) s).user_button_is_press = true ∧
      (Fuota.user_button_callback now_check (T1 % 2 ^ 32) s).last_press_timestamp_ms
        = T1 % 2 ^ 32 ∧
      Fuota.user_button_callback (T2 % 2 ^ 32) now_store
          (Fuota.user_button_callback now_check (T1 % 2 ^ 32) s)
        = Fuota.user_button_callback now_check (T1 % 2 ^ 32) s) ∧
    (∀ s : Fuota.State, s.last_press_timestamp_ms = T1 % 2 ^ 32 →
      Fuota.user_button_callback (T2 % 2 ^ 32) now_store s = s ∧
      (Fuota.user_button_callback (T2 % 2 ^ 32) now_store s).user_button_is_press
        = s.user_button_is_press ∧
      (Fuota.user_button_callback (T2 % 2 ^ 32) now_store s).last_press_timestamp_ms
        = T1 % 2 ^ 32) ∧
    (∀ (b : Bool) (k : DriverConsts) (m : Modem) (st : Fuota.Step) (w : World Fuota.State),
      (Fuota.step b k m st w).app.last_press_timestamp_ms = w.app.last_press_timestamp_ms ∧
      (Fuota.step b k m st w).app.user_button_is_press = w.app.user_button_is_press) ∧
    (∀ s : Multicast.State, debounce_elapsed now_check s.last_press_timestamp_ms →
      (Multicast.user_button_callback now_check (T1 % 2 ^ 32) s).user_button_is_press = true ∧
      (Multicast.user_button_callback now_check (T1 % 2 ^ 32) s).last_press_timestamp_ms
        = T1 % 2 ^ 32 ∧
      Multicast.user_button_callback (T2 % 2 ^ 32) now_store
          (Multicast.user_button_callback now_check (T1 % 2 ^ 32) s)
        = Multicast.user_button_callback now_check (T1 % 2 ^ 32) s) ∧
    (∀ s : Multicast.State, s.last_press_timestamp_ms = T1 % 2 ^ 32 →
      Multicast.user_button_callback (T2 % 2 ^ 32) now_store s = s ∧
      (Multicast.user_button_callback (T2 % 2 ^ 32) now_store s).user_button_is_press
        = s.user_button_is_press ∧
      (Multicast.user_button_callback (T2 % 2 ^ 32) now_store s).last_press_timestamp_ms
        = T1 % 2 ^ 32) ∧
    (∀ (b : Bool) (k : DriverConsts) (m : Modem) (st : Multicast.Step) (w : World Multicast.State),
      (Multicast.step b k m st w).app.last_press_timestamp_ms = w.app.last_press_timestamp_ms ∧
      (Multicast.step b k m st w).app.user_button_is_press = w.app.user_button_is_press) := by
  have hnot : ¬ debounce_elapsed (T2 % 2 ^ 32) (T1 % 2 ^ 32) :=
    not_debounce_elapsed_of_close T1 T2 hle (by omega)
  refine ⟨?_, ?_, ?_, ?_, ?_, ?_, ?_, ?_, ?_, ?_, ?_, ?_⟩
  · intro s hfirst
    rw [certification_callback_accept now_check (T1 % 2 ^ 32) s hfirst]
    exact ⟨rfl, rfl, certification_callback_ignore _ _ _ hnot⟩
  · intro s hs
    have hsame : Certification.user_button_callback (T2 % 2 ^ 32) now_store s = s :=
      certification_callback_ignore _ _ s (by rw [hs]; exact hnot)
    rw [hsame]
    exact ⟨rfl, rfl, hs⟩
  · intro b k m st w
    exact certification_step_keeps_button b k m st w
  · intro s hfirst
    rw [class_b_callback_accept now_check (T1 % 2 ^ 32) s hfirst]
    exact ⟨rfl, rfl, class_b_callback_ignore _ _ _ hnot⟩
  · intro s hs
    have hsame : ClassB.user_button_callback (T2 % 2 ^ 32) now_store s = s :=
      class_b_callback_ignore _ _ s (by rw [hs]; exact hnot)
    rw [hsame]
    exact ⟨rfl, rfl, hs⟩
  · intro b k m st w
    exact class_b_step_keeps_button b k m st w
  · intro s hfirst
    rw [fuota_callback_accept now_check (T1 % 2 ^ 32) s hfirst]
    exact ⟨rfl, rfl, fuota_callback_ignore _ _ _ hnot⟩
  · intro s hs
    have hsame : Fuota.user_button_callback (T2 % 2 ^ 32) now_store s = s :=
      fuota_callback_ignore _ _ s (by rw [hs]; exact hnot)
    rw [hsame]
    exact ⟨rfl, rfl, hs⟩
  · intro b k m st w
    exact fuota_step_keeps_button b k m st w
  · intro s hfirst
    rw [multicast_callback_accept now_check (T1 % 2 ^ 32) s hfirst]
    exact ⟨rfl, rfl, multicast_callback_ignore _ _ _ hnot⟩
  · intro s hs
    have hsame : Multicast.user_button_callback (T2 % 2 ^ 32) now_store s = s :=
      multicast_callback_ignore _ _ s (by rw [hs]; exact hnot)
    rw [hsame]
    exact ⟨rfl, rfl, hs⟩
  · intro b k m st w
    exact multicast_step_keeps_button b k m st w

/-- Sample run for `second_press_within_500ms_ignored`: presses at 1000 ms and 1499 ms in
the certification application, the main loop having cleared the flag in between. The
second press leaves the flag cleared. -/
theorem second_press_within_500ms_ignored_witness :
    (Certification.user_button_callback (1499 % 2 ^ 32) 1499
        { Certification.user_button_callback 1000 (1000 % 2 ^ 32) Certification.State.init
            with user_button_is_press := false }).user_button_is_press = false :=
  ((second_press_within_500ms_ignored 1000 1000 1499 1499 (by decide) (by decide)).2.1
    { Certification.user_button_callback 1000 (1000 % 2 ^ 32) Certification.State.init
        with user_button_is_press := false } (by decide)).2.1

/-- C27: in each application `user_button_callback` accepts a press, that is sets
`user_button_is_press` and records the time, when the signed 32-bit reading of
`(now - last_press_timestamp_ms) mod 2^32` is greater than 500, and otherwise returns the
statics unchanged. The test holds exactly when that difference lies in `(500, 2^31)`. In
particular a press whose elapsed time since the last accepted press lies in
`[2^31, 2^32)` ms is ignored, and so is a first press at an RTC time of 500 ms or less
(the last timestamp starts at 0). -/
theorem button_callback_accepts_iff (now_check now_store : Nat) :
    (∀ s : Certification.State,
      (int32_of_uint32 (uint32_sub now_check s.last_press_timestamp_ms) > 500 →
        Certification.user_button_callback now_check now_store s
          = { s with last_press_timestamp_ms := now_store, user_button_is_press := true }) ∧
      (¬ int32_of_uint32 (uint32_sub now_check s.last_press_timestamp_ms) > 500 →
        Certification.user_button_callback now_check now_store s = s)) ∧
    (∀ s : ClassB.State,
      (int32_of_uint32 (uint32_sub now_check s.last_press_timestamp_ms) > 500 →
        ClassB.user_button_callback now_check now_store s
          = { s with last_press_timestamp_ms := now_store, user_button_is_press := true }) ∧
      (¬ int32_of_uint32 (uint32_sub now_check s.last_press_timestamp_ms) > 500 →
        ClassB.user_button_callback now_check now_store s = s)) ∧
    (∀ s : Fuota.State,
      (int32_of_uint32 (uint32_sub now_check s.last_press_timestamp_ms) > 500 →
        Fuota.user_button_callback now_check now_store s
          = { s with last_press_timestamp_ms := now_store, user_button_is_press := true }) ∧
      (¬ int32_of_uint32 (uint32_sub now_check s.last_press_timestamp_ms) > 500 →
        Fuota.user_button_callback now_check now_store s = s)) ∧
    (∀ s : Multicast.State,
      (int32_of_uint32 (uint32_sub now_check s.last_press_timestamp_ms) > 500 →
        Multicast.user_button_callback now_check now_store s
          = { s with last_press_timestamp_ms := now_store, user_button_is_press := true }) ∧
      (¬ int32_of_uint32 (uint32_sub now_check s.last_press_timestamp_ms) > 500 →
        Multicast.user_button_callback now_check now_store s = s)) ∧
    (∀ last : Nat,
      int32_of_uint32 (uint32_sub now_check last) > 500
        ↔ 500 < uint32_sub now_check last ∧ uint32_sub now_check last < 2 ^ 31) ∧
    (∀ T1 T2 : Nat, T1 ≤ T2 → 2 ^ 31 ≤ T2 - T1 → T2 - T1 < 2 ^ 32 →
      ¬ int32_of_uint32 (uint32_sub (T2 % 2 ^ 32) (T1 % 2 ^ 32)) > 500) ∧
    (now_check ≤ 500 → ¬ int32_of_uint32 (uint32_sub now_check 0) > 500) ∧
    Certification.State.init.last_press_timestamp_ms = 0 ∧
    ClassB.State.init.last_press_timestamp_ms = 0 ∧
    Fuota.State.init.last_press_timestamp_ms = 0 ∧
    Multicast.State.init.last_press_timestamp_ms = 0 := by
  refine ⟨?_, ?_, ?_, ?_, ?_, ?_, ?_, rfl, rfl, rfl, rfl⟩
  · intro s
    exact ⟨certification_callback_accept now_check now_store s, certification_callback_ignore now_check now_store s⟩
  · intro s
    exact ⟨class_b_callback_accept now_check now_store s, class_b_callback_ignore now_check now_store s⟩
  · intro s
    exact ⟨fuota_callback_accept now_check now_store s, fuota_callback_ignore now_check now_store s⟩
  · intro s
    exact ⟨multicast_callback_accept now_check now_store s, multicast_callback_ignore now_check now_store s⟩
  · intro last
    exact debounce_elapsed_iff now_check last
  · intro T1 T2 hle hlow hhigh hgt
    have h := (debounce_elapsed_iff (T2 % 2 ^ 32) (T1 % 2 ^ 32)).mp hgt
    rw [uint32_sub_of_times T1 T2 hle hhigh] at h
    omega
  · intro hsmall hgt
    have h := (debounce_elapsed_iff now_check 0).mp hgt
    unfold uint32_sub at h
    omega

/-- Sample runs for `button_callback_accepts_iff`: a first press at 500 ms is ignored, and
so is a press `2^31` ms after the last accepted one. -/
theorem button_callback_accepts_iff_witness :
    Multicast.user_button_callback 500 500 Multicast.State.init = Multicast.State.init ∧
    ¬ int32_of_uint32 (uint32_sub ((1000 + 2 ^ 31) % 2 ^ 32) (1000 % 2 ^ 32)) > 500 :=
  ⟨((button_callback_accepts_iff 500 500).2.2.2.1 Multicast.State.init).2
      ((button_callback_accepts_iff 500 500).2.2.2.2.2.2.1 (by decide)),
   (button_callback_accepts_iff 500 500).2.2.2.2.2.1 1000 (1000 + 2 ^ 31) (by decide)
      (by decide) (by decide)⟩

/-! ## Class B application: TxDone and the readiness invariant -/

/-- C25: in the class_b application a TxDone event marks the pending class switch ready
exactly when one is pending: if `class_b_set` is true and `class_b_ready` is false it sets
`class_b_ready` to true and changes nothing else, for every value of the event payload and
so of the status sub-field; in every other state it returns the world unchanged. No
command is issued in either case. -/
theorem class_b_tx_done_marks_ready (b : Bool) (k : DriverConsts) (m : Modem)
    (e : lr1121_modem_event_fields_t) (w : World ClassB.State)
    (htx : e.event_type = EventType.LR1121_MODEM_LORAWAN_EVENT_TX_DONE) :
    (w.app.class_b_set = true → w.app.class_b_ready = false →
      (ClassB.on_event b k m e w).app = { w.app with class_b_ready := true } ∧
      (ClassB.on_event b k m e w).app.class_b_ready = true ∧
      (ClassB.on_event b k m e w).app.class_b_set = true) ∧
    (¬ (w.app.class_b_set = true ∧ w.app.class_b_ready = false) →
      ClassB.on_event b k m e w = w) ∧
    (ClassB.on_event b k m e w).trace = w.trace := by
  refine ⟨?_, ?_, ?_⟩
  · intro hset hready
    simp [ClassB.on_event, htx, ClassB.on_tx_done, hset, hready]
  · intro hnot
    simp only [ClassB.on_event, htx, ClassB.on_tx_done]
    split_ifs with hcond
    · exfalso
      apply hnot
      simpa using hcond
    · rfl
  · simp only [ClassB.on_event, htx, ClassB.on_tx_done]
    split_ifs <;> rfl

/-- Sample run for `class_b_tx_done_marks_ready`: a TxDone event with status not-sent
(`data = 0`) while a class switch is pending. -/
theorem class_b_tx_done_marks_ready_witness :
    (ClassB.on_event false sample_consts
        (sample_modem 0 CertificationMode.LR1121_MODEM_CERTIFICATION_MODE_DISABLE 1)
        (sample_event EventType.LR1121_MODEM_LORAWAN_EVENT_TX_DONE 0)
        (World.mk { ClassB.State.init with class_b_set := true } [])).app.class_b_ready
      = true :=
  ((class_b_tx_done_marks_ready false sample_consts
    (sample_modem 0 CertificationMode.LR1121_MODEM_CERTIFICATION_MODE_DISABLE 1)
    (sample_event EventType.LR1121_MODEM_LORAWAN_EVENT_TX_DONE 0)
    (World.mk { ClassB.State.init with class_b_set := true } []) rfl).1 rfl rfl).2.1

theorem ClassB.step_keeps_ready_implies_set (b : Bool) (k : DriverConsts) (m : Modem)
    (s : ClassB.Step) (w : World ClassB.State)
    (hinv : w.app.class_b_ready = true → w.app.class_b_set = true) :
    (ClassB.step b k m s w).app.class_b_ready = true →
      (ClassB.step b k m s w).app.class_b_set = true := by
  cases s with
  | event e =>
    simp only [ClassB.step]
    unfold ClassB.on_event
    split
    · cases b <;> simp [ClassB.on_reset, reset_credentials]
    · exact hinv
    · simpa using hinv
    · unfold ClassB.on_tx_done
      split_ifs with hcond
      · intro _
        simp at hcond
        simpa using hcond.1
      · exact hinv
    · simpa [read_downlink] using hinv
    · exact hinv
    · exact hinv
    · exact hinv
    · unfold ClassB.on_class_b_status
      split_ifs
      · rw [ClassB.send_empty_uplink_app]
        exact hinv
      · exact hinv
    all_goals exact hinv
  | user_action =>
    simp only [ClassB.step]
    unfold ClassB.main_handle_button_pushed
    simp only []
    split_ifs <;> simp_all

theorem ClassB.run_keeps_ready_implies_set (b : Bool) (k : DriverConsts) (m : Modem)
    (steps : List ClassB.Step) (w : World ClassB.State)
    (hinv : w.app.class_b_ready = true → w.app.class_b_set = true) :
    (ClassB.run b k m steps w).app.class_b_ready = true →
      (ClassB.run b k m steps w).app.class_b_set = true := by
  induction steps generalizing w with
  | nil => exact hinv
  | cons s rest ih =>
    simp only [ClassB.run, List.foldl_cons]
    exact ih (ClassB.step b k m s w) (ClassB.step_keeps_ready_implies_set b k m s w hinv)

/-- C26: in the class_b application `class_b_ready` implies `class_b_set` in every state
reached from the initial state (both flags false, any command history) by any sequence
of events and user-action triggers, for any modem answers. -/
theorem class_b_ready_implies_set (b : Bool) (k : DriverConsts) (m : Modem)
    (steps : List ClassB.Step) (history : List Cmd) :
    (ClassB.run b k m steps (World.mk ClassB.State.init history)).app.class_b_ready = true →
      (ClassB.run b k m steps (World.mk ClassB.State.init history)).app.class_b_set = true :=
  ClassB.run_keeps_ready_implies_set b k m steps (World.mk ClassB.State.init history)
    (fun h => absurd (show ClassB.State.init.class_b_ready = true from h) (by decide))

/-- Sample run for `class_b_ready_implies_set`: Joined, a user action that arms Class B,
then a TxDone event; both flags are true afterwards. -/
theorem class_b_ready_implies_set_witness :
    (ClassB.run false sample_consts
        (sample_modem 0 CertificationMode.LR1121_MODEM_CERTIFICATION_MODE_DISABLE 1)
        [ClassB.Step.event (sample_event EventType.LR1121_MODEM_LORAWAN_EVENT_JOINED 0),
          ClassB.Step.user_action,
          ClassB.Step.event (sample_event EventType.LR1121_MODEM_LORAWAN_EVENT_TX_DONE 0x100)]
        (World.mk ClassB.State.init [])).app.class_b_set = true :=
  class_b_ready_implies_set false sample_consts
    (sample_modem 0 CertificationMode.LR1121_MODEM_CERTIFICATION_MODE_DISABLE 1)
    [ClassB.Step.event (sample_event EventType.LR1121_MODEM_LORAWAN_EVENT_JOINED 0),
      ClassB.Step.user_action,
      ClassB.Step.event (sample_event EventType.LR1121_MODEM_LORAWAN_EVENT_TX_DONE 0x100)]
    [] (by decide)

/-! ## Downlink size and the uplink counter -/

/-- C28: on a DownlinkData event the reported size is passed through unclamped. In each
application the handler asks `get_downlink_data` for exactly the number of bytes `s` that
the size query reported (one such request, no other), for every `s`, in particular for
every value `0..255` of the 8-bit size field; that number is within the capacity
`LORAWAN_APP_DATA_MAX_SIZE` of `rx_payload`, 242 bytes, if and only if `s <= 242`. -/
theorem down_data_size_unclamped (b : Bool) (k : DriverConsts) (m : Modem)
    (e : lr1121_modem_event_fields_t)
    (hdown : e.event_type = EventType.LR1121_MODEM_LORAWAN_EVENT_DOWN_DATA) :
    (∀ w : World Certification.State,
      (issued w (Certification.on_event b k m e w)).filter Cmd.isDownlinkDataRead
        = [Cmd.get_downlink_data (m.downlink_size w.now)]) ∧
    (∀ w : World ClassB.State,
      (issued w (ClassB.on_event b k m e w)).filter Cmd.isDownlinkDataRead
        = [Cmd.get_downlink_data (m.downlink_size w.now)]) ∧
    (∀ w : World Fuota.State,
      (issued w (Fuota.on_event b k m e w)).filter Cmd.isDownlinkDataRead
        = [Cmd.get_downlink_data (m.downlink_size w.now)]) ∧
    (∀ w : World Multicast.State,
      (issued w (Multicast.on_event b k m e w)).filter Cmd.isDownlinkDataRead
        = [Cmd.get_downlink_data (m.downlink_size w.now)]) ∧
    LORAWAN_APP_DATA_MAX_SIZE = 242 ∧
    (∀ s : Nat, s ≤ LORAWAN_APP_DATA_MAX_SIZE ↔ s ≤ 242) ∧
    Certification.State.init.rx_payload.length = LORAWAN_APP_DATA_MAX_SIZE := by
  refine ⟨?_, ?_, ?_, ?_, rfl, fun s => Iff.rfl, ?_⟩
  · intro w
    have htrace : (Certification.on_event b k m e w).trace
        = w.trace ++ [Cmd.get_downlink_data_size, Cmd.get_downlink_data (m.downlink_size w.now),
            Cmd.get_downlink_metadata] := by
      simp [Certification.on_event, hdown, Certification.on_down_data]
    rw [issued_of_trace _ _ _ htrace]
    rfl
  · intro w
    have htrace : (ClassB.on_event b k m e w).trace
        = w.trace ++ [Cmd.get_downlink_data_size, Cmd.get_downlink_data (m.downlink_size w.now),
            Cmd.get_downlink_metadata] := by
      simp [ClassB.on_event, hdown, read_downlink]
    rw [issued_of_trace _ _ _ htrace]
    rfl
  · intro w
    have htrace : (Fuota.on_event b k m e w).trace
        = w.trace ++ [Cmd.get_downlink_data_size, Cmd.get_downlink_data (m.downlink_size w.now),
            Cmd.get_downlink_metadata] := by
      simp [Fuota.on_event, hdown, read_downlink]
    rw [issued_of_trace _ _ _ htrace]
    rfl
  · intro w
    have htrace : (Multicast.on_event b k m e w).trace
        = w.trace ++ [Cmd.get_downlink_data_size, Cmd.get_downlink_data (m.downlink_size w.now),
            Cmd.get_downlink_metadata] := by
      simp [Multicast.on_event, hdown, read_downlink]
    rw [issued_of_trace _ _ _ htrace]
    rfl
  · simp [Certification.State.init]

/-- Sample run for `down_data_size_unclamped`: the modem reports a size of 250 bytes, more
than the 242 bytes of the buffer, and 250 bytes are requested. -/
theorem down_data_size_unclamped_witness :
    (issued (World.mk Certification.State.init [])
        (Certification.on_event false sample_consts
          { sample_modem 0 CertificationMode.LR1121_MODEM_CERTIFICATION_MODE_DISABLE 1 with
            downlink_size := fun _ => 250 }
          (sample_event EventType.LR1121_MODEM_LORAWAN_EVENT_DOWN_DATA 0)
          (World.mk Certification.State.init []))).filter Cmd.isDownlinkDataRead
      = [Cmd.get_downlink_data 250] :=
  (down_data_size_unclamped false sample_consts
    { sample_modem 0 CertificationMode.LR1121_MODEM_CERTIFICATION_MODE_DISABLE 1 with
      downlink_size := fun _ => 250 }
    (sample_event EventType.LR1121_MODEM_LORAWAN_EVENT_DOWN_DATA 0) rfl).1
    (World.mk Certification.State.init [])

/-- C29: in the certification application every call of `send_uplinks_counter_on_port`
increases `uplink_counter` by exactly 1 modulo `2^32` and changes no other static,
`confirmed_counter` included, for every modem: also when the duty-cycle gate blocks the
send, so that only the duty-cycle query is issued and no transmit request, and
whatever return code the transmit request gets. -/
theorem send_uplinks_counter_always_increments (m : Modem) (port : Nat)
    (w : World Certification.State) :
    (Certification.send_uplinks_counter_on_port m port w).app
      = { w.app with uplink_counter := (w.app.uplink_counter + 1) % 2 ^ 32 } ∧
    (Certification.send_uplinks_counter_on_port m port w).app.uplink_counter
      = (w.app.uplink_counter + 1) % 2 ^ 32 ∧
    (Certification.send_uplinks_counter_on_port m port w).app.confirmed_counter
      = w.app.confirmed_counter ∧
    (m.duty_cycle w.now < 0 →
      (Certification.send_uplinks_counter_on_port m port w).trace
        = w.trace ++ [Cmd.get_duty_cycle_status]) ∧
    (∀ rc' : Nat → ResponseCode,
      Certification.send_uplinks_counter_on_port { m with rc := rc' } port w
        = Certification.send_uplinks_counter_on_port m port w) := by
  have happ := Certification.send_uplinks_app m port w
  refine ⟨happ, by rw [happ], by rw [happ], ?_, ?_⟩
  · intro hblocked
    simp only [now_eq] at hblocked
    rw [Certification.send_uplinks_trace, send_frame_trace_blocked _ _ _ _ _ _ hblocked]
  · intro rc'
    simp only [Certification.send_uplinks_counter_on_port, send_frame_rc_irrelevant]

/-- Sample run for `send_uplinks_counter_always_increments`: the send is blocked by the duty
cycle (`-1`), the counter still goes from 0 to 1. -/
theorem send_uplinks_counter_always_increments_witness :
    (Certification.send_uplinks_counter_on_port
        (sample_modem (-1) CertificationMode.LR1121_MODEM_CERTIFICATION_MODE_DISABLE 1) 101
        (World.mk Certification.State.init [])).trace = [] ++ [Cmd.get_duty_cycle_status] ∧
    (Certification.send_uplinks_counter_on_port
        (sample_modem (-1) CertificationMode.LR1121_MODEM_CERTIFICATION_MODE_DISABLE 1) 101
        (World.mk Certification.State.init [])).app.uplink_counter = (0 + 1) % 2 ^ 32 :=
  ⟨(send_uplinks_counter_always_increments
      (sample_modem (-1) CertificationMode.LR1121_MODEM_CERTIFICATION_MODE_DISABLE 1) 101
      (World.mk Certification.State.init [])).2.2.2.1 (by decide),
   (send_uplinks_counter_always_increments
      (sample_modem (-1) CertificationMode.LR1121_MODEM_CERTIFICATION_MODE_DISABLE 1) 101
      (World.mk Certification.State.init [])).2.1⟩

/-! ## Event dispatcher: answers other than OK and NO_EVENT -/

theorem event_loop_skips_error {σ : Type}
    (on_event : lr1121_modem_event_fields_t → World σ → World σ)
    (rc : ResponseCode) (e : lr1121_modem_event_fields_t)
    (rest : List (ResponseCode × lr1121_modem_event_fields_t)) (w : World σ)
    (hok : rc ≠ ResponseCode.LR1121_MODEM_RESPONSE_CODE_OK)
    (hno : rc ≠ ResponseCode.LR1121_MODEM_RESPONSE_CODE_NO_EVENT) :
    event_loop on_event ((rc, e) :: rest) w = event_loop on_event rest (issue Cmd.get_event w) := by
  simp [event_loop, hok, hno]

theorem event_loop_ends_at_no_event {σ : Type}
    (on_event : lr1121_modem_event_fields_t → World σ → World σ)
    (pre : List (ResponseCode × lr1121_modem_event_fields_t))
    (last : lr1121_modem_event_fields_t)
    (rest : List (ResponseCode × lr1121_modem_event_fields_t)) (w : World σ)
    (hpre : ∀ a ∈ pre, a.1 ≠ ResponseCode.LR1121_MODEM_RESPONSE_CODE_NO_EVENT) :
    event_loop on_event
        (pre ++ (ResponseCode.LR1121_MODEM_RESPONSE_CODE_NO_EVENT, last) :: rest) w
      = some (issue Cmd.get_event (pre.foldl (poll_once on_event) w)) := by
  induction pre generalizing w with
  | nil => simp [event_loop]
  | cons a as ih =>
    obtain ⟨rc, e⟩ := a
    have hrc : rc ≠ ResponseCode.LR1121_MODEM_RESPONSE_CODE_NO_EVENT :=
      hpre (rc, e) (List.mem_cons_self _ _)
    have hrest : ∀ a ∈ as, a.1 ≠ ResponseCode.LR1121_MODEM_RESPONSE_CODE_NO_EVENT :=
      fun a ha => hpre a (List.mem_cons_of_mem _ ha)
    have h := ih (poll_once on_event w (rc, e)) hrest
    simp only [List.cons_append, List.foldl_cons, event_loop, hrc, ne_eq, not_false_eq_true,
      if_true]
    simpa [poll_once] using h

theorem fold_poll_once_count {σ : Type}
    (on_event : lr1121_modem_event_fields_t → World σ → World σ)
    (hquiet : ∀ e w, (on_event e w).trace.count Cmd.get_event = w.trace.count Cmd.get_event)
    (pre : List (ResponseCode × lr1121_modem_event_fields_t)) (w : World σ) :
    (pre.foldl (poll_once on_event) w).trace.count Cmd.get_event
      = w.trace.count Cmd.get_event + pre.length := by
  induction pre generalizing w with
  | nil => simp
  | cons a as ih =>
    simp only [List.foldl_cons, List.length_cons]
    rw [ih]
    unfold poll_once
    split_ifs
    · rw [hquiet]
      simp
      omega
    · simp
      omega

theorem event_loop_ends_at_first_no_event {σ : Type}
    (on_event : lr1121_modem_event_fields_t → World σ → World σ)
    (hquiet : ∀ e w, (on_event e w).trace.count Cmd.get_event = w.trace.count Cmd.get_event) :
    EndsAtFirstNoEvent (event_loop on_event) on_event := by
  intro pre last rest w hpre
  refine ⟨_, event_loop_ends_at_no_event on_event pre last rest w hpre, rfl, ?_⟩
  rw [issue_trace, List.count_append, fold_poll_once_count on_event hquiet]
  simp
  omega

/-- C30: in `event_process` of each application a `get_event` response code other than OK
and other than NO_EVENT (Busy or Fail, for example) runs no case of the switch, changes
no static and issues nothing but the poll itself, and does not end the drain: the loop
goes on with the next answer. Hence, for every sequence of answers, the loop returns at
the first NO_EVENT answer and the number of `get_event` calls equals the position of that
answer. -/
theorem event_process_polls_past_errors (b : Bool) (k : DriverConsts) (m : Modem) :
    (∀ (rc : ResponseCode) (e : lr1121_modem_event_fields_t)
        (rest : List (ResponseCode × lr1121_modem_event_fields_t)),
      rc ≠ ResponseCode.LR1121_MODEM_RESPONSE_CODE_OK →
      rc ≠ ResponseCode.LR1121_MODEM_RESPONSE_CODE_NO_EVENT →
        (∀ w : World Certification.State,
          Certification.event_process b k m ((rc, e) :: rest) w
            = Certification.event_process b k m rest (issue Cmd.get_event w)) ∧
        (∀ w : World ClassB.State,
          ClassB.event_process b k m ((rc, e) :: rest) w
            = ClassB.event_process b k m rest (issue Cmd.get_event w)) ∧
        (∀ w : World Fuota.State,
          Fuota.event_process b k m ((rc, e) :: rest) w
            = Fuota.event_process b k m rest (issue Cmd.get_event w)) ∧
        (∀ w : World Multicast.State,
          Multicast.event_process b k m ((rc, e) :: rest) w
            = Multicast.event_process b k m rest (issue Cmd.get_event w))) ∧
    EndsAtFirstNoEvent (Certification.event_process b k m) (Certification.on_event b k m) ∧
    EndsAtFirstNoEvent (ClassB.event_process b k m) (ClassB.on_event b k m) ∧
    EndsAtFirstNoEvent (Fuota.event_process b k m) (Fuota.on_event b k m) ∧
    EndsAtFirstNoEvent (Multicast.event_process b k m) (Multicast.on_event b k m) := by
  refine ⟨?_, ?_, ?_, ?_, ?_⟩
  · intro rc e rest hok hno
    exact ⟨fun w => event_loop_skips_error _ rc e rest w hok hno,
      fun w => event_loop_skips_error _ rc e rest w hok hno,
      fun w => event_loop_skips_error _ rc e rest w hok hno,
      fun w => event_loop_skips_error _ rc e rest w hok hno⟩
  · exact event_loop_ends_at_first_no_event _ (certification_switch_keeps_get_event_count b k m)
  · exact event_loop_ends_at_first_no_event _ (class_b_switch_keeps_get_event_count b k m)
  · exact event_loop_ends_at_first_no_event _ (fuota_switch_keeps_get_event_count b k m)
  · exact event_loop_ends_at_first_no_event _ (multicast_switch_keeps_get_event_count b k m)

/-- Sample run for `event_process_polls_past_errors`: the answers BUSY, OK (Joined), FAIL,
NO_EVENT in the Class B application; `get_event` is called four times and the switch runs
once. -/
theorem event_process_polls_past_errors_witness :
    ClassB.event_process false sample_consts
        (sample_modem 0 CertificationMode.LR1121_MODEM_CERTIFICATION_MODE_DISABLE 1)
        [(ResponseCode.LR1121_MODEM_RESPONSE_CODE_BUSY,
            sample_event EventType.LR1121_MODEM_LORAWAN_EVENT_RESET 0),
          (ResponseCode.LR1121_MODEM_RESPONSE_CODE_OK,
            sample_event EventType.LR1121_MODEM_LORAWAN_EVENT_JOINED 0),
          (ResponseCode.LR1121_MODEM_RESPONSE_CODE_FAIL,
            sample_event EventType.LR1121_MODEM_LORAWAN_EVENT_RESET 0),
          (ResponseCode.LR1121_MODEM_RESPONSE_CODE_NO_EVENT,
            sample_event EventType.LR1121_MODEM_LORAWAN_EVENT_RESET 0)]
        (World.mk ClassB.State.init [])
      = ClassB.event_process false sample_consts
        (sample_modem 0 CertificationMode.LR1121_MODEM_CERTIFICATION_MODE_DISABLE 1)
        [(ResponseCode.LR1121_MODEM_RESPONSE_CODE_OK,
            sample_event EventType.LR1121_MODEM_LORAWAN_EVENT_JOINED 0),
          (ResponseCode.LR1121_MODEM_RESPONSE_CODE_FAIL,
            sample_event EventType.LR1121_MODEM_LORAWAN_EVENT_RESET 0),
          (ResponseCode.LR1121_MODEM_RESPONSE_CODE_NO_EVENT,
            sample_event EventType.LR1121_MODEM_LORAWAN_EVENT_RESET 0)]
        (issue Cmd.get_event (World.mk ClassB.State.init [])) ∧
    (ClassB.event_process false sample_consts
        (sample_modem 0 CertificationMode.LR1121_MODEM_CERTIFICATION_MODE_DISABLE 1)
        [(ResponseCode.LR1121_MODEM_RESPONSE_CODE_BUSY,
            sample_event EventType.LR1121_MODEM_LORAWAN_EVENT_RESET 0),
          (ResponseCode.LR1121_MODEM_RESPONSE_CODE_OK,
            sample_event EventType.LR1121_MODEM_LORAWAN_EVENT_JOINED 0),
          (ResponseCode.LR1121_MODEM_RESPONSE_CODE_FAIL,
            sample_event EventType.LR1121_MODEM_LORAWAN_EVENT_RESET 0),
          (ResponseCode.LR1121_MODEM_RESPONSE_CODE_NO_EVENT,
            sample_event EventType.LR1121_MODEM_LORAWAN_EVENT_RESET 0)]
        (World.mk ClassB.State.init [])).map World.trace
      = some [Cmd.get_event, Cmd.get_event, Cmd.set_adr_profile, Cmd.get_event,
          Cmd.get_event] :=
  ⟨((event_process_polls_past_errors false sample_consts
      (sample_modem 0 CertificationMode.LR1121_MODEM_CERTIFICATION_MODE_DISABLE 1)).1
      ResponseCode.LR1121_MODEM_RESPONSE_CODE_BUSY
      (sample_event EventType.LR1121_MODEM_LORAWAN_EVENT_RESET 0) _ (by decide)
      (by decide)).2.1 (World.mk ClassB.State.init []),
   by decide⟩

/-! ## Commands that need a joined device -/

theorem quiet_of_trace {σ : Type} (w w' : World σ) (L : List Cmd)
    (h : w'.trace = w.trace ++ L) (hL : ∀ c ∈ L, c.needsJoined = false) :
    ¬ ∃ c ∈ issued w w', c.needsJoined = true := by
  rintro ⟨c, hc, hneeds⟩
  rw [issued_of_trace w w' L h] at hc
  rw [hL c hc] at hneeds
  exact Bool.false_ne_true hneeds

theorem certification_quiet_events (b : Bool) (k : DriverConsts) (m : Modem)
    (e : lr1121_modem_event_fields_t) (w : World Certification.State)
    (hloud : ¬ ((e.event_type = EventType.LR1121_MODEM_LORAWAN_EVENT_ALARM ∨
        e.event_type = EventType.LR1121_MODEM_LORAWAN_EVENT_JOINED) ∧
      w.app.certif_running = CertificationMode.LR1121_MODEM_CERTIFICATION_MODE_DISABLE)) :
    ∃ L : List Cmd, (Certification.on_event b k m e w).trace = w.trace ++ L ∧
      ∀ c ∈ L, c.needsJoined = false := by
  unfold Certification.on_event
  split
  · cases hmode : m.certification_mode (w.trace.length + 3)
    · refine ⟨reset_preamble ++ [Cmd.get_certification_mode] ++ credentials_cmds b ++
        [Cmd.set_region LORAWAN_REGION_USED, Cmd.join],
        by rw [Certification.on_reset_trace_disabled b m w hmode]; simp only
          [List.append_assoc], ?_⟩
      cases b <;> simp [reset_preamble, credentials_cmds, Cmd.needsJoined, Cmd.isTx,
        Cmd.isSetClass, Cmd.isMulticastSession]
    · by_cases hregion : m.region (w.trace.length + 4 + (credentials_print_cmds b).length)
          ≠ LORAWAN_REGION_USED
      · refine ⟨reset_preamble ++ [Cmd.get_certification_mode] ++ credentials_print_cmds b ++
          [Cmd.get_and_print_lorawan_region_from_modem, Cmd.leave_network],
          by rw [Certification.on_reset_trace_enabled b m w hmode, if_pos hregion]; simp only
            [List.append_assoc, List.singleton_append], ?_⟩
        cases b <;> simp [reset_preamble, credentials_print_cmds, Cmd.needsJoined, Cmd.isTx,
          Cmd.isSetClass, Cmd.isMulticastSession]
      · refine ⟨reset_preamble ++ [Cmd.get_certification_mode] ++ credentials_print_cmds b ++
          [Cmd.get_and_print_lorawan_region_from_modem],
          by rw [Certification.on_reset_trace_enabled b m w hmode, if_neg hregion]; simp only
            [List.append_assoc, List.append_nil], ?_⟩
        cases b <;> simp [reset_preamble, credentials_print_cmds, Cmd.needsJoined, Cmd.isTx,
          Cmd.isSetClass, Cmd.isMulticastSession]
  · rename_i halarm
    have hen : w.app.certif_running
        = CertificationMode.LR1121_MODEM_CERTIFICATION_MODE_ENABLE := by
      cases hmode : w.app.certif_running
      · exact absurd ⟨Or.inl halarm, hmode⟩ hloud
      · rfl
    exact ⟨[Cmd.clear_alarm_timer], by simp [Certification.on_alarm, hen],
      by simp [Cmd.needsJoined, Cmd.isTx, Cmd.isSetClass, Cmd.isMulticastSession]⟩
  · rename_i hjoined
    have hen : w.app.certif_running
        = CertificationMode.LR1121_MODEM_CERTIFICATION_MODE_ENABLE := by
      cases hmode : w.app.certif_running
      · exact absurd ⟨Or.inr hjoined, hmode⟩ hloud
      · rfl
    exact ⟨[Cmd.set_adr_profile], by simp [Certification.on_joined, hen],
      by simp [Cmd.needsJoined, Cmd.isTx, Cmd.isSetClass, Cmd.isMulticastSession]⟩
  · refine ⟨[], ?_, by simp⟩
    unfold Certification.on_tx_done
    simp only []
    split_ifs <;> simp
  · exact ⟨[Cmd.get_downlink_data_size, Cmd.get_downlink_data (m.downlink_size w.now),
      Cmd.get_downlink_metadata], by simp [Certification.on_down_data],
      by simp [Cmd.needsJoined, Cmd.isTx, Cmd.isSetClass, Cmd.isMulticastSession]⟩
  all_goals exact ⟨[], by simp, by simp⟩

theorem class_b_quiet_events (b : Bool) (k : DriverConsts) (m : Modem)
    (e : lr1121_modem_event_fields_t) (w : World ClassB.State)
    (hloud : ¬ (e.event_type = EventType.LR1121_MODEM_LORAWAN_EVENT_CLASS_B_STATUS ∧
      e.data ≠ 0)) :
    ∃ L : List Cmd, (ClassB.on_event b k m e w).trace = w.trace ++ L ∧
      ∀ c ∈ L, c.needsJoined = false := by
  unfold ClassB.on_event
  split
  · cases b
    · refine ⟨reset_preamble ++ credentials_cmds false ++
        [Cmd.set_region LORAWAN_REGION_USED, Cmd.join], ?_, ?_⟩
      · simp [ClassB.on_reset, reset_credentials, reset_preamble, credentials_cmds]
      · simp [reset_preamble, credentials_cmds, Cmd.needsJoined, Cmd.isTx, Cmd.isSetClass,
          Cmd.isMulticastSession]
    · refine ⟨reset_preamble ++ credentials_cmds true ++
        [Cmd.set_region LORAWAN_REGION_USED, Cmd.join], ?_, ?_⟩
      · simp [ClassB.on_reset, reset_credentials, reset_preamble, credentials_cmds]
      · simp [reset_preamble, credentials_cmds, Cmd.needsJoined, Cmd.isTx, Cmd.isSetClass,
          Cmd.isMulticastSession]
  · exact ⟨[], by simp, by simp⟩
  · exact ⟨[Cmd.set_adr_profile], by simp,
      by simp [Cmd.needsJoined, Cmd.isTx, Cmd.isSetClass, Cmd.isMulticastSession]⟩
  · refine ⟨[], ?_, by simp⟩
    unfold ClassB.on_tx_done
    split_ifs <;> simp
  · exact ⟨[Cmd.get_downlink_data_size, Cmd.get_downlink_data (m.downlink_size w.now),
      Cmd.get_downlink_metadata], by simp [read_downlink],
      by simp [Cmd.needsJoined, Cmd.isTx, Cmd.isSetClass, Cmd.isMulticastSession]⟩
  · exact ⟨[], by simp, by simp⟩
  · exact ⟨[], by simp, by simp⟩
  · exact ⟨[], by simp, by simp⟩
  · rename_i hstatus
    have hzero : e.data = 0 := by
      by_contra hne
      exact hloud ⟨hstatus, hne⟩
    exact ⟨[], by simp [ClassB.on_class_b_status, hzero], by simp⟩
  all_goals exact ⟨[], by simp, by simp⟩

theorem fuota_empty_uplink_trace (m : Modem) (conf : Nat) (w : World Fuota.State) :
    (Fuota.send_empty_uplink m conf w).2.trace
      = w.trace ++ (if m.duty_cycle w.trace.length < 0 then [Cmd.get_duty_cycle_status]
          else [Cmd.get_duty_cycle_status, Cmd.request_empty_tx false 1 conf]) := by
  unfold Fuota.send_empty_uplink
  simp only [now_eq]
  split_ifs <;> simp

theorem fuota_quiet_events (b : Bool) (k : DriverConsts) (m : Modem)
    (e : lr1121_modem_event_fields_t) (w : World Fuota.State)
    (hloud : ¬ (e.event_type = EventType.LR1121_MODEM_LORAWAN_EVENT_ALARM ∨
      e.event_type = EventType.LR1121_MODEM_LORAWAN_EVENT_JOINED)) :
    ∃ L : List Cmd, (Fuota.on_event b k m e w).trace = w.trace ++ L ∧
      ∀ c ∈ L, c.needsJoined = false := by
  unfold Fuota.on_event
  split
  · by_cases hmode : m.certification_mode (w.trace.length + 4 + (credentials_cmds b).length)
        = CertificationMode.LR1121_MODEM_CERTIFICATION_MODE_ENABLE
    · refine ⟨reset_preamble ++ credentials_cmds b ++
        [Cmd.set_region LORAWAN_REGION_USED, Cmd.get_certification_mode, Cmd.join], ?_, ?_⟩
      · cases b <;>
          simp [credentials_cmds] at hmode <;>
          simp [Fuota.on_reset, reset_credentials, credentials_cmds, reset_preamble, hmode]
      · cases b <;> simp [reset_preamble, credentials_cmds, Cmd.needsJoined, Cmd.isTx,
          Cmd.isSetClass, Cmd.isMulticastSession]
    · refine ⟨reset_preamble ++ credentials_cmds b ++
        [Cmd.set_region LORAWAN_REGION_USED, Cmd.get_certification_mode,
          Cmd.set_certification_mode CertificationMode.LR1121_MODEM_CERTIFICATION_MODE_ENABLE,
          Cmd.join], ?_, ?_⟩
      · cases b <;>
          simp [credentials_cmds] at hmode <;>
          simp [Fuota.on_reset, reset_credentials, credentials_cmds, reset_preamble, hmode]
      · cases b <;> simp [reset_preamble, credentials_cmds, Cmd.needsJoined, Cmd.isTx,
          Cmd.isSetClass, Cmd.isMulticastSession]
  · rename_i halarm
    exact absurd (Or.inl halarm) hloud
  · rename_i hjoined
    exact absurd (Or.inr hjoined) hloud
  · exact ⟨[], by simp, by simp⟩
  · exact ⟨[Cmd.get_downlink_data_size, Cmd.get_downlink_data (m.downlink_size w.now),
      Cmd.get_downlink_metadata], by simp [read_downlink],
      by simp [Cmd.needsJoined, Cmd.isTx, Cmd.isSetClass, Cmd.isMulticastSession]⟩
  · exact ⟨[], by simp, by simp⟩
  · exact ⟨[], by simp, by simp⟩
  · exact ⟨[], by simp, by simp⟩
  · exact ⟨[], by simp, by simp⟩
  · exact ⟨[], by simp, by simp⟩
  · exact ⟨[Cmd.get_multicast_class_c_session_status ((e.data >>> 1) % 256)], by simp,
      by simp [Cmd.needsJoined, Cmd.isTx, Cmd.isSetClass, Cmd.isMulticastSession]⟩
  · exact ⟨[Cmd.get_multicast_class_b_session_status ((e.data >>> 1) % 256)], by simp,
      by simp [Cmd.needsJoined, Cmd.isTx, Cmd.isSetClass, Cmd.isMulticastSession]⟩
  all_goals exact ⟨[], by simp, by simp⟩

theorem multicast_quiet_events (b : Bool) (k : DriverConsts) (m : Modem)
    (e : lr1121_modem_event_fields_t) (w : World Multicast.State)
    (hloud : ¬ (e.event_type = EventType.LR1121_MODEM_LORAWAN_EVENT_JOINED ∨
      (e.event_type = EventType.LR1121_MODEM_LORAWAN_EVENT_CLASS_B_STATUS ∧ e.data ≠ 0))) :
    ∃ L : List Cmd, (Multicast.on_event b k m e w).trace = w.trace ++ L ∧
      ∀ c ∈ L, c.needsJoined = false := by
  unfold Multicast.on_event
  split
  · cases b
    · refine ⟨reset_preamble ++ credentials_cmds false ++
        [Cmd.set_region LORAWAN_REGION_USED, Cmd.join], ?_, ?_⟩
      · simp [Multicast.on_reset, reset_credentials, reset_preamble, credentials_cmds]
      · simp [reset_preamble, credentials_cmds, Cmd.needsJoined, Cmd.isTx, Cmd.isSetClass,
          Cmd.isMulticastSession]
    · refine ⟨reset_preamble ++ credentials_cmds true ++
        [Cmd.set_region LORAWAN_REGION_USED, Cmd.join], ?_, ?_⟩
      · simp [Multicast.on_reset, reset_credentials, reset_preamble, credentials_cmds]
      · simp [reset_preamble, credentials_cmds, Cmd.needsJoined, Cmd.isTx, Cmd.isSetClass,
          Cmd.isMulticastSession]
  · exact ⟨[], by simp, by simp⟩
  · rename_i hjoined
    exact absurd (Or.inl hjoined) hloud
  · exact ⟨[], by simp, by simp⟩
  · exact ⟨[Cmd.get_downlink_data_size, Cmd.get_downlink_data (m.downlink_size w.now),
      Cmd.get_downlink_metadata], by simp [read_downlink],
      by simp [Cmd.needsJoined, Cmd.isTx, Cmd.isSetClass, Cmd.isMulticastSession]⟩
  · exact ⟨[], by simp, by simp⟩
  · exact ⟨[], by simp, by simp⟩
  · exact ⟨[], by simp, by simp⟩
  · rename_i hstatus
    have hzero : e.data = 0 := by
      by_contra hne
      exact hloud (Or.inr ⟨hstatus, hne⟩)
    exact ⟨[], by simp [Multicast.on_class_b_status, hzero], by simp⟩
  all_goals exact ⟨[], by simp, by simp⟩

/-- C24, as stated, fails: in the certification application the queue Reset, Alarm (no
Joined event processed since the Reset), with certification mode disabled and a clear duty
cycle, ends with a transmit request issued by the Alarm case. -/
theorem alarm_before_joined_transmits :
    (Certification.event_process false sample_consts
        (sample_modem 0 CertificationMode.LR1121_MODEM_CERTIFICATION_MODE_DISABLE 1)
        [(ResponseCode.LR1121_MODEM_RESPONSE_CODE_OK,
            sample_event EventType.LR1121_MODEM_LORAWAN_EVENT_RESET 0),
          (ResponseCode.LR1121_MODEM_RESPONSE_CODE_OK,
            sample_event EventType.LR1121_MODEM_LORAWAN_EVENT_ALARM 0),
          (ResponseCode.LR1121_MODEM_RESPONSE_CODE_NO_EVENT,
            sample_event EventType.LR1121_MODEM_LORAWAN_EVENT_RESET 0)]
        (World.mk Certification.State.init [])).map World.trace
      = some [Cmd.get_event, Cmd.system_cfg_lfclk, Cmd.set_crystal_error 50,
          Cmd.get_and_print_crashlog, Cmd.get_certification_mode, Cmd.set_dev_eui,
          Cmd.set_join_eui, Cmd.set_app_key, Cmd.set_nwk_key, Cmd.set_region 1, Cmd.join,
          Cmd.get_event, Cmd.get_duty_cycle_status, Cmd.get_next_tx_max_payload,
          Cmd.request_tx 101 1 (some [0, 0, 0, 0, 0, 0, 0, 0]) 8, Cmd.set_alarm_timer 30,
          Cmd.get_event] ∧
    (Cmd.request_tx 101 1 (some [0, 0, 0, 0, 0, 0, 0, 0]) 8).needsJoined = true := by
  constructor <;> decide

/-- C24, amended: the applications keep no joined flag, and the commands that need a
joined device (transmit requests, `set_class`, multicast start and stop) are issued only
by these steps: in the certification application an Alarm or Joined event with
certification mode disabled; in the class_b application a ClassBStatus event with
`data != 0` or a user action for which the modem status has the JOINED bit; in the FUOTA
application an Alarm or Joined event or a user action for which the modem status has the
JOINED bit; in the multicast application a Joined event, a ClassBStatus event with
`data != 0`, or a user action with `unicast_ready` true. Every other step (Reset, TxDone,
DownlinkData and the observability-only events, user actions that fail their test, the
status poll) issues none of them, whether or not a Joined event was processed before. -/
theorem radio_commands_only_from_gated_steps (b : Bool) (k : DriverConsts) (m : Modem) :
    (∀ (s : Certification.Step) (w : World Certification.State),
      (∃ c ∈ issued w (Certification.step b k m s w), c.needsJoined = true) →
        ∃ e, s = Certification.Step.event e ∧
          (e.event_type = EventType.LR1121_MODEM_LORAWAN_EVENT_ALARM ∨
            e.event_type = EventType.LR1121_MODEM_LORAWAN_EVENT_JOINED) ∧
          w.app.certif_running = CertificationMode.LR1121_MODEM_CERTIFICATION_MODE_DISABLE) ∧
    (∀ (s : ClassB.Step) (w : World ClassB.State),
      (∃ c ∈ issued w (ClassB.step b k m s w), c.needsJoined = true) →
        (∃ e, s = ClassB.Step.event e ∧
          e.event_type = EventType.LR1121_MODEM_LORAWAN_EVENT_CLASS_B_STATUS ∧ e.data ≠ 0) ∨
        (s = ClassB.Step.user_action ∧
          m.status w.now &&& k.LR1121_LORAWAN_JOINED = k.LR1121_LORAWAN_JOINED)) ∧
    (∀ (s : Fuota.Step) (w : World Fuota.State),
      (∃ c ∈ issued w (Fuota.step b k m s w), c.needsJoined = true) →
        (∃ e, s = Fuota.Step.event e ∧
          (e.event_type = EventType.LR1121_MODEM_LORAWAN_EVENT_ALARM ∨
            e.event_type = EventType.LR1121_MODEM_LORAWAN_EVENT_JOINED)) ∨
        (s = Fuota.Step.user_action ∧
          m.status w.now &&& k.LR1121_LORAWAN_JOINED = k.LR1121_LORAWAN_JOINED)) ∧
    (∀ (s : Multicast.Step) (w : World Multicast.State),
      (∃ c ∈ issued w (Multicast.step b k m s w), c.needsJoined = true) →
        (∃ e, s = Multicast.Step.event e ∧
          (e.event_type = EventType.LR1121_MODEM_LORAWAN_EVENT_JOINED ∨
            (e.event_type = EventType.LR1121_MODEM_LORAWAN_EVENT_CLASS_B_STATUS ∧
              e.data ≠ 0))) ∨
        (s = Multicast.Step.user_action ∧ w.app.unicast_ready = true)) := by
  refine ⟨?_, ?_, ?_, ?_⟩
  · intro s w hex
    cases s with
    | event e =>
      refine ⟨e, rfl, ?_⟩
      by_contra hloud
      obtain ⟨L, hL, hquiet⟩ := certification_quiet_events b k m e w hloud
      exact quiet_of_trace w _ L hL hquiet hex
    | user_action =>
      exfalso
      refine quiet_of_trace w (Certification.main_handle_button_pushed w)
        (if w.app.certif_running = CertificationMode.LR1121_MODEM_CERTIFICATION_MODE_ENABLE
          then [Cmd.set_certification_mode
              CertificationMode.LR1121_MODEM_CERTIFICATION_MODE_DISABLE,
            Cmd.leave_network, Cmd.join]
          else [Cmd.set_certification_mode
            CertificationMode.LR1121_MODEM_CERTIFICATION_MODE_ENABLE]) ?_ ?_ hex
      · unfold Certification.main_handle_button_pushed
        split_ifs <;> simp
      · split_ifs <;>
          simp [Cmd.needsJoined, Cmd.isTx, Cmd.isSetClass, Cmd.isMulticastSession]
  · intro s w hex
    cases s with
    | event e =>
      left
      refine ⟨e, rfl, ?_⟩
      by_contra hloud
      obtain ⟨L, hL, hquiet⟩ := class_b_quiet_events b k m e w hloud
      exact quiet_of_trace w _ L hL hquiet hex
    | user_action =>
      right
      refine ⟨rfl, ?_⟩
      by_contra hnot
      simp only [now_eq] at hnot
      refine quiet_of_trace w (ClassB.main_handle_button_pushed k m w) [Cmd.get_status] ?_ ?_ hex
      · rw [class_b_button_trace, if_neg hnot]
      · simp [Cmd.needsJoined, Cmd.isTx, Cmd.isSetClass, Cmd.isMulticastSession]
  · intro s w hex
    cases s with
    | event e =>
      left
      refine ⟨e, rfl, ?_⟩
      by_contra hloud
      obtain ⟨L, hL, hquiet⟩ := fuota_quiet_events b k m e w hloud
      exact quiet_of_trace w _ L hL hquiet hex
    | user_action =>
      right
      refine ⟨rfl, ?_⟩
      by_contra hnot
      simp only [now_eq] at hnot
      refine quiet_of_trace w (Fuota.main_button_pushed k m w) [Cmd.get_status] ?_ ?_ hex
      · simp [Fuota.main_button_pushed, hnot]
      · simp [Cmd.needsJoined, Cmd.isTx, Cmd.isSetClass, Cmd.isMulticastSession]
  · intro s w hex
    cases s with
    | event e =>
      left
      refine ⟨e, rfl, ?_⟩
      by_contra hloud
      obtain ⟨L, hL, hquiet⟩ := multicast_quiet_events b k m e w hloud
      exact quiet_of_trace w _ L hL hquiet hex
    | user_action =>
      right
      refine ⟨rfl, ?_⟩
      by_contra hnot
      refine quiet_of_trace w (Multicast.main_handle_button_pushed k w) [] ?_ ?_ hex
      · rw [multicast_button_trace, if_neg hnot]
      · simp
    | status_poll =>
      exfalso
      refine quiet_of_trace w (Multicast.main_status_poll k m w) _
        (Multicast.status_poll_trace k m w) ?_ hex
      split_ifs <;> simp [Cmd.needsJoined, Cmd.isTx, Cmd.isSetClass, Cmd.isMulticastSession]

/-- Sample run for `radio_commands_only_from_gated_steps`: the Alarm event of the
certification application from the initial state issues a transmit request, and the step
is an Alarm event taken with certification mode disabled. -/
theorem radio_commands_only_from_gated_steps_witness :
    ∃ e, Certification.Step.event (sample_event EventType.LR1121_MODEM_LORAWAN_EVENT_ALARM 0)
        = Certification.Step.event e ∧
      (e.event_type = EventType.LR1121_MODEM_LORAWAN_EVENT_ALARM ∨
        e.event_type = EventType.LR1121_MODEM_LORAWAN_EVENT_JOINED) ∧
      (World.mk Certification.State.init [] : World Certification.State).app.certif_running
        = CertificationMode.LR1121_MODEM_CERTIFICATION_MODE_DISABLE :=
  (radio_commands_only_from_gated_steps false sample_consts
    (sample_modem 0 CertificationMode.LR1121_MODEM_CERTIFICATION_MODE_DISABLE 1)).1
    (Certification.Step.event (sample_event EventType.LR1121_MODEM_LORAWAN_EVENT_ALARM 0))
    (World.mk Certification.State.init [])
    ⟨Cmd.request_tx 101 1 (some [0, 0, 0, 0, 0, 0, 0, 0]) 8, by decide, by decide⟩

end ModemE
